import Mathlib

set_option maxHeartbeats 1000000

/-!
Shallow embedding of the core game logic of the `tic_tac_toe` repository
(src/game/board.rs, src/game/artificial_intelligence.rs, src/game/players.rs),
together with proofs about it.  Rust `u8` arithmetic on the turn counter is
modelled as `Nat` arithmetic modulo 256.
-/

/-- src/game/players.rs: `Role`. -/
inductive Role where
  | O
  | X
deriving DecidableEq, Repr

/-- The opposite role (written as an inline branch in `minimax` in the source). -/
def Role.other : Role → Role
  | .O => .X
  | .X => .O

/-- src/game/board.rs: `PlayingPosition` (a pair of `u8` board coordinates). -/
abbrev PlayingPosition := Nat × Nat

/-- src/game/board.rs: `MagicSquareNumber` (a `u8`). -/
abbrev MagicSquareNumber := Nat

/-- src/game/board.rs: `Tile`. -/
inductive Tile where
  | Empty (n : Nat)
  | O (n : Nat)
  | X (n : Nat)
deriving DecidableEq, Repr

/-- The magic-square number carried by a tile (the three-armed match used in
`Board::compute_result` and `Board::reset`). -/
def Tile.num : Tile → Nat
  | .Empty n => n
  | .O n => n
  | .X n => n

/-- The filter predicate of `Board::compute_result`: an occupied tile of the
queried role. -/
def Tile.ownedBy : Tile → Role → Bool
  | .Empty _, _ => false
  | .O _, .O => true
  | .O _, .X => false
  | .X _, .X => true
  | .X _, .O => false

/-- src/game/board.rs: `Solution` (`[PlayingPosition; 3]`, modelled as a list,
always of length 3 where produced). -/
abbrev Solution := List PlayingPosition

/-- src/game/board.rs: `GameResult`. -/
inductive GameResult where
  | Draw
  | NotFinished
  | Winner (role : Role) (solution : Solution)
deriving DecidableEq, Repr

/-- src/game/board.rs: `Board`.  `turns` is a `u8` in the source; all
arithmetic on it below is explicitly modulo 256. -/
structure Board where
  highlighted_solution : Option Solution
  playing_position : PlayingPosition
  tiles : List Tile
  turns : Nat
deriving DecidableEq, Repr

/-- src/game/board.rs: `Board::new`. -/
def Board.new : Board where
  highlighted_solution := none
  playing_position := (1, 1)
  tiles := [Tile.Empty 8, Tile.Empty 1, Tile.Empty 6,
            Tile.Empty 3, Tile.Empty 5, Tile.Empty 7,
            Tile.Empty 4, Tile.Empty 9, Tile.Empty 2]
  turns := 0

/-- Itertools `combinations(k)`: every length-`k` subsequence of the input, in
the order itertools emits them (the earliest element varies slowest). -/
def combinations (k : Nat) (l : List α) : List (List α) :=
  match k, l with
  | 0, _ => [[]]
  | _ + 1, [] => []
  | k + 1, x :: xs => ((combinations k xs).map (x :: ·)) ++ combinations (k + 1) xs

/-- src/game/board.rs: `Board::compute_result`.  The iterator chain
`enumerate → filter(role's tiles) → combinations(3) → find(sum == 15)` and the
mapping of the found indices back to coordinates `(index % 3, index / 3)`. -/
def Board.compute_result (b : Board) (for_role : Role) : GameResult :=
  match (combinations 3 (b.tiles.enum.filter (fun m => m.2.ownedBy for_role))).find?
      (fun moves => (moves.map (fun m => m.2.num)).sum == 15) with
  | some moves =>
      GameResult.Winner for_role (moves.map (fun m => (m.1 % 3, m.1 / 3)))
  | none => if 9 > b.turns then GameResult.NotFinished else GameResult.Draw

/-- src/game/board.rs: `Board::get` (indexing `tiles[y * 3 + x]`; in-range in
every use proved below). -/
def Board.get (b : Board) (x y : Nat) : Tile :=
  b.tiles.getD (y * 3 + x) (Tile.Empty 0)

/-- src/game/board.rs: `Board::is_empty`. -/
def Board.is_empty (b : Board) (x y : Nat) : Bool :=
  match b.get x y with
  | Tile.Empty _ => true
  | _ => false

/-- src/game/board.rs: `Board::get_available_spots` (`x` ascending in the
outer loop, `y` ascending in the inner loop). -/
def Board.get_available_spots (b : Board) : List PlayingPosition :=
  (List.range 3).flatMap
    (fun x => ((List.range 3).filter (fun y => b.is_empty x y)).map (fun y => (x, y)))

/-- src/game/board.rs: `Board::highlight_solution`. -/
def Board.highlight_solution (b : Board) (solution : Solution) : Board :=
  { b with highlighted_solution := some solution }

/-- The tile written by `Board::set` for a role, keeping the magic-square
number of the overwritten empty tile. -/
def Role.tile (r : Role) (n : Nat) : Tile :=
  match r with
  | .O => Tile.O n
  | .X => Tile.X n

/-- src/game/board.rs: `Board::set`.  Returns the mutated board together with
the returned `GameResult`.  `turns += 1` on a `u8` is `(turns + 1) % 256`. -/
def Board.set (b : Board) (x y : Nat) (for_role : Role) : Board × GameResult :=
  let index := y * 3 + x
  match b.tiles.getD index (Tile.Empty 0) with
  | Tile.Empty n =>
      let b' : Board :=
        { b with tiles := b.tiles.set index (for_role.tile n),
                 turns := (b.turns + 1) % 256 }
      (b', b'.compute_result for_role)
  | _ => (b, GameResult.NotFinished)

/-- src/game/board.rs: `Board::reset`.  Rewrites the addressed tile as empty
(keeping its magic-square number) and decrements the `u8` turn counter
unconditionally: `turns -= 1` is `(turns + 255) % 256` (underflowing from 0 to
255 in release builds; a panic in checked builds). -/
def Board.reset (b : Board) (x y : Nat) : Board :=
  let index := y * 3 + x
  { b with tiles := b.tiles.set index (Tile.Empty (b.tiles.getD index (Tile.Empty 0)).num),
           turns := (b.turns + 255) % 256 }

/-- The 8 canonical three-in-a-row lines, in the order of the spec (3 rows,
3 columns, 2 diagonals); also the `WINNING_SOLUTIONS` constant of the
repository's tests. -/
def WINNING_SOLUTIONS : List Solution :=
  [[(0, 0), (1, 0), (2, 0)],
   [(0, 1), (1, 1), (2, 1)],
   [(0, 2), (1, 2), (2, 2)],
   [(0, 0), (0, 1), (0, 2)],
   [(1, 0), (1, 1), (1, 2)],
   [(2, 0), (2, 1), (2, 2)],
   [(0, 0), (1, 1), (2, 2)],
   [(2, 0), (1, 1), (0, 2)]]

/-- A solution is uniformly occupied by a role on a board. -/
def Board.solOwned (b : Board) (sol : Solution) (r : Role) : Bool :=
  sol.all (fun pos => (b.get pos.1 pos.2).ownedBy r)

/-- Modelled from the spec: the canonical `compute_outcome` line scan of
section 4.1, restricted to one role as `compute_result` is — return `Winner`
on the first of the 8 canonical lines uniformly occupied by the role, `Draw`
if none matches and the turn counter has reached 9, `NotFinished` otherwise. -/
def Board.scan_result (b : Board) (r : Role) : GameResult :=
  match WINNING_SOLUTIONS.find? (fun sol => b.solOwned sol r) with
  | some sol => GameResult.Winner r sol
  | none => if 9 > b.turns then GameResult.NotFinished else GameResult.Draw

/-- The fixed magic-square layout of `Board::new`, by tile index. -/
def magicLayout : List Nat := [8, 1, 6, 3, 5, 7, 4, 9, 2]

/-- The board's tiles carry the magic-square numbers assigned by `Board::new`
(an invariant of every board the program ever builds: `set` and `reset` keep
the number of the tile they rewrite).  Implies `b.tiles.length = 9`. -/
def Board.magicOk (b : Board) : Prop :=
  b.tiles.map Tile.num = magicLayout

/-- A tile is empty (the match of `Board::is_empty`, on a bare tile). -/
def Tile.isEmpty : Tile → Bool
  | .Empty _ => true
  | _ => false

/-- The number of empty tiles of a board; the termination measure of the
`minimax` recursion (each speculative `set` of an available spot fills an
empty tile). -/
def Board.emptyCount (b : Board) : Nat :=
  b.tiles.countP Tile.isEmpty

/-- src/game/artificial_intelligence.rs: `Move` (`score` is an `i32`; its
values stay within `[-10000, 10000]`, so plain `Int` is exact). -/
structure Move where
  pos : PlayingPosition
  score : Int
deriving DecidableEq, Repr

/-- src/game/artificial_intelligence.rs: `Move::new`. -/
def Move.new (pos : PlayingPosition) (score : Int) : Move :=
  { pos := pos, score := score }

/-- src/game/artificial_intelligence.rs: `Move::with_score`. -/
def Move.with_score (score : Int) : Move :=
  Move.new (0, 0) score

/-- The `if let GameResult::Winner(role, _)` patterns at the top of
`minimax`. -/
def GameResult.isWinFor : GameResult → Role → Bool
  | .Winner .O _, .O => true
  | .Winner .X _, .X => true
  | _, _ => false

/-- The `player == Role::X` selection loop of `minimax`: starting from
`best_move = 0` and `best_score = -10000`, keep the index of the first move
whose score strictly exceeds every earlier one. -/
def bestIdxGt : List Move → Nat → Nat → Int → Nat
  | [], _, best, _ => best
  | m :: rest, i, best, best_score =>
      if m.score > best_score then bestIdxGt rest (i + 1) i m.score
      else bestIdxGt rest (i + 1) best best_score

/-- The `else` selection loop of `minimax` (minimising, starting from
`best_score = 10000`). -/
def bestIdxLt : List Move → Nat → Nat → Int → Nat
  | [], _, best, _ => best
  | m :: rest, i, best, best_score =>
      if m.score < best_score then bestIdxLt rest (i + 1) i m.score
      else bestIdxLt rest (i + 1) best best_score

/-- src/game/artificial_intelligence.rs: `minimax`.  The source mutates the
board with `set` / `reset` around each recursive call; here each recursive
call takes the board returned by `set` (that the `reset` restores the board
exactly is proved below as `reset_set`).  The `if h : _` guard makes the
structural termination of the Rust recursion explicit: on every board the
program ever builds (9 tiles, coordinates in range) the guard holds, as the
lemmas below show. -/
def minimax (b : Board) (player : Role) : Move :=
  let available_spots := b.get_available_spots
  if (b.compute_result Role.O).isWinFor Role.O then Move.with_score (-10)
  else if (b.compute_result Role.X).isWinFor Role.X then Move.with_score 10
  else if available_spots.length == 0 then Move.with_score 0
  else
    let moves := available_spots.attach.map (fun s =>
      let child := (b.set s.1.1 s.1.2 player).1
      Move.new s.1
        (if h : child.emptyCount < b.emptyCount then
          (minimax child (if player == Role.X then Role.O else Role.X)).score
        else 0))
    let best_move :=
      if player == Role.X then bestIdxGt moves 0 0 (-10000)
      else bestIdxLt moves 0 0 10000
    moves.getD best_move (Move.with_score 0)
termination_by b.emptyCount
decreasing_by exact h

/-- src/game/players.rs: `PlayerAction`. -/
inductive PlayerAction where
  | Move (pos : PlayingPosition)
  | None
  | Play (pos : PlayingPosition)
deriving DecidableEq, Repr

/-- src/input.rs: `Key` (the keyboard keys). -/
inductive Key where
  | Alt (c : Char)
  | Backspace
  | Char (c : Char)
  | Ctrl (c : Char)
  | Down
  | End
  | Escape
  | F (n : Nat)
  | Home
  | Left
  | PageDown
  | PageUp
  | Right
  | Unknown
  | Up
deriving DecidableEq, Repr

/-- src/game/players.rs: `HumanPlayerController::handle_key_press`. -/
def HumanPlayerController.handle_key_press (board : Board) (key : Key) : PlayerAction :=
  let pos := board.playing_position
  match key with
  | Key.Char c =>
      if c = '\n' ∧ board.is_empty pos.1 pos.2 then PlayerAction.Play pos
      else PlayerAction.None
  | Key.Down => if pos.2 < 2 then PlayerAction.Move (pos.1, pos.2 + 1) else PlayerAction.None
  | Key.Left => if pos.1 > 0 then PlayerAction.Move (pos.1 - 1, pos.2) else PlayerAction.None
  | Key.Right => if pos.1 < 2 then PlayerAction.Move (pos.1 + 1, pos.2) else PlayerAction.None
  | Key.Up => if pos.2 > 0 then PlayerAction.Move (pos.1, pos.2 - 1) else PlayerAction.None
  | _ => PlayerAction.None

/-- src/game/players.rs: `HumanPlayerController::start_turn`. -/
def HumanPlayerController.start_turn (_board : Board) : PlayerAction :=
  PlayerAction.None

/-- src/game/players.rs: `UnbeatableComputerPlayerController::start_turn`:
clones the board and plays `minimax(&mut temp_board, Role::X).pos` — the role
argument is the literal `Role::X`, whatever role the player holds. -/
def UnbeatableComputerPlayerController.start_turn (board : Board) : PlayerAction :=
  PlayerAction.Play (minimax board Role.X).pos

/-- src/game/players.rs: `UnbeatableComputerPlayerController::handle_key_press`. -/
def UnbeatableComputerPlayerController.handle_key_press (_board : Board) (_key : Key) : PlayerAction :=
  PlayerAction.None

theorem list_set_self {α} (l : List α) (i : Nat) (h : i < l.length) :
    l.set i l[i] = l := by
  apply List.ext_getElem (by simp)
  intro n h1 h2
  rw [List.getElem_set]
  split
  · next heq => subst heq; rfl
  · rfl

theorem list_set_getD_self {α} (l : List α) (i : Nat) (d : α) (h : i < l.length) :
    l.set i (l.getD i d) = l := by
  rw [List.getD_eq_getElem _ _ h]
  exact list_set_self l i h

theorem Board.magicOk_length {b : Board} (h : b.magicOk) : b.tiles.length = 9 := by
  have h2 := congrArg List.length h
  simpa [magicLayout] using h2

theorem Board.is_empty_iff {b : Board} {x y : Nat} :
    b.is_empty x y = true ↔ ∃ n, b.tiles.getD (y * 3 + x) (Tile.Empty 0) = Tile.Empty n := by
  unfold Board.is_empty Board.get
  cases h : b.tiles.getD (y * 3 + x) (Tile.Empty 0) <;> simp [h]

/-- Membership in `get_available_spots`: exactly the in-range empty cells. -/
theorem Board.mem_available_spots {b : Board} {p : PlayingPosition} :
    p ∈ b.get_available_spots ↔ p.1 < 3 ∧ p.2 < 3 ∧ b.is_empty p.1 p.2 = true := by
  cases p with
  | mk x y =>
    simp only [Board.get_available_spots, List.mem_flatMap, List.mem_map,
      List.mem_filter, List.mem_range]
    constructor
    · rintro ⟨a, ha, c, ⟨hc, hce⟩, heq⟩
      obtain ⟨h1, h2⟩ := Prod.mk.injEq .. ▸ heq
      exact ⟨h1 ▸ ha, h2 ▸ hc, by rw [← h1, ← h2]; exact hce⟩
    · rintro ⟨hx, hy, he⟩
      exact ⟨x, hx, y, ⟨hy, he⟩, rfl⟩

/-- The board built by the `Tile::Empty` branch of `Board::set`. -/
def Board.afterSet (b : Board) (x y : Nat) (r : Role) (n : Nat) : Board :=
  { b with tiles := b.tiles.set (y * 3 + x) (r.tile n),
           turns := (b.turns + 1) % 256 }

theorem Board.set_eq_of_empty {b : Board} {x y : Nat} {r : Role} {n : Nat}
    (h : b.tiles.getD (y * 3 + x) (Tile.Empty 0) = Tile.Empty n) :
    b.set x y r = (b.afterSet x y r n, (b.afterSet x y r n).compute_result r) := by
  unfold Board.set
  simp only []
  split
  · next n2 heq =>
    rw [h] at heq
    injection heq with h2
    subst h2
    rfl
  · next heq =>
    rw [h] at heq
    simp at heq

theorem Board.set_eq_of_nonempty {b : Board} {x y : Nat} {r : Role}
    (h : b.is_empty x y = false) :
    b.set x y r = (b, GameResult.NotFinished) := by
  unfold Board.set
  unfold Board.is_empty Board.get at h
  cases hg : b.tiles.getD (y * 3 + x) (Tile.Empty 0) <;> rw [hg] at h <;> simp_all

theorem Board.reset_set {b : Board} {x y : Nat} {r : Role}
    (hx : x < 3) (hy : y < 3) (hlen : b.tiles.length = 9)
    (hemp : b.is_empty x y = true) (ht : b.turns < 256) :
    ((b.set x y r).1).reset x y = b := by
  obtain ⟨n, hn⟩ := Board.is_empty_iff.1 hemp
  rw [Board.set_eq_of_empty hn]
  have hidx : y * 3 + x < b.tiles.length := by omega
  have hidx9 : y * 3 + x < (b.tiles.set (y * 3 + x) (r.tile n)).length := by
    simp [hidx]
  unfold Board.reset Board.afterSet
  have hget : (b.tiles.set (y * 3 + x) (r.tile n)).getD (y * 3 + x) (Tile.Empty 0)
      = r.tile n := by
    rw [List.getD_eq_getElem _ _ hidx9, List.getElem_set_self]
  have hnum : (r.tile n).num = n := by cases r <;> rfl
  have hb : b.tiles[y * 3 + x] = Tile.Empty n := by
    rw [← List.getD_eq_getElem _ (Tile.Empty 0) hidx, hn]
  cases b with
  | mk hi pp tiles turns =>
    dsimp only at hget hb hidx ht ⊢
    simp only [Board.mk.injEq, true_and]
    constructor
    · rw [hget, hnum, List.set_set, ← hb, list_set_self _ _ hidx]
    · omega

theorem Board.emptyCount_set_lt {b : Board} {x y : Nat} {r : Role}
    (hx : x < 3) (hy : y < 3) (hlen : b.tiles.length = 9)
    (hemp : b.is_empty x y = true) :
    ((b.set x y r).1).emptyCount < b.emptyCount := by
  obtain ⟨n, hn⟩ := Board.is_empty_iff.1 hemp
  rw [Board.set_eq_of_empty hn]
  have hidx : y * 3 + x < b.tiles.length := by omega
  have hb : b.tiles[y * 3 + x] = Tile.Empty n := by
    rw [← List.getD_eq_getElem _ (Tile.Empty 0) hidx, hn]
  unfold Board.afterSet Board.emptyCount
  simp only
  rw [List.countP_set _ _ _ _ hidx, hb]
  have hpos : 0 < b.tiles.countP Tile.isEmpty := by
    rw [List.countP_pos_iff]
    exact ⟨Tile.Empty n, by rw [← hb]; exact List.getElem_mem hidx, rfl⟩
  have htile : Tile.isEmpty (r.tile n) = false := by cases r <;> rfl
  have h1 : Tile.isEmpty (Tile.Empty n) = true := rfl
  rw [h1, htile]
  have h2 : (if (false = true) then (1 : Nat) else 0) = 0 := by simp
  have h3 : (if (true = true) then (1 : Nat) else 0) = 1 := by simp
  rw [h2, h3]
  omega

theorem mem_combinations {α} :
    ∀ (n : Nat) (l m : List α), m ∈ combinations n l ↔ m.Sublist l ∧ m.length = n := by
  intro n l
  induction l generalizing n with
  | nil =>
    intro m
    cases n with
    | zero =>
      simp only [combinations, List.mem_singleton]
      constructor
      · rintro rfl; exact ⟨List.nil_sublist _, rfl⟩
      · rintro ⟨hs, hl⟩; exact List.eq_nil_of_length_eq_zero hl
    | succ k =>
      simp only [combinations, List.not_mem_nil, false_iff, not_and]
      intro hs hl
      have := List.eq_nil_of_sublist_nil hs
      subst this
      simp at hl
  | cons x xs ih =>
    intro m
    cases n with
    | zero =>
      simp only [combinations, List.mem_singleton]
      constructor
      · rintro rfl; exact ⟨List.nil_sublist _, rfl⟩
      · rintro ⟨hs, hl⟩; exact List.eq_nil_of_length_eq_zero hl
    | succ k =>
      simp only [combinations, List.mem_append, List.mem_map]
      constructor
      · rintro (⟨m', hm', rfl⟩ | hm)
        · obtain ⟨hs, hl⟩ := (ih k m').1 hm'
          exact ⟨List.Sublist.cons₂ x hs, by simp [hl]⟩
        · obtain ⟨hs, hl⟩ := (ih (k + 1) m).1 hm
          exact ⟨List.Sublist.cons x hs, hl⟩
      · rintro ⟨hs, hl⟩
        rcases List.sublist_cons_iff.1 hs with hs' | ⟨r, rfl, hr⟩
        · exact Or.inr ((ih (k + 1) m).2 ⟨hs', hl⟩)
        · refine Or.inl ⟨r, (ih k r).2 ⟨hr, ?_⟩, rfl⟩
          simpa using hl

theorem pairwise_fst_enumFrom {α} (l : List α) (j : Nat) :
    (l.enumFrom j).Pairwise (fun a c => a.1 < c.1) := by
  induction l generalizing j with
  | nil => simp
  | cons x xs ih =>
    simp only [List.enumFrom]
    refine List.Pairwise.cons ?_ (ih (j + 1))
    intro a ha
    have := List.mem_enumFrom ha
    omega

theorem pairwise_fst_enum {α} (l : List α) :
    l.enum.Pairwise (fun a c => a.1 < c.1) :=
  pairwise_fst_enumFrom l 0

/-- In a list whose keys are strictly increasing, any key-increasing list of
members is a sublist. -/
theorem sublist_of_subset_of_sorted {α} (key : α → Nat) :
    ∀ (l m : List α), l.Pairwise (fun a c => key a < key c) →
      m.Pairwise (fun a c => key a < key c) → (∀ a ∈ m, a ∈ l) → m.Sublist l := by
  intro l
  induction l with
  | nil =>
    intro m _ _ hsub
    cases m with
    | nil => exact List.Sublist.refl _
    | cons y ys => exact absurd (hsub y (List.mem_cons_self _ _)) (List.not_mem_nil _)
  | cons h t ih =>
    intro m hl hm hsub
    cases m with
    | nil => exact List.nil_sublist _
    | cons y ys =>
      have hyl : y ∈ h :: t := hsub y (List.mem_cons_self _ _)
      have hlt : ∀ z ∈ t, key h < key z := fun z hz => (List.pairwise_cons.1 hl).1 z hz
      by_cases hy : y = h
      · subst hy
        refine List.Sublist.cons₂ y (ih ys (List.pairwise_cons.1 hl).2
          (List.pairwise_cons.1 hm).2 ?_)
        intro a ha
        have hay : key y < key a := (List.pairwise_cons.1 hm).1 a ha
        have : a ∈ y :: t := hsub a (List.mem_cons_of_mem _ ha)
        rcases List.mem_cons.1 this with rfl | hat
        · omega
        · exact hat
      · have hyt : y ∈ t := by
          rcases List.mem_cons.1 hyl with rfl | hyt
          · exact absurd rfl hy
          · exact hyt
        refine List.Sublist.cons h (ih (y :: ys) (List.pairwise_cons.1 hl).2 hm ?_)
        intro a ha
        have : a ∈ h :: t := hsub a ha
        rcases List.mem_cons.1 this with rfl | hat
        · rcases List.mem_cons.1 ha with rfl | has
          · exact absurd rfl hy
          · have h1 : key a < key y := hlt y hyt
            have h2 : key y < key a := (List.pairwise_cons.1 hm).1 a has
            omega
        · exact hat

/-- The role-occupied cells of the board, as `compute_result` collects them:
`enumerate` then `filter`. -/
def Board.occupied (b : Board) (r : Role) : List (Nat × Tile) :=
  b.tiles.enum.filter (fun m => m.2.ownedBy r)

theorem Board.compute_result_eq_occ (b : Board) (r : Role) :
    b.compute_result r =
      match (combinations 3 (b.occupied r)).find?
          (fun moves => (moves.map (fun m => m.2.num)).sum == 15) with
      | some moves =>
          GameResult.Winner r (moves.map (fun m => (m.1 % 3, m.1 / 3)))
      | none => if 9 > b.turns then GameResult.NotFinished else GameResult.Draw := rfl

/-- The 8 winning lines as ascending triples of tile indices
(`index = y * 3 + x`). -/
def lineIdx : List (List Nat) :=
  [[0, 1, 2], [3, 4, 5], [6, 7, 8], [0, 3, 6], [1, 4, 7], [2, 5, 8], [0, 4, 8], [2, 4, 6]]

theorem winning_solutions_eq :
    WINNING_SOLUTIONS = lineIdx.map (fun l => l.map (fun i => (i % 3, i / 3))) := by decide

/-- The arithmetic core: for three ascending cell indices, the magic-square
numbers sum to 15 exactly when the indices form one of the 8 lines. -/
theorem magic_iff_line :
    ∀ i j k : Fin 9, i < j → j < k →
      (magicLayout.getD i.1 0 + magicLayout.getD j.1 0 + magicLayout.getD k.1 0 = 15 ↔
        [i.1, j.1, k.1] ∈ lineIdx) := by decide

theorem Board.num_getD {b : Board} (hm : b.magicOk) {i : Nat} (hi : i < 9) :
    (b.tiles.getD i (Tile.Empty 0)).num = magicLayout.getD i 0 := by
  have h9 : b.tiles.length = 9 := Board.magicOk_length hm
  have h1 : (b.tiles.map Tile.num).getD i 0 = magicLayout.getD i 0 := by rw [hm]
  rw [List.getD_eq_getElem _ _ (by simp [h9]; omega), List.getElem_map] at h1
  rw [List.getD_eq_getElem _ _ (by omega), h1]

theorem Board.mem_occupied {b : Board} {r : Role} {i : Nat} {t : Tile} (hm : b.magicOk)
    (h : (i, t) ∈ b.occupied r) :
    i < 9 ∧ b.tiles.getD i (Tile.Empty 0) = t ∧ t.ownedBy r = true ∧
      t.num = magicLayout.getD i 0 := by
  have h9 : b.tiles.length = 9 := Board.magicOk_length hm
  obtain ⟨henum, hpred⟩ := List.mem_filter.1 h
  have hget : b.tiles[i]? = some t := List.mk_mem_enum_iff_getElem?.1 henum
  have hi : i < 9 := by
    by_contra hge
    rw [List.getElem?_eq_none (by omega)] at hget
    exact Option.noConfusion hget
  have hgd : b.tiles.getD i (Tile.Empty 0) = t := by
    rw [List.getD_eq_getElem _ _ (by omega)]
    have := List.getElem?_eq_getElem (l := b.tiles) (n := i) (by omega)
    rw [this] at hget
    exact Option.some.inj hget
  exact ⟨hi, hgd, hpred, by rw [← hgd]; exact Board.num_getD hm hi⟩

theorem Board.pairwise_occupied (b : Board) (r : Role) :
    (b.occupied r).Pairwise (fun a c => a.1 < c.1) :=
  List.Pairwise.sublist (List.filter_sublist _) (pairwise_fst_enum _)

theorem Board.mem_occupied_of_owned {b : Board} {r : Role} {i : Nat} (hm : b.magicOk)
    (hi : i < 9) (ho : (b.tiles.getD i (Tile.Empty 0)).ownedBy r = true) :
    (i, b.tiles.getD i (Tile.Empty 0)) ∈ b.occupied r := by
  have h9 : b.tiles.length = 9 := Board.magicOk_length hm
  refine List.mem_filter.2 ⟨?_, ho⟩
  refine List.mk_mem_enum_iff_getElem?.2 ?_
  rw [List.getD_eq_getElem _ _ (by omega)]
  exact List.getElem?_eq_getElem (by omega)

/-- The `find?` of `compute_result` succeeds exactly on a winning-line triple:
what it finds is three ascending occupied cells forming one of the 8 lines. -/
theorem find_some_spec {b : Board} {r : Role} {moves : List (Nat × Tile)} (hm : b.magicOk)
    (hfind : (combinations 3 (b.occupied r)).find?
      (fun mv => (mv.map (fun m => m.2.num)).sum == 15) = some moves) :
    ∃ i j k ti tj tk, moves = [(i, ti), (j, tj), (k, tk)] ∧ i < j ∧ j < k ∧ k < 9 ∧
      [i, j, k] ∈ lineIdx ∧
      b.tiles.getD i (Tile.Empty 0) = ti ∧ ti.ownedBy r = true ∧
      b.tiles.getD j (Tile.Empty 0) = tj ∧ tj.ownedBy r = true ∧
      b.tiles.getD k (Tile.Empty 0) = tk ∧ tk.ownedBy r = true := by
  have hmem := List.mem_of_find?_eq_some hfind
  have hsum := List.find?_some hfind
  obtain ⟨hsub, hlen⟩ := (mem_combinations 3 (b.occupied r) moves).1 hmem
  obtain ⟨a, c, d, rfl⟩ : ∃ a c d, moves = [a, c, d] := by
    match moves, hlen with
    | [a, c, d], _ => exact ⟨a, c, d, rfl⟩
  · have hpw : [a, c, d].Pairwise (fun u v => u.1 < v.1) :=
      List.Pairwise.sublist hsub (Board.pairwise_occupied b r)
    have hac : a.1 < c.1 := by
      have := List.pairwise_cons.1 hpw
      exact this.1 c (by simp)
    have hcd : c.1 < d.1 := by
      have := (List.pairwise_cons.1 (List.pairwise_cons.1 hpw).2).1
      exact this d (by simp)
    have hmema := Board.mem_occupied hm (hsub.subset (by simp) : a ∈ b.occupied r)
    have hmemc := Board.mem_occupied hm (hsub.subset (by simp) : c ∈ b.occupied r)
    have hmemd := Board.mem_occupied hm (hsub.subset (by simp) : d ∈ b.occupied r)
    have hsum15 : a.2.num + c.2.num + d.2.num = 15 := by
      simp only [List.map_cons, List.map_nil, List.sum_cons, List.sum_nil, beq_iff_eq] at hsum
      omega
    have hline : [a.1, c.1, d.1] ∈ lineIdx := by
      have := magic_iff_line ⟨a.1, hmema.1⟩ ⟨c.1, hmemc.1⟩ ⟨d.1, hmemd.1⟩ hac hcd
      refine this.1 ?_
      rw [← hmema.2.2.2, ← hmemc.2.2.2, ← hmemd.2.2.2]
      exact hsum15
    exact ⟨a.1, c.1, d.1, a.2, c.2, d.2, by simp, hac, hcd, hmemd.1, hline,
      hmema.2.1, hmema.2.2.1, hmemc.2.1, hmemc.2.2.1, hmemd.2.1, hmemd.2.2.1⟩

/-- Conversely, three ascending occupied cells whose magic numbers sum to 15
make the `find?` of `compute_result` succeed. -/
theorem line_gives_find {b : Board} {r : Role} (hm : b.magicOk) (i j k : Nat)
    (hij : i < j) (hjk : j < k) (hk : k < 9)
    (hsum : magicLayout.getD i 0 + magicLayout.getD j 0 + magicLayout.getD k 0 = 15)
    (hoi : (b.tiles.getD i (Tile.Empty 0)).ownedBy r = true)
    (hoj : (b.tiles.getD j (Tile.Empty 0)).ownedBy r = true)
    (hok : (b.tiles.getD k (Tile.Empty 0)).ownedBy r = true) :
    ∃ moves, (combinations 3 (b.occupied r)).find?
      (fun mv => (mv.map (fun m => m.2.num)).sum == 15) = some moves := by
  have hi : i < 9 := by omega
  have hj : j < 9 := by omega
  set c : List (Nat × Tile) :=
    [(i, b.tiles.getD i (Tile.Empty 0)), (j, b.tiles.getD j (Tile.Empty 0)),
     (k, b.tiles.getD k (Tile.Empty 0))] with hc
  have hcpw : c.Pairwise (fun u v => u.1 < v.1) := by
    rw [hc]
    refine List.pairwise_cons.2 ⟨?_, List.pairwise_cons.2 ⟨?_, List.pairwise_singleton _ _⟩⟩
    · intro a ha
      rcases List.mem_cons.1 ha with rfl | ha
      · exact hij
      · rcases List.mem_cons.1 ha with rfl | ha
        · omega
        · exact absurd ha (List.not_mem_nil _)
    · intro a ha
      rcases List.mem_cons.1 ha with rfl | ha
      · exact hjk
      · exact absurd ha (List.not_mem_nil _)
  have hsubset : ∀ a ∈ c, a ∈ b.occupied r := by
    intro a ha
    rw [hc] at ha
    rcases List.mem_cons.1 ha with rfl | ha
    · exact Board.mem_occupied_of_owned hm hi hoi
    · rcases List.mem_cons.1 ha with rfl | ha
      · exact Board.mem_occupied_of_owned hm hj hoj
      · rcases List.mem_cons.1 ha with rfl | ha
        · exact Board.mem_occupied_of_owned hm hk hok
        · exact absurd ha (List.not_mem_nil _)
  have hcsub : c.Sublist (b.occupied r) :=
    sublist_of_subset_of_sorted Prod.fst _ _ (Board.pairwise_occupied b r) hcpw hsubset
  have hcmem : c ∈ combinations 3 (b.occupied r) :=
    (mem_combinations 3 _ c).2 ⟨hcsub, by rw [hc]; rfl⟩
  have hcpred : ((c.map (fun m => m.2.num)).sum == 15) = true := by
    rw [hc]
    simp only [List.map_cons, List.map_nil, List.sum_cons, List.sum_nil, beq_iff_eq]
    have e1 := Board.num_getD hm hi
    have e2 := Board.num_getD hm hj
    have e3 := Board.num_getD hm hk
    omega
  have : ((combinations 3 (b.occupied r)).find?
      (fun mv => (mv.map (fun m => m.2.num)).sum == 15)).isSome := by
    rw [List.find?_isSome]
    exact ⟨c, hcmem, hcpred⟩
  exact Option.isSome_iff_exists.1 this


theorem compute_result_eq_of_find_none {b : Board} {r : Role}
    (hf : (combinations 3 (b.occupied r)).find?
      (fun mv => (mv.map (fun m => m.2.num)).sum == 15) = none) :
    b.compute_result r =
      if 9 > b.turns then GameResult.NotFinished else GameResult.Draw := by
  rw [Board.compute_result_eq_occ, hf]

theorem compute_result_eq_of_find_some {b : Board} {r : Role} {moves : List (Nat × Tile)}
    (hf : (combinations 3 (b.occupied r)).find?
      (fun mv => (mv.map (fun m => m.2.num)).sum == 15) = some moves) :
    b.compute_result r =
      GameResult.Winner r (moves.map (fun m => (m.1 % 3, m.1 / 3))) := by
  rw [Board.compute_result_eq_occ, hf]

theorem scan_result_eq_of_find_none {b : Board} {r : Role}
    (hf : WINNING_SOLUTIONS.find? (fun sol => b.solOwned sol r) = none) :
    b.scan_result r =
      if 9 > b.turns then GameResult.NotFinished else GameResult.Draw := by
  unfold Board.scan_result
  rw [hf]

theorem scan_result_eq_of_find_some {b : Board} {r : Role} {sol : Solution}
    (hf : WINNING_SOLUTIONS.find? (fun sol => b.solOwned sol r) = some sol) :
    b.scan_result r = GameResult.Winner r sol := by
  unfold Board.scan_result
  rw [hf]

theorem find_some_of_hasLine {b : Board} {r : Role} (hm : b.magicOk)
    (h : ∃ sol ∈ WINNING_SOLUTIONS, b.solOwned sol r = true) :
    ∃ moves, (combinations 3 (b.occupied r)).find?
      (fun mv => (mv.map (fun m => m.2.num)).sum == 15) = some moves := by
  obtain ⟨sol, hsol, howned⟩ := h
  simp only [WINNING_SOLUTIONS, List.mem_cons, List.not_mem_nil, or_false] at hsol
  rcases hsol with rfl | rfl | rfl | rfl | rfl | rfl | rfl | rfl <;>
    simp only [Board.solOwned, Board.get, List.all_cons, List.all_nil, Bool.and_true,
      Bool.and_eq_true, Nat.reduceMul, Nat.reduceAdd] at howned
  · exact line_gives_find hm 0 1 2 (by norm_num) (by norm_num) (by norm_num) (by decide)
      howned.1 howned.2.1 howned.2.2
  · exact line_gives_find hm 3 4 5 (by norm_num) (by norm_num) (by norm_num) (by decide)
      howned.1 howned.2.1 howned.2.2
  · exact line_gives_find hm 6 7 8 (by norm_num) (by norm_num) (by norm_num) (by decide)
      howned.1 howned.2.1 howned.2.2
  · exact line_gives_find hm 0 3 6 (by norm_num) (by norm_num) (by norm_num) (by decide)
      howned.1 howned.2.1 howned.2.2
  · exact line_gives_find hm 1 4 7 (by norm_num) (by norm_num) (by norm_num) (by decide)
      howned.1 howned.2.1 howned.2.2
  · exact line_gives_find hm 2 5 8 (by norm_num) (by norm_num) (by norm_num) (by decide)
      howned.1 howned.2.1 howned.2.2
  · exact line_gives_find hm 0 4 8 (by norm_num) (by norm_num) (by norm_num) (by decide)
      howned.1 howned.2.1 howned.2.2
  · exact line_gives_find hm 2 4 6 (by norm_num) (by norm_num) (by norm_num) (by decide)
      howned.1 howned.2.1 howned.2.2

theorem sol_of_line {b : Board} {r : Role} {i j k : Nat} {ti tj tk : Tile}
    (hline : [i, j, k] ∈ lineIdx)
    (hti : b.tiles.getD i (Tile.Empty 0) = ti) (hoi : ti.ownedBy r = true)
    (htj : b.tiles.getD j (Tile.Empty 0) = tj) (hoj : tj.ownedBy r = true)
    (htk : b.tiles.getD k (Tile.Empty 0) = tk) (hok : tk.ownedBy r = true) :
    [(i % 3, i / 3), (j % 3, j / 3), (k % 3, k / 3)] ∈ WINNING_SOLUTIONS ∧
      b.solOwned [(i % 3, i / 3), (j % 3, j / 3), (k % 3, k / 3)] r = true := by
  constructor
  · rw [winning_solutions_eq]
    exact List.mem_map.2 ⟨[i, j, k], hline, by simp⟩
  · simp only [Board.solOwned, Board.get, List.all_cons, List.all_nil, Bool.and_true,
      Bool.and_eq_true]
    have hi : i / 3 * 3 + i % 3 = i := by omega
    have hj : j / 3 * 3 + j % 3 = j := by omega
    have hk : k / 3 * 3 + k % 3 = k := by omega
    rw [hi, hj, hk, hti, htj, htk]
    exact ⟨hoi, hoj, hok⟩

/-- What `compute_result` reports as a winner is well-formed: the queried role
and a uniformly-occupied canonical line. -/
theorem compute_result_winner_spec {b : Board} {r r' : Role} {sol : Solution}
    (hm : b.magicOk) (h : b.compute_result r = GameResult.Winner r' sol) :
    r' = r ∧ sol ∈ WINNING_SOLUTIONS ∧ b.solOwned sol r = true := by
  cases hf : (combinations 3 (b.occupied r)).find?
      (fun mv => (mv.map (fun m => m.2.num)).sum == 15) with
  | none =>
    rw [compute_result_eq_of_find_none hf] at h
    split at h <;> exact absurd h (by simp)
  | some moves =>
    rw [compute_result_eq_of_find_some hf] at h
    injection h with h1 h2
    obtain ⟨i, j, k, ti, tj, tk, rfl, hij, hjk, hk, hline, hti, hoi, htj, hoj, htk, hok⟩ :=
      find_some_spec hm hf
    have hsl := sol_of_line hline hti hoi htj hoj htk hok
    subst h1
    refine ⟨rfl, ?_, ?_⟩
    · rw [← h2]
      simpa using hsl.1
    · rw [← h2]
      simpa using hsl.2

/-- `compute_result` finds a winner whenever some canonical line is uniformly
occupied. -/
theorem compute_result_winner_of_hasLine {b : Board} {r : Role} (hm : b.magicOk)
    (h : ∃ sol ∈ WINNING_SOLUTIONS, b.solOwned sol r = true) :
    ∃ sol, b.compute_result r = GameResult.Winner r sol := by
  obtain ⟨moves, hf⟩ := find_some_of_hasLine hm h
  exact ⟨moves.map (fun m => (m.1 % 3, m.1 / 3)), compute_result_eq_of_find_some hf⟩

/-- With no uniformly-occupied line, `compute_result` falls through to the
turn-counter check. -/
theorem compute_result_no_winner {b : Board} {r : Role} (hm : b.magicOk)
    (h : ¬∃ sol ∈ WINNING_SOLUTIONS, b.solOwned sol r = true) :
    b.compute_result r =
      if 9 > b.turns then GameResult.NotFinished else GameResult.Draw := by
  cases hf : (combinations 3 (b.occupied r)).find?
      (fun mv => (mv.map (fun m => m.2.num)).sum == 15) with
  | none => exact compute_result_eq_of_find_none hf
  | some moves =>
    exfalso
    obtain ⟨i, j, k, ti, tj, tk, rfl, hij, hjk, hk, hline, hti, hoi, htj, hoj, htk, hok⟩ :=
      find_some_spec hm hf
    have hsl := sol_of_line hline hti hoi htj hoj htk hok
    exact h ⟨_, hsl.1, hsl.2⟩

theorem scan_result_winner_spec {b : Board} {r r' : Role} {sol : Solution}
    (h : b.scan_result r = GameResult.Winner r' sol) :
    r' = r ∧ sol ∈ WINNING_SOLUTIONS ∧ b.solOwned sol r = true := by
  cases hf : WINNING_SOLUTIONS.find? (fun sol => b.solOwned sol r) with
  | none =>
    rw [scan_result_eq_of_find_none hf] at h
    split at h <;> exact absurd h (by simp)
  | some s =>
    rw [scan_result_eq_of_find_some hf] at h
    injection h with h1 h2
    subst h1
    subst h2
    have howned := List.find?_some hf
    exact ⟨rfl, List.mem_of_find?_eq_some hf, by simpa using howned⟩

theorem scan_result_winner_of_hasLine {b : Board} {r : Role}
    (h : ∃ sol ∈ WINNING_SOLUTIONS, b.solOwned sol r = true) :
    ∃ sol, b.scan_result r = GameResult.Winner r sol := by
  obtain ⟨sol, hsol, howned⟩ := h
  have hs : (WINNING_SOLUTIONS.find? (fun sol => b.solOwned sol r)).isSome := by
    rw [List.find?_isSome]
    exact ⟨sol, hsol, howned⟩
  obtain ⟨s, hs⟩ := Option.isSome_iff_exists.1 hs
  exact ⟨s, scan_result_eq_of_find_some hs⟩

theorem scan_result_no_winner {b : Board} {r : Role}
    (h : ¬∃ sol ∈ WINNING_SOLUTIONS, b.solOwned sol r = true) :
    b.scan_result r =
      if 9 > b.turns then GameResult.NotFinished else GameResult.Draw := by
  cases hf : WINNING_SOLUTIONS.find? (fun sol => b.solOwned sol r) with
  | none => exact scan_result_eq_of_find_none hf
  | some s =>
    exfalso
    have howned := List.find?_some hf
    exact h ⟨s, List.mem_of_find?_eq_some hf, by simpa using howned⟩

/-- Claim C1: for every board (with the magic-square numbers `Board::new`
assigns, which every reachable board keeps) and every role,
`compute_result(role)` — the magic-square subset-sum search — returns the
same outcome as the canonical scan of the 8 three-in-a-row lines: it reports
`Winner(role, line)` exactly when some canonical line is uniformly occupied
by that role, the reported solution being such a canonical line; `Draw` when
no such line exists and the turn counter has reached 9; and `NotFinished`
otherwise. -/
theorem claim_C1 (b : Board) (r : Role) (hm : b.magicOk) :
    (∀ r' sol, b.compute_result r = GameResult.Winner r' sol →
      r' = r ∧ sol ∈ WINNING_SOLUTIONS ∧ b.solOwned sol r = true ∧
        ∃ sol', b.scan_result r = GameResult.Winner r sol') ∧
    (∀ r' sol, b.scan_result r = GameResult.Winner r' sol →
      ∃ sol', b.compute_result r = GameResult.Winner r sol') ∧
    (b.compute_result r = GameResult.Draw ↔ b.scan_result r = GameResult.Draw) ∧
    (b.compute_result r = GameResult.NotFinished ↔
      b.scan_result r = GameResult.NotFinished) ∧
    (b.compute_result r = GameResult.Draw ↔
      ((¬∃ sol ∈ WINNING_SOLUTIONS, b.solOwned sol r = true) ∧ 9 ≤ b.turns)) ∧
    (b.compute_result r = GameResult.NotFinished ↔
      ((¬∃ sol ∈ WINNING_SOLUTIONS, b.solOwned sol r = true) ∧ b.turns < 9)) := by
  by_cases hl : ∃ sol ∈ WINNING_SOLUTIONS, b.solOwned sol r = true
  · obtain ⟨solc, hc⟩ := compute_result_winner_of_hasLine hm hl
    obtain ⟨sols, hsc⟩ := scan_result_winner_of_hasLine hl
    refine ⟨?_, ?_, ?_, ?_, ?_, ?_⟩
    · intro r' sol h
      obtain ⟨h1, h2, h3⟩ := compute_result_winner_spec hm h
      exact ⟨h1, h2, h3, sols, hsc⟩
    · intro r' sol h
      exact ⟨solc, hc⟩
    · rw [hc, hsc]
      simp
    · rw [hc, hsc]
      simp
    · rw [hc]
      constructor
      · intro h
        exact absurd h (by simp)
      · rintro ⟨hno, -⟩
        exact absurd hl hno
    · rw [hc]
      constructor
      · intro h
        exact absurd h (by simp)
      · rintro ⟨hno, -⟩
        exact absurd hl hno
  · have hcn := compute_result_no_winner hm hl
    have hsn := scan_result_no_winner hl
    refine ⟨?_, ?_, ?_, ?_, ?_, ?_⟩
    · intro r' sol h
      rw [hcn] at h
      split at h <;> exact absurd h (by simp)
    · intro r' sol h
      rw [hsn] at h
      split at h <;> exact absurd h (by simp)
    · rw [hcn, hsn]
    · rw [hcn, hsn]
    · rw [hcn]
      by_cases ht : 9 > b.turns
      · rw [if_pos ht]
        constructor
        · intro h
          exact absurd h (by simp)
        · rintro ⟨-, h9⟩
          omega
      · rw [if_neg ht]
        exact ⟨fun _ => ⟨hl, by omega⟩, fun _ => rfl⟩
    · rw [hcn]
      by_cases ht : 9 > b.turns
      · rw [if_pos ht]
        exact ⟨fun _ => ⟨hl, by omega⟩, fun _ => rfl⟩
      · rw [if_neg ht]
        constructor
        · intro h
          exact absurd h (by simp)
        · rintro ⟨-, h9⟩
          omega

/-- Witness for `claim_C1`: the freshly constructed board satisfies the
hypothesis, and on it the equivalence is concrete. -/
theorem claim_C1_witness :
    Board.new.magicOk ∧
      (Board.new.compute_result Role.O = GameResult.NotFinished ↔
        Board.new.scan_result Role.O = GameResult.NotFinished) := by
  have hm : Board.new.magicOk := rfl
  exact ⟨hm, (claim_C1 Board.new Role.O hm).2.2.2.1⟩

/-- Claim C5: on every board a program run can hold (9 tiles, a `u8` turn
counter below its maximum), `set(x, y, role)` on a non-`Empty` cell is a
silent no-op returning `NotFinished`, and on an `Empty` cell marks the cell
for the role (keeping its magic number), increments the turn counter by one,
leaves every other field unchanged, and returns the outcome freshly computed
from the updated grid. -/
theorem claim_C5 (b : Board) (x y : Nat) (r : Role) (hx : x < 3) (hy : y < 3)
    (hlen : b.tiles.length = 9) (ht : b.turns < 255) :
    (b.is_empty x y = false → b.set x y r = (b, GameResult.NotFinished)) ∧
    (b.is_empty x y = true →
      ∃ n, b.tiles.getD (y * 3 + x) (Tile.Empty 0) = Tile.Empty n ∧
        (b.set x y r).1.tiles = b.tiles.set (y * 3 + x) (r.tile n) ∧
        (b.set x y r).1.turns = b.turns + 1 ∧
        (b.set x y r).1.playing_position = b.playing_position ∧
        (b.set x y r).1.highlighted_solution = b.highlighted_solution ∧
        (b.set x y r).2 = ((b.set x y r).1).compute_result r) := by
  constructor
  · exact Board.set_eq_of_nonempty
  · intro hemp
    obtain ⟨n, hn⟩ := Board.is_empty_iff.1 hemp
    refine ⟨n, hn, ?_⟩
    rw [Board.set_eq_of_empty hn]
    unfold Board.afterSet
    refine ⟨rfl, by simp; omega, rfl, rfl, rfl⟩

/-- Witness for `claim_C5` at the fresh board and cell (0, 0). -/
theorem claim_C5_witness :
    ((0 : Nat) < 3 ∧ Board.new.tiles.length = 9 ∧ Board.new.turns < 255) ∧
    ((Board.new.is_empty 0 0 = false →
        Board.new.set 0 0 Role.O = (Board.new, GameResult.NotFinished)) ∧
      (Board.new.is_empty 0 0 = true →
        ∃ n, Board.new.tiles.getD (0 * 3 + 0) (Tile.Empty 0) = Tile.Empty n ∧
          (Board.new.set 0 0 Role.O).1.tiles =
            Board.new.tiles.set (0 * 3 + 0) (Role.O.tile n) ∧
          (Board.new.set 0 0 Role.O).1.turns = Board.new.turns + 1 ∧
          (Board.new.set 0 0 Role.O).1.playing_position = Board.new.playing_position ∧
          (Board.new.set 0 0 Role.O).1.highlighted_solution =
            Board.new.highlighted_solution ∧
          (Board.new.set 0 0 Role.O).2 =
            ((Board.new.set 0 0 Role.O).1).compute_result Role.O)) :=
  ⟨⟨by decide, by decide, by decide⟩,
    claim_C5 Board.new 0 0 Role.O (by decide) (by decide) (by decide) (by decide)⟩

/-- The number of non-`Empty` tiles of a board. -/
def Board.filledCount (b : Board) : Nat :=
  b.tiles.countP (fun t => !t.isEmpty)

/-- The boards reachable from `Board::new` by `set` calls (with in-range
coordinates) and by `reset` calls that undo a previously applied `set`
(equivalently, that address a non-`Empty` cell — on a reachable board every
non-`Empty` cell was previously set). -/
inductive Reachable : Board → Prop
  | new : Reachable Board.new
  | set {b : Board} (x y : Nat) (r : Role) (hx : x < 3) (hy : y < 3)
      (h : Reachable b) : Reachable (b.set x y r).1
  | reset {b : Board} (x y : Nat) (hx : x < 3) (hy : y < 3)
      (hne : b.is_empty x y = false) (h : Reachable b) : Reachable (b.reset x y)

theorem reachable_invariant {b : Board} (h : Reachable b) :
    b.magicOk ∧ b.turns = b.filledCount := by
  induction h with
  | new => exact ⟨rfl, rfl⟩
  | set x y r hx hy h ih =>
    obtain ⟨hm, hcnt⟩ := ih
    rename_i b0
    have hlen : b0.tiles.length = 9 := Board.magicOk_length hm
    cases hemp : b0.is_empty x y with
    | false => rw [Board.set_eq_of_nonempty hemp]; exact ⟨hm, hcnt⟩
    | true =>
      obtain ⟨n, hn⟩ := Board.is_empty_iff.1 hemp
      have hidx : y * 3 + x < b0.tiles.length := by omega
      have hb : b0.tiles[y * 3 + x] = Tile.Empty n := by
        rw [← List.getD_eq_getElem _ (Tile.Empty 0) hidx, hn]
      have hfilled : List.countP (fun t => !t.isEmpty) b0.tiles ≤ 9 := by
        have := List.countP_le_length (l := b0.tiles) (p := fun t => !t.isEmpty)
        omega
      rw [Board.set_eq_of_empty hn]
      unfold Board.afterSet Board.magicOk Board.filledCount at *
      constructor
      · simp only [List.map_set]
        have hnum : (r.tile n).num = n := by cases r <;> rfl
        rw [hnum, hm]
        have h9 : y * 3 + x < magicLayout.length := by simp [magicLayout]; omega
        have hmap : y * 3 + x < (List.map Tile.num b0.tiles).length := by
          simp [hlen]; omega
        have hml : magicLayout.getD (y * 3 + x) 0 = n := by
          rw [← hm, List.getD_eq_getElem _ _ hmap, List.getElem_map, hb]
          rfl
        rw [← hml, list_set_getD_self _ _ _ h9]
      · simp only
        rw [List.countP_set _ _ _ _ hidx, hb]
        have h1 : (!Tile.isEmpty (Tile.Empty n)) = false := rfl
        have h2 : (!Tile.isEmpty (r.tile n)) = true := by cases r <;> rfl
        rw [h1, h2]
        simp only [Bool.false_eq_true, if_false, reduceIte]
        omega
  | reset x y hx hy hne h ih =>
    obtain ⟨hm, hcnt⟩ := ih
    rename_i b0
    have hlen : b0.tiles.length = 9 := Board.magicOk_length hm
    have hidx : y * 3 + x < b0.tiles.length := by omega
    have hgd : b0.tiles.getD (y * 3 + x) (Tile.Empty 0) = b0.tiles[y * 3 + x] :=
      List.getD_eq_getElem _ _ hidx
    have hnonempty : Tile.isEmpty (b0.tiles[y * 3 + x]) = false := by
      unfold Board.is_empty Board.get at hne
      rw [hgd] at hne
      cases hb : b0.tiles[y * 3 + x] <;> rw [hb] at hne <;> simp_all [Tile.isEmpty]
    have hfpos : 0 < b0.filledCount := by
      unfold Board.filledCount
      rw [List.countP_pos_iff]
      exact ⟨b0.tiles[y * 3 + x], List.getElem_mem hidx, by rw [hnonempty]; rfl⟩
    unfold Board.reset Board.magicOk Board.filledCount at *
    constructor
    · simp only [List.map_set]
      have hnum : (Tile.Empty (b0.tiles.getD (y * 3 + x) (Tile.Empty 0)).num).num =
          (b0.tiles.getD (y * 3 + x) (Tile.Empty 0)).num := rfl
      rw [hnum, hgd, hm]
      have h9 : y * 3 + x < magicLayout.length := by simp [magicLayout]; omega
      have hmap : y * 3 + x < (List.map Tile.num b0.tiles).length := by
        simp [hlen]; omega
      have hml : magicLayout.getD (y * 3 + x) 0 = (b0.tiles[y * 3 + x]).num := by
        rw [← hm, List.getD_eq_getElem _ _ hmap, List.getElem_map]
      rw [← hml, list_set_getD_self _ _ _ h9]
    · simp only
      rw [List.countP_set _ _ _ _ hidx]
      have h1 : (!Tile.isEmpty (Tile.Empty (b0.tiles.getD (y * 3 + x) (Tile.Empty 0)).num))
          = false := rfl
      rw [h1, hnonempty]
      have hfle : List.countP (fun t => !t.isEmpty) b0.tiles ≤ b0.tiles.length :=
        List.countP_le_length _
      simp only [Bool.not_false, Bool.false_eq_true, reduceIte]
      omega

/-- Claim C6: on every board reachable from `Board::new` by `set` calls and by
`reset` calls undoing a previous `set`, the turn counter equals the number of
non-`Empty` tiles (0 at construction). -/
theorem claim_C6 : Board.new.turns = 0 ∧
    ∀ b : Board, Reachable b → b.turns = b.filledCount :=
  ⟨rfl, fun _ h => (reachable_invariant h).2⟩

/-- Witness for `claim_C6`: the invariant instantiated after one concrete
`set` from the fresh board. -/
theorem claim_C6_witness :
    ((Board.new.set 1 1 Role.X).1).turns = ((Board.new.set 1 1 Role.X).1).filledCount :=
  claim_C6.2 _ (Reachable.set 1 1 Role.X (by decide) (by decide) Reachable.new)

/-- Claim C10: `Board::reset` decrements the `u8` turn counter unconditionally
(also when the addressed cell is already `Empty`); on a board whose counter is
0 the subtraction underflows (wrapping to 255 in release builds, a panic in
checked builds), so the counter decrement is well-behaved only under the
precondition `turns ≥ 1` — which holds whenever the `reset` undoes a
previously applied `set`, where the round trip restores the board exactly. -/
theorem claim_C10 (b : Board) (x y : Nat) (hx : x < 3) (hy : y < 3)
    (hlen : b.tiles.length = 9) :
    ((b.reset x y).turns = (b.turns + 255) % 256) ∧
    (b.turns = 0 → (b.reset x y).turns = 255) ∧
    (1 ≤ b.turns → b.turns < 256 → (b.reset x y).turns = b.turns - 1) ∧
    (∀ r, b.is_empty x y = true → b.turns < 255 →
      ((b.set x y r).1).reset x y = b) := by
  refine ⟨rfl, ?_, ?_, ?_⟩
  · intro h0
    unfold Board.reset
    simp only
    omega
  · intro h1 h2
    unfold Board.reset
    simp only
    omega
  · intro r hemp ht
    exact Board.reset_set hx hy hlen hemp (by omega)

/-- Witness for `claim_C10` at the fresh board (turn counter 0) and cell
(2, 1). -/
theorem claim_C10_witness :
    ((Board.new.reset 2 1).turns = (Board.new.turns + 255) % 256) ∧
    (Board.new.turns = 0 → (Board.new.reset 2 1).turns = 255) ∧
    (1 ≤ Board.new.turns → Board.new.turns < 256 →
      (Board.new.reset 2 1).turns = Board.new.turns - 1) ∧
    (∀ r, Board.new.is_empty 2 1 = true → Board.new.turns < 255 →
      ((Board.new.set 2 1 r).1).reset 2 1 = Board.new) :=
  claim_C10 Board.new 2 1 (by decide) (by decide) (by decide)

/-- The body of the `for spot in available_spots` loop of `minimax`
(src/game/artificial_intelligence.rs lines 38–51), with the mutation of the
source made explicit: each iteration applies `set` to the current board,
computes the recursive score on the mutated board, applies `reset` to the
same spot, and threads the resulting board into the next iteration. -/
def minimaxLoop (player : Role) : List PlayingPosition → Board → List Move × Board
  | [], b => ([], b)
  | spot :: rest, b =>
      let b1 := (b.set spot.1 spot.2 player).1
      let m := Move.new spot
        (minimax b1 (if player == Role.X then Role.O else Role.X)).score
      let b2 := b1.reset spot.1 spot.2
      let res := minimaxLoop player rest b2
      (m :: res.1, res.2)

theorem minimaxLoop_restores {p : Role} (b : Board) (hlen : b.tiles.length = 9)
    (ht : b.turns < 256) :
    ∀ spots : List PlayingPosition,
      (∀ s ∈ spots, s.1 < 3 ∧ s.2 < 3 ∧ b.is_empty s.1 s.2 = true) →
      (minimaxLoop p spots b).2 = b := by
  intro spots
  induction spots with
  | nil => intro _; rfl
  | cons spot rest ih =>
    intro hall
    obtain ⟨hx, hy, hemp⟩ := hall spot (List.mem_cons_self _ _)
    have hroundtrip : ((b.set spot.1 spot.2 p).1).reset spot.1 spot.2 = b :=
      Board.reset_set hx hy hlen hemp ht
    show (minimaxLoop p rest (((b.set spot.1 spot.2 p).1).reset spot.1 spot.2)).2 = b
    rw [hroundtrip]
    exact ih (fun s hs => hall s (List.mem_cons_of_mem _ hs))

/-- Claim C8: the `set` / recurse / `reset` loop of `minimax` restores the
board before returning — for every board a program run can hold, after
iterating over all available spots the threaded board (tiles and turn counter
included) equals the input board. -/
theorem claim_C8 (b : Board) (p : Role) (hlen : b.tiles.length = 9)
    (ht : b.turns < 256) :
    (minimaxLoop p b.get_available_spots b).2 = b := by
  refine minimaxLoop_restores b hlen ht _ ?_
  intro s hs
  exact Board.mem_available_spots.1 hs

/-- Witness for `claim_C8` at the fresh board. -/
theorem claim_C8_witness :
    (minimaxLoop Role.X Board.new.get_available_spots Board.new).2 = Board.new :=
  claim_C8 Board.new Role.X (by decide) (by decide)

/-- Claim C9: with the cursor inside the 3×3 grid (an invariant of the board),
the human controller's `start_turn` always returns the idle action; its
`handle_key_press` returns a one-cell cursor `Move` on a directional key
exactly when the target stays in bounds (a directional key that would leave
the grid yields idle, leaving the cursor unchanged), returns `Play(cursor)`
on the confirm key exactly when the cursor's cell is `Empty`, and idles on
every other key. -/
theorem claim_C9 (b : Board) (key : Key)
    (hx : b.playing_position.1 < 3) (hy : b.playing_position.2 < 3) :
    HumanPlayerController.start_turn b = PlayerAction.None ∧
    (HumanPlayerController.handle_key_press b Key.Down =
      if b.playing_position.2 + 1 < 3 then
        PlayerAction.Move (b.playing_position.1, b.playing_position.2 + 1)
      else PlayerAction.None) ∧
    (HumanPlayerController.handle_key_press b Key.Up =
      if 1 ≤ b.playing_position.2 then
        PlayerAction.Move (b.playing_position.1, b.playing_position.2 - 1)
      else PlayerAction.None) ∧
    (HumanPlayerController.handle_key_press b Key.Left =
      if 1 ≤ b.playing_position.1 then
        PlayerAction.Move (b.playing_position.1 - 1, b.playing_position.2)
      else PlayerAction.None) ∧
    (HumanPlayerController.handle_key_press b Key.Right =
      if b.playing_position.1 + 1 < 3 then
        PlayerAction.Move (b.playing_position.1 + 1, b.playing_position.2)
      else PlayerAction.None) ∧
    (∀ c, HumanPlayerController.handle_key_press b (Key.Char c) =
      if c = '\n' ∧ b.is_empty b.playing_position.1 b.playing_position.2 then
        PlayerAction.Play b.playing_position
      else PlayerAction.None) ∧
    (∀ q, HumanPlayerController.handle_key_press b key = PlayerAction.Move q →
      q.1 < 3 ∧ q.2 < 3 ∧
        ((q.1 = b.playing_position.1 ∧
            (q.2 = b.playing_position.2 + 1 ∨ q.2 + 1 = b.playing_position.2)) ∨
          (q.2 = b.playing_position.2 ∧
            (q.1 = b.playing_position.1 + 1 ∨ q.1 + 1 = b.playing_position.1)))) ∧
    (∀ q, HumanPlayerController.handle_key_press b key = PlayerAction.Play q →
      q = b.playing_position ∧
        b.is_empty b.playing_position.1 b.playing_position.2 = true ∧
        key = Key.Char '\n') ∧
    (key ≠ Key.Down → key ≠ Key.Up → key ≠ Key.Left → key ≠ Key.Right →
      (∀ c, key ≠ Key.Char c) →
      HumanPlayerController.handle_key_press b key = PlayerAction.None) := by
  refine ⟨rfl, ?_, ?_, ?_, ?_, fun c => rfl, ?_, ?_, ?_⟩
  · unfold HumanPlayerController.handle_key_press
    dsimp only
    by_cases h : b.playing_position.2 < 2
    · rw [if_pos h, if_pos (by omega)]
    · rw [if_neg h, if_neg (by omega)]
  · unfold HumanPlayerController.handle_key_press
    dsimp only
    by_cases h : b.playing_position.2 > 0
    · rw [if_pos h, if_pos (by omega)]
    · rw [if_neg h, if_neg (by omega)]
  · unfold HumanPlayerController.handle_key_press
    dsimp only
    by_cases h : b.playing_position.1 > 0
    · rw [if_pos h, if_pos (by omega)]
    · rw [if_neg h, if_neg (by omega)]
  · unfold HumanPlayerController.handle_key_press
    dsimp only
    by_cases h : b.playing_position.1 < 2
    · rw [if_pos h, if_pos (by omega)]
    · rw [if_neg h, if_neg (by omega)]
  · intro q h
    unfold HumanPlayerController.handle_key_press at h
    cases key <;> dsimp only at h
    case Char c =>
      split at h <;> exact PlayerAction.noConfusion h
    case Down =>
      split at h
      · next hc =>
        injection h with h1
        subst h1
        exact ⟨by omega, by omega, Or.inl ⟨rfl, Or.inl rfl⟩⟩
      · exact PlayerAction.noConfusion h
    case Left =>
      split at h
      · next hc =>
        injection h with h1
        subst h1
        exact ⟨by omega, by omega, Or.inr ⟨rfl, Or.inr (by omega)⟩⟩
      · exact PlayerAction.noConfusion h
    case Right =>
      split at h
      · next hc =>
        injection h with h1
        subst h1
        exact ⟨by omega, by omega, Or.inr ⟨rfl, Or.inl rfl⟩⟩
      · exact PlayerAction.noConfusion h
    case Up =>
      split at h
      · next hc =>
        injection h with h1
        subst h1
        exact ⟨by omega, by omega, Or.inl ⟨rfl, Or.inr (by omega)⟩⟩
      · exact PlayerAction.noConfusion h
    all_goals exact PlayerAction.noConfusion h
  · intro q h
    unfold HumanPlayerController.handle_key_press at h
    cases key <;> dsimp only at h
    case Char c =>
      split at h
      · next hc =>
        injection h with h1
        exact ⟨h1.symm, hc.2, by rw [hc.1]⟩
      · exact PlayerAction.noConfusion h
    case Down => split at h <;> exact PlayerAction.noConfusion h
    case Left => split at h <;> exact PlayerAction.noConfusion h
    case Right => split at h <;> exact PlayerAction.noConfusion h
    case Up => split at h <;> exact PlayerAction.noConfusion h
    all_goals exact PlayerAction.noConfusion h
  · intro h1 h2 h3 h4 h5
    unfold HumanPlayerController.handle_key_press
    cases key <;> first
      | rfl
      | exact absurd rfl h1
      | exact absurd rfl h2
      | exact absurd rfl h3
      | exact absurd rfl h4
      | exact absurd rfl (h5 _)

/-- Witness for `claim_C9` on the fresh board (cursor at the centre) with the
leftward key. -/
theorem claim_C9_witness :
    Board.new.playing_position.1 < 3 ∧
      HumanPlayerController.start_turn Board.new = PlayerAction.None ∧
      HumanPlayerController.handle_key_press Board.new Key.Left =
        (if 1 ≤ Board.new.playing_position.1 then
          PlayerAction.Move (Board.new.playing_position.1 - 1, Board.new.playing_position.2)
        else PlayerAction.None) :=
  ⟨by decide, (claim_C9 Board.new Key.Left (by decide) (by decide)).1,
    (claim_C9 Board.new Key.Left (by decide) (by decide)).2.2.2.1⟩

theorem minimax_winO {b : Board} {p : Role}
    (h : (b.compute_result Role.O).isWinFor Role.O = true) :
    minimax b p = Move.with_score (-10) := by
  rw [minimax]
  simp only [h, if_true]

theorem minimax_winX {b : Board} {p : Role}
    (hO : (b.compute_result Role.O).isWinFor Role.O = false)
    (hX : (b.compute_result Role.X).isWinFor Role.X = true) :
    minimax b p = Move.with_score 10 := by
  rw [minimax]
  simp only [hO, hX, Bool.false_eq_true, if_false, if_true]

theorem minimax_full {b : Board} {p : Role}
    (hO : (b.compute_result Role.O).isWinFor Role.O = false)
    (hX : (b.compute_result Role.X).isWinFor Role.X = false)
    (hspots : b.get_available_spots = []) :
    minimax b p = Move.with_score 0 := by
  rw [minimax]
  simp only [hO, hX, hspots, Bool.false_eq_true, if_false, List.length_nil, if_true]
  rfl

theorem bestIdxGt_all_le :
    ∀ (l : List Move) (i best : Nat) (bs : Int),
      (∀ m ∈ l, m.score ≤ bs) → bestIdxGt l i best bs = best := by
  intro l
  induction l with
  | nil => intro i best bs _; rfl
  | cons m rest ih =>
    intro i best bs hall
    unfold bestIdxGt
    rw [if_neg (by
      have := hall m (List.mem_cons_self _ _)
      omega)]
    exact ih (i + 1) best bs (fun m' hm' => hall m' (List.mem_cons_of_mem _ hm'))

theorem bestIdxGt_spec :
    ∀ (l : List Move) (i best : Nat) (bs : Int),
      (∃ m ∈ l, bs < m.score) →
      ∃ k, k < l.length ∧ bestIdxGt l i best bs = i + k ∧
        bs < (l.getD k (Move.with_score 0)).score ∧
        (∀ m ∈ l, m.score ≤ (l.getD k (Move.with_score 0)).score) ∧
        ∀ j, j < k → (l.getD j (Move.with_score 0)).score <
          (l.getD k (Move.with_score 0)).score := by
  intro l
  induction l with
  | nil =>
    intro i best bs h
    obtain ⟨m, hm, -⟩ := h
    exact absurd hm (List.not_mem_nil _)
  | cons m rest ih =>
    intro i best bs hex
    by_cases hm : m.score > bs
    · unfold bestIdxGt
      rw [if_pos hm]
      by_cases hrest : ∃ m' ∈ rest, m.score < m'.score
      · obtain ⟨k, hk, heq, hgt, hall, hfirst⟩ := ih (i + 1) i m.score hrest
        refine ⟨k + 1, by simp; omega, by rw [heq]; omega, ?_, ?_, ?_⟩
        · rw [List.getD_cons_succ]
          omega
        · intro m' hm'
          rw [List.getD_cons_succ]
          rcases List.mem_cons.1 hm' with rfl | hm'
          · omega
          · exact hall m' hm'
        · intro j hj
          rw [List.getD_cons_succ]
          cases j with
          | zero => rw [List.getD_cons_zero]; omega
          | succ j' =>
            rw [List.getD_cons_succ]
            exact hfirst j' (by omega)
      · push_neg at hrest
        rw [bestIdxGt_all_le rest (i + 1) i m.score hrest]
        refine ⟨0, by simp, by omega, ?_, ?_, ?_⟩
        · rw [List.getD_cons_zero]
          omega
        · intro m' hm'
          rw [List.getD_cons_zero]
          rcases List.mem_cons.1 hm' with rfl | hm'
          · omega
          · exact hrest m' hm'
        · intro j hj
          omega
    · unfold bestIdxGt
      rw [if_neg hm]
      have hex' : ∃ m' ∈ rest, bs < m'.score := by
        obtain ⟨m', hm', hs⟩ := hex
        rcases List.mem_cons.1 hm' with rfl | hm'
        · omega
        · exact ⟨m', hm', hs⟩
      obtain ⟨k, hk, heq, hgt, hall, hfirst⟩ := ih (i + 1) best bs hex'
      refine ⟨k + 1, by simp; omega, by rw [heq]; omega, ?_, ?_, ?_⟩
      · rw [List.getD_cons_succ]
        exact hgt
      · intro m' hm'
        rw [List.getD_cons_succ]
        rcases List.mem_cons.1 hm' with rfl | hm'
        · omega
        · exact hall m' hm'
      · intro j hj
        rw [List.getD_cons_succ]
        cases j with
        | zero => rw [List.getD_cons_zero]; omega
        | succ j' =>
          rw [List.getD_cons_succ]
          exact hfirst j' (by omega)

theorem bestIdxLt_all_ge :
    ∀ (l : List Move) (i best : Nat) (bs : Int),
      (∀ m ∈ l, bs ≤ m.score) → bestIdxLt l i best bs = best := by
  intro l
  induction l with
  | nil => intro i best bs _; rfl
  | cons m rest ih =>
    intro i best bs hall
    unfold bestIdxLt
    rw [if_neg (by
      have := hall m (List.mem_cons_self _ _)
      omega)]
    exact ih (i + 1) best bs (fun m' hm' => hall m' (List.mem_cons_of_mem _ hm'))

theorem bestIdxLt_spec :
    ∀ (l : List Move) (i best : Nat) (bs : Int),
      (∃ m ∈ l, m.score < bs) →
      ∃ k, k < l.length ∧ bestIdxLt l i best bs = i + k ∧
        (l.getD k (Move.with_score 0)).score < bs ∧
        (∀ m ∈ l, (l.getD k (Move.with_score 0)).score ≤ m.score) ∧
        ∀ j, j < k → (l.getD k (Move.with_score 0)).score <
          (l.getD j (Move.with_score 0)).score := by
  intro l
  induction l with
  | nil =>
    intro i best bs h
    obtain ⟨m, hm, -⟩ := h
    exact absurd hm (List.not_mem_nil _)
  | cons m rest ih =>
    intro i best bs hex
    by_cases hm : m.score < bs
    · unfold bestIdxLt
      rw [if_pos hm]
      by_cases hrest : ∃ m' ∈ rest, m'.score < m.score
      · obtain ⟨k, hk, heq, hgt, hall, hfirst⟩ := ih (i + 1) i m.score hrest
        refine ⟨k + 1, by simp; omega, by rw [heq]; omega, ?_, ?_, ?_⟩
        · rw [List.getD_cons_succ]
          omega
        · intro m' hm'
          rw [List.getD_cons_succ]
          rcases List.mem_cons.1 hm' with rfl | hm'
          · omega
          · exact hall m' hm'
        · intro j hj
          rw [List.getD_cons_succ]
          cases j with
          | zero => rw [List.getD_cons_zero]; omega
          | succ j' =>
            rw [List.getD_cons_succ]
            exact hfirst j' (by omega)
      · push_neg at hrest
        rw [bestIdxLt_all_ge rest (i + 1) i m.score hrest]
        refine ⟨0, by simp, by omega, ?_, ?_, ?_⟩
        · rw [List.getD_cons_zero]
          omega
        · intro m' hm'
          rw [List.getD_cons_zero]
          rcases List.mem_cons.1 hm' with rfl | hm'
          · omega
          · exact hrest m' hm'
        · intro j hj
          omega
    · unfold bestIdxLt
      rw [if_neg hm]
      have hex' : ∃ m' ∈ rest, m'.score < bs := by
        obtain ⟨m', hm', hs⟩ := hex
        rcases List.mem_cons.1 hm' with rfl | hm'
        · omega
        · exact ⟨m', hm', hs⟩
      obtain ⟨k, hk, heq, hgt, hall, hfirst⟩ := ih (i + 1) best bs hex'
      refine ⟨k + 1, by simp; omega, by rw [heq]; omega, ?_, ?_, ?_⟩
      · rw [List.getD_cons_succ]
        exact hgt
      · intro m' hm'
        rw [List.getD_cons_succ]
        rcases List.mem_cons.1 hm' with rfl | hm'
        · omega
        · exact hall m' hm'
      · intro j hj
        rw [List.getD_cons_succ]
        cases j with
        | zero => rw [List.getD_cons_zero]; omega
        | succ j' =>
          rw [List.getD_cons_succ]
          exact hfirst j' (by omega)

/-- The score `minimax` computes for one available spot: recurse on the board
with that spot set for the side to move, the other side to move next. -/
def spotScore (b : Board) (p : Role) (s : PlayingPosition) : Int :=
  (minimax (b.set s.1 s.2 p).1 (if p == Role.X then Role.O else Role.X)).score

/-- The `moves` vector `minimax` builds in its loop (one `Move` per available
spot, in `get_available_spots` order). -/
def minimaxMoves (b : Board) (p : Role) : List Move :=
  b.get_available_spots.map (fun s => Move.new s (spotScore b p s))

theorem minimax_nonterminal {b : Board} {p : Role} (hlen : b.tiles.length = 9)
    (hO : (b.compute_result Role.O).isWinFor Role.O = false)
    (hX : (b.compute_result Role.X).isWinFor Role.X = false)
    (hne : b.get_available_spots ≠ []) :
    minimax b p = (minimaxMoves b p).getD
      (if p == Role.X then bestIdxGt (minimaxMoves b p) 0 0 (-10000)
       else bestIdxLt (minimaxMoves b p) 0 0 10000) (Move.with_score 0) := by
  rw [minimax]
  have hlen0 : (b.get_available_spots.length == 0) = false := by
    simp [List.length_eq_zero, hne]
  simp only [hO, hX, hlen0, Bool.false_eq_true, if_false]
  have hmapeq : b.get_available_spots.attach.map (fun s =>
      Move.new s.1 (if h : ((b.set s.1.1 s.1.2 p).1).emptyCount < b.emptyCount then
        (minimax (b.set s.1.1 s.1.2 p).1
          (if p == Role.X then Role.O else Role.X)).score
      else 0)) = minimaxMoves b p := by
    rw [List.map_congr_left (g := fun s : {x // x ∈ b.get_available_spots} =>
        Move.new s.1 (spotScore b p s.1)) ?_]
    · exact List.attach_map_val _ (fun s => Move.new s (spotScore b p s))
    · intro s hs
      obtain ⟨hx, hy, hemp⟩ := Board.mem_available_spots.1 s.2
      rw [dif_pos (Board.emptyCount_set_lt hx hy hlen hemp)]
      rfl
  rw [hmapeq]

theorem Move.with_score_score (s : Int) : (Move.with_score s).score = s := rfl

theorem Move.new_score (q : PlayingPosition) (s : Int) : (Move.new q s).score = s := rfl

theorem Move.new_pos (q : PlayingPosition) (s : Int) : (Move.new q s).pos = q := rfl

theorem bool_eq_false {x : Bool} (h : ¬x = true) : x = false := by
  cases x
  · rfl
  · exact absurd rfl h

theorem Board.set_tiles_length (b : Board) (x y : Nat) (r : Role) :
    ((b.set x y r).1).tiles.length = b.tiles.length := by
  unfold Board.set
  dsimp only
  split <;> simp

/-- Every `minimax` score lies in `[-10, 10]` (so the `±10000` sentinels of
the selection loops are always beaten). -/
theorem minimax_score_bound :
    ∀ (n : Nat) (b : Board) (p : Role), b.emptyCount = n → b.tiles.length = 9 →
      -10 ≤ (minimax b p).score ∧ (minimax b p).score ≤ 10 := by
  intro n
  induction n using Nat.strong_induction_on with
  | _ n ih =>
    intro b p hn hlen
    by_cases hO : (b.compute_result Role.O).isWinFor Role.O = true
    · rw [minimax_winO hO, Move.with_score_score]
      omega
    · have hO' := bool_eq_false hO
      by_cases hX : (b.compute_result Role.X).isWinFor Role.X = true
      · rw [minimax_winX hO' hX, Move.with_score_score]
        omega
      · have hX' := bool_eq_false hX
        by_cases hsp : b.get_available_spots = []
        · rw [minimax_full hO' hX' hsp, Move.with_score_score]
          omega
        · rw [minimax_nonterminal hlen hO' hX' hsp]
          have hbound : ∀ m ∈ minimaxMoves b p, -10 ≤ m.score ∧ m.score ≤ 10 := by
            intro m hm
            obtain ⟨s, hs, rfl⟩ := List.mem_map.1 hm
            obtain ⟨hx, hy, hemp⟩ := Board.mem_available_spots.1 hs
            have hcount : ((b.set s.1 s.2 p).1).emptyCount < n :=
              hn ▸ Board.emptyCount_set_lt hx hy hlen hemp
            have hlen' : ((b.set s.1 s.2 p).1).tiles.length = 9 := by
              rw [Board.set_tiles_length]
              exact hlen
            exact ih _ hcount _ _ rfl hlen'
          set idx := if p == Role.X then bestIdxGt (minimaxMoves b p) 0 0 (-10000)
            else bestIdxLt (minimaxMoves b p) 0 0 10000 with hidx
          by_cases hk : idx < (minimaxMoves b p).length
          · refine hbound _ ?_
            rw [List.getD_eq_getElem _ _ hk]
            exact List.getElem_mem hk
          · rw [List.getD_eq_default _ _ (by omega), Move.with_score_score]
            omega

/-- The selection of `minimax` on a non-terminal position: the returned move
is the first one, in `get_available_spots` order, attaining the extremal
recursive score for the side to move (maximal for X, minimal for O). -/
theorem minimax_choice {b : Board} {p : Role} (hlen : b.tiles.length = 9)
    (hO : (b.compute_result Role.O).isWinFor Role.O = false)
    (hX : (b.compute_result Role.X).isWinFor Role.X = false)
    (hne : b.get_available_spots ≠ []) :
    ∃ k, k < b.get_available_spots.length ∧
      (minimax b p).pos = b.get_available_spots.getD k (0, 0) ∧
      (minimax b p).score = spotScore b p (b.get_available_spots.getD k (0, 0)) ∧
      (p = Role.X →
        (∀ s ∈ b.get_available_spots, spotScore b p s ≤ (minimax b p).score) ∧
        ∀ j, j < k →
          spotScore b p (b.get_available_spots.getD j (0, 0)) < (minimax b p).score) ∧
      (p = Role.O →
        (∀ s ∈ b.get_available_spots, (minimax b p).score ≤ spotScore b p s) ∧
        ∀ j, j < k →
          (minimax b p).score < spotScore b p (b.get_available_spots.getD j (0, 0))) := by
  have hbound : ∀ m ∈ minimaxMoves b p, -10 ≤ m.score ∧ m.score ≤ 10 := by
    intro m hm
    obtain ⟨s, hs, rfl⟩ := List.mem_map.1 hm
    obtain ⟨hx, hy, hemp⟩ := Board.mem_available_spots.1 hs
    refine minimax_score_bound _ _ _ rfl ?_
    rw [Board.set_tiles_length]
    exact hlen
  have hmovesne : minimaxMoves b p ≠ [] := by
    unfold minimaxMoves
    simp [hne]
  have hmlen : (minimaxMoves b p).length = b.get_available_spots.length := by
    unfold minimaxMoves
    simp
  have hgetD : ∀ j, j < b.get_available_spots.length →
      (minimaxMoves b p).getD j (Move.with_score 0) =
        Move.new (b.get_available_spots.getD j (0, 0)) (spotScore b p (b.get_available_spots.getD j (0, 0))) := by
    intro j hj
    unfold minimaxMoves
    rw [List.getD_eq_getElem _ _ (by simp; omega), List.getElem_map,
      List.getD_eq_getElem _ _ hj]
  obtain ⟨m0, hm0⟩ := List.exists_mem_of_ne_nil _ hmovesne
  cases p with
  | X =>
    have hex : ∃ m ∈ minimaxMoves b Role.X, (-10000 : Int) < m.score := by
      refine ⟨m0, hm0, ?_⟩
      have := hbound m0 hm0
      omega
    obtain ⟨k, hk, heq, hgt, hall, hfirst⟩ := bestIdxGt_spec (minimaxMoves b Role.X) 0 0 (-10000) hex
    have hres : minimax b Role.X =
        (minimaxMoves b Role.X).getD k (Move.with_score 0) := by
      rw [minimax_nonterminal hlen hO hX hne]
      have : (if (Role.X == Role.X) = true then bestIdxGt (minimaxMoves b Role.X) 0 0 (-10000)
          else bestIdxLt (minimaxMoves b Role.X) 0 0 10000) = 0 + k := by
        rw [if_pos (show (Role.X == Role.X) = true from rfl)]
        exact heq
      rw [this]
      simp
    have hk' : k < b.get_available_spots.length := by omega
    refine ⟨k, hk', ?_, ?_, ?_, ?_⟩
    · rw [hres, hgetD k hk', Move.new_pos]
    · rw [hres, hgetD k hk', Move.new_score]
    · intro _
      constructor
      · intro s hs
        have hmem : Move.new s (spotScore b Role.X s) ∈ minimaxMoves b Role.X :=
          List.mem_map.2 ⟨s, hs, rfl⟩
        have := hall _ hmem
        rw [Move.new_score] at this
        rw [hres]
        exact this
      · intro j hj
        have := hfirst j hj
        rw [hgetD j (by omega), Move.new_score] at this
        rw [hres]
        exact this
    · intro habs
      exact absurd habs (by simp)
  | O =>
    have hex : ∃ m ∈ minimaxMoves b Role.O, m.score < (10000 : Int) := by
      refine ⟨m0, hm0, ?_⟩
      have := hbound m0 hm0
      omega
    obtain ⟨k, hk, heq, hgt, hall, hfirst⟩ := bestIdxLt_spec (minimaxMoves b Role.O) 0 0 10000 hex
    have hres : minimax b Role.O =
        (minimaxMoves b Role.O).getD k (Move.with_score 0) := by
      rw [minimax_nonterminal hlen hO hX hne]
      have : (if (Role.O == Role.X) = true then bestIdxGt (minimaxMoves b Role.O) 0 0 (-10000)
          else bestIdxLt (minimaxMoves b Role.O) 0 0 10000) = 0 + k := by
        rw [if_neg (by simp)]
        exact heq
      rw [this]
      simp
    have hk' : k < b.get_available_spots.length := by omega
    refine ⟨k, hk', ?_, ?_, ?_, ?_⟩
    · rw [hres, hgetD k hk', Move.new_pos]
    · rw [hres, hgetD k hk', Move.new_score]
    · intro habs
      exact absurd habs (by simp)
    · intro _
      constructor
      · intro s hs
        have hmem : Move.new s (spotScore b Role.O s) ∈ minimaxMoves b Role.O :=
          List.mem_map.2 ⟨s, hs, rfl⟩
        have := hall _ hmem
        rw [Move.new_score] at this
        rw [hres]
        exact this
      · intro j hj
        have := hfirst j hj
        rw [hgetD j (by omega), Move.new_score] at this
        rw [hres]
        exact this

/-- A fuel-indexed structural twin of `minimax` (identical body, recursion on
the fuel); used to evaluate `minimax` on concrete boards, where the
well-founded recursion of `minimax` itself does not reduce. -/
def minimaxF : Nat → Board → Role → Move
  | 0, _, _ => Move.with_score 0
  | fuel + 1, b, player =>
      let available_spots := b.get_available_spots
      if (b.compute_result Role.O).isWinFor Role.O then Move.with_score (-10)
      else if (b.compute_result Role.X).isWinFor Role.X then Move.with_score 10
      else if available_spots.length == 0 then Move.with_score 0
      else
        let moves := available_spots.map (fun s =>
          Move.new s (minimaxF fuel (b.set s.1 s.2 player).1
            (if player == Role.X then Role.O else Role.X)).score)
        let best_move :=
          if player == Role.X then bestIdxGt moves 0 0 (-10000)
          else bestIdxLt moves 0 0 10000
        moves.getD best_move (Move.with_score 0)

theorem minimaxF_winO {fuel : Nat} {b : Board} {p : Role}
    (h : (b.compute_result Role.O).isWinFor Role.O = true) :
    minimaxF (fuel + 1) b p = Move.with_score (-10) := by
  rw [minimaxF]
  simp only [h, if_true]

theorem minimaxF_winX {fuel : Nat} {b : Board} {p : Role}
    (hO : (b.compute_result Role.O).isWinFor Role.O = false)
    (hX : (b.compute_result Role.X).isWinFor Role.X = true) :
    minimaxF (fuel + 1) b p = Move.with_score 10 := by
  rw [minimaxF]
  simp only [hO, hX, Bool.false_eq_true, if_false, if_true]

theorem minimaxF_full {fuel : Nat} {b : Board} {p : Role}
    (hO : (b.compute_result Role.O).isWinFor Role.O = false)
    (hX : (b.compute_result Role.X).isWinFor Role.X = false)
    (hspots : b.get_available_spots = []) :
    minimaxF (fuel + 1) b p = Move.with_score 0 := by
  rw [minimaxF]
  simp only [hO, hX, hspots, Bool.false_eq_true, if_false, List.length_nil, if_true]
  rfl

theorem minimaxF_nonterminal {fuel : Nat} {b : Board} {p : Role}
    (hO : (b.compute_result Role.O).isWinFor Role.O = false)
    (hX : (b.compute_result Role.X).isWinFor Role.X = false)
    (hne : b.get_available_spots ≠ []) :
    minimaxF (fuel + 1) b p =
      (b.get_available_spots.map (fun s =>
        Move.new s (minimaxF fuel (b.set s.1 s.2 p).1
          (if p == Role.X then Role.O else Role.X)).score)).getD
        (if p == Role.X then
          bestIdxGt (b.get_available_spots.map (fun s =>
            Move.new s (minimaxF fuel (b.set s.1 s.2 p).1
              (if p == Role.X then Role.O else Role.X)).score)) 0 0 (-10000)
        else bestIdxLt (b.get_available_spots.map (fun s =>
            Move.new s (minimaxF fuel (b.set s.1 s.2 p).1
              (if p == Role.X then Role.O else Role.X)).score)) 0 0 10000)
        (Move.with_score 0) := by
  rw [minimaxF]
  have hlen0 : (b.get_available_spots.length == 0) = false := by
    simp [List.length_eq_zero, hne]
  simp only [hO, hX, hlen0, Bool.false_eq_true, if_false]

theorem minimax_eq_minimaxF :
    ∀ (n fuel : Nat) (b : Board) (p : Role), b.emptyCount = n → n < fuel →
      b.tiles.length = 9 → minimax b p = minimaxF fuel b p := by
  intro n
  induction n using Nat.strong_induction_on with
  | _ n ih =>
    intro fuel b p hn hfuel hlen
    obtain ⟨fuel', rfl⟩ : ∃ f, fuel = f + 1 := ⟨fuel - 1, by omega⟩
    by_cases hO : (b.compute_result Role.O).isWinFor Role.O = true
    · rw [minimax_winO hO, minimaxF_winO hO]
    · have hO' := bool_eq_false hO
      by_cases hX : (b.compute_result Role.X).isWinFor Role.X = true
      · rw [minimax_winX hO' hX, minimaxF_winX hO' hX]
      · have hX' := bool_eq_false hX
        by_cases hsp : b.get_available_spots = []
        · rw [minimax_full hO' hX' hsp, minimaxF_full hO' hX' hsp]
        · rw [minimax_nonterminal hlen hO' hX' hsp, minimaxF_nonterminal hO' hX' hsp]
          have hmoves : minimaxMoves b p = b.get_available_spots.map (fun s =>
              Move.new s (minimaxF fuel' (b.set s.1 s.2 p).1
                (if p == Role.X then Role.O else Role.X)).score) := by
            refine List.map_congr_left ?_
            intro s hs
            obtain ⟨hx, hy, hemp⟩ := Board.mem_available_spots.1 hs
            have hcount : ((b.set s.1 s.2 p).1).emptyCount < n :=
              hn ▸ Board.emptyCount_set_lt hx hy hlen hemp
            have hlen' : ((b.set s.1 s.2 p).1).tiles.length = 9 := by
              rw [Board.set_tiles_length]
              exact hlen
            unfold spotScore
            rw [ih _ hcount fuel' _ _ rfl (by omega) hlen']
          rw [hmoves]

theorem isWinFor_iff {b : Board} {r : Role} (hm : b.magicOk) :
    (b.compute_result r).isWinFor r = true ↔
      ∃ sol ∈ WINNING_SOLUTIONS, b.solOwned sol r = true := by
  constructor
  · intro h
    cases hcr : b.compute_result r with
    | Winner r' sol =>
      have hspec := compute_result_winner_spec hm hcr
      exact ⟨sol, hspec.2.1, hspec.2.2⟩
    | Draw =>
      rw [hcr] at h
      cases r <;> exact absurd h (by decide)
    | NotFinished =>
      rw [hcr] at h
      cases r <;> exact absurd h (by decide)
  · intro h
    obtain ⟨sol, hcr⟩ := compute_result_winner_of_hasLine hm h
    rw [hcr]
    cases r <;> rfl

/-- Claim C3 (amended): when `minimax` reaches a completed position it returns
a fixed score — but the side designated as maximizing is X (historically the
second role), not O/First: the score is −10 if O has won, +10 if X has won
(and O has not), and 0 when no further legal moves remain without a winner.
The returned coordinate of these terminal moves is the dummy (0, 0). -/
theorem claim_C3 (b : Board) (p : Role) (hm : b.magicOk) :
    ((∃ sol ∈ WINNING_SOLUTIONS, b.solOwned sol Role.O = true) →
      minimax b p = Move.with_score (-10)) ∧
    ((¬∃ sol ∈ WINNING_SOLUTIONS, b.solOwned sol Role.O = true) →
      (∃ sol ∈ WINNING_SOLUTIONS, b.solOwned sol Role.X = true) →
      minimax b p = Move.with_score 10) ∧
    ((¬∃ sol ∈ WINNING_SOLUTIONS, b.solOwned sol Role.O = true) →
      (¬∃ sol ∈ WINNING_SOLUTIONS, b.solOwned sol Role.X = true) →
      b.get_available_spots = [] →
      minimax b p = Move.with_score 0) := by
  refine ⟨?_, ?_, ?_⟩
  · intro h
    exact minimax_winO ((isWinFor_iff hm).2 h)
  · intro hno h
    refine minimax_winX (bool_eq_false ?_) ((isWinFor_iff hm).2 h)
    intro habs
    exact hno ((isWinFor_iff hm).1 habs)
  · intro hno hnx hsp
    refine minimax_full (bool_eq_false ?_) (bool_eq_false ?_) hsp
    · intro habs
      exact hno ((isWinFor_iff hm).1 habs)
    · intro habs
      exact hnx ((isWinFor_iff hm).1 habs)

/-- A board on which O has completed the top row (reached from `Board::new`
by three `set` calls). -/
def bC3 : Board :=
  (((Board.new.set 0 0 Role.O).1.set 1 0 Role.O).1.set 2 0 Role.O).1

/-- Counterexample to C3 as stated: on a completed position won by O — the
role the claim designates as maximizing with score +10 — `minimax` returns
score −10, for either value of the `player` argument. -/
theorem claim_C3_counterexample :
    (∃ sol ∈ WINNING_SOLUTIONS, bC3.solOwned sol Role.O = true) ∧
    minimax bC3 Role.O = Move.with_score (-10) ∧
    minimax bC3 Role.X = Move.with_score (-10) ∧
    (minimax bC3 Role.O).score ≠ 10 := by
  have h : (bC3.compute_result Role.O).isWinFor Role.O = true := by decide
  refine ⟨⟨[(0, 0), (1, 0), (2, 0)], by decide, by decide⟩,
    minimax_winO h, minimax_winO h, ?_⟩
  rw [minimax_winO h]
  decide

/-- Witness for `claim_C3` on the O-won board. -/
theorem claim_C3_witness :
    bC3.magicOk ∧
    (((∃ sol ∈ WINNING_SOLUTIONS, bC3.solOwned sol Role.O = true) →
        minimax bC3 Role.X = Move.with_score (-10)) ∧
      ((¬∃ sol ∈ WINNING_SOLUTIONS, bC3.solOwned sol Role.O = true) →
        (∃ sol ∈ WINNING_SOLUTIONS, bC3.solOwned sol Role.X = true) →
        minimax bC3 Role.X = Move.with_score 10) ∧
      ((¬∃ sol ∈ WINNING_SOLUTIONS, bC3.solOwned sol Role.O = true) →
        (¬∃ sol ∈ WINNING_SOLUTIONS, bC3.solOwned sol Role.X = true) →
        bC3.get_available_spots = [] →
        minimax bC3 Role.X = Move.with_score 0)) :=
  ⟨rfl, claim_C3 bC3 Role.X rfl⟩

/-- Claim C4 (amended): the optimal computer controller's `start_turn` clones
the board and runs `minimax` hardcoded for `Role::X` — not for the player's
own role — returning `Play` of the coordinate the search produces.  (In the
only construction the program uses, `PlayingState::with_opponent`, the
opponent controller is paired with `Role::X`, so there the hardcoded role
coincides with the player's own.) -/
theorem claim_C4 (b : Board) :
    UnbeatableComputerPlayerController.start_turn b =
      PlayerAction.Play ((minimax b Role.X).pos) ∧
    (∀ k, UnbeatableComputerPlayerController.handle_key_press b k =
      PlayerAction.None) :=
  ⟨rfl, fun _ => rfl⟩

/-- A board with two empty cells on which the O-search and the X-search pick
different coordinates (each side would complete its own column). -/
def bC4 : Board :=
  (((((((Board.new.set 0 0 Role.O).1.set 1 0 Role.O).1.set 2 0 Role.X).1.set 0 1
    Role.O).1.set 1 1 Role.O).1.set 2 1 Role.X).1.set 0 2 Role.X).1

/-- Counterexample to C4 as stated: for a player of role O the controller
does not run the search for its own role — on `bC4` the O-search picks
(1, 2) while `start_turn` plays the X-search's (2, 2). -/
theorem claim_C4_counterexample :
    UnbeatableComputerPlayerController.start_turn bC4 =
      PlayerAction.Play ((minimax bC4 Role.X).pos) ∧
    (minimax bC4 Role.O).pos = (1, 2) ∧
    (minimax bC4 Role.X).pos = (2, 2) ∧
    (minimax bC4 Role.O).pos ≠ (minimax bC4 Role.X).pos := by
  have h1 : minimax bC4 Role.O = minimaxF 10 bC4 Role.O :=
    minimax_eq_minimaxF _ 10 bC4 Role.O rfl (by decide) (by decide)
  have h2 : minimax bC4 Role.X = minimaxF 10 bC4 Role.X :=
    minimax_eq_minimaxF _ 10 bC4 Role.X rfl (by decide) (by decide)
  refine ⟨rfl, ?_, ?_, ?_⟩
  · rw [h1]
    decide
  · rw [h2]
    decide
  · rw [h1, h2]
    decide

/-- Claim C7: on a non-terminal position, `minimax` returns the move whose
recursive score is extremal for the side to move (maximal for X, minimal for
O), and among the moves attaining that extremum it returns the first in the
canonical `get_available_spots` order (`x` ascending outer, `y` ascending
inner); the index of the first extremal move is unique, so the returned
coordinate is determined by the board and role (two calls on identical
arguments return the identical coordinate, `minimax` being a pure function of
them). -/
theorem claim_C7 (b : Board) (p : Role) (hlen : b.tiles.length = 9)
    (hO : (b.compute_result Role.O).isWinFor Role.O = false)
    (hX : (b.compute_result Role.X).isWinFor Role.X = false)
    (hne : b.get_available_spots ≠ []) :
    ∃ k, k < b.get_available_spots.length ∧
      (minimax b p).pos = b.get_available_spots.getD k (0, 0) ∧
      (minimax b p).score = spotScore b p (b.get_available_spots.getD k (0, 0)) ∧
      (p = Role.X →
        (∀ s ∈ b.get_available_spots, spotScore b p s ≤ (minimax b p).score) ∧
        (∀ j, j < k →
          spotScore b p (b.get_available_spots.getD j (0, 0)) < (minimax b p).score)) ∧
      (p = Role.O →
        (∀ s ∈ b.get_available_spots, (minimax b p).score ≤ spotScore b p s) ∧
        (∀ j, j < k →
          (minimax b p).score < spotScore b p (b.get_available_spots.getD j (0, 0)))) ∧
      (∀ k', k' < b.get_available_spots.length →
        spotScore b p (b.get_available_spots.getD k' (0, 0)) = (minimax b p).score →
        (∀ j, j < k' →
          spotScore b p (b.get_available_spots.getD j (0, 0)) ≠ (minimax b p).score) →
        k' = k) := by
  obtain ⟨k, hk, hpos, hscore, hXprop, hOprop⟩ := minimax_choice hlen hO hX hne
  refine ⟨k, hk, hpos, hscore, hXprop, hOprop, ?_⟩
  intro k' hk' hach hfirst'
  rcases Nat.lt_trichotomy k' k with h | h | h
  · exfalso
    cases p with
    | O =>
      have := (hOprop rfl).2 k' h
      omega
    | X =>
      have := (hXprop rfl).2 k' h
      omega
  · exact h
  · exfalso
    exact hfirst' k h hscore.symm

/-- A non-terminal board with two empty cells, used to witness `claim_C7`. -/
def bC7 : Board :=
  (((((((Board.new.set 0 0 Role.O).1.set 1 0 Role.X).1.set 2 0 Role.O).1.set 0 1
    Role.X).1.set 1 1 Role.O).1.set 2 1 Role.X).1.set 0 2 Role.X).1

/-- Witness for `claim_C7` on `bC7` with O to move. -/
theorem claim_C7_witness :
    (bC7.tiles.length = 9 ∧
      (bC7.compute_result Role.O).isWinFor Role.O = false ∧
      (bC7.compute_result Role.X).isWinFor Role.X = false ∧
      bC7.get_available_spots ≠ []) ∧
    (∃ k, k < bC7.get_available_spots.length ∧
      (minimax bC7 Role.O).pos = bC7.get_available_spots.getD k (0, 0) ∧
      (minimax bC7 Role.O).score =
        spotScore bC7 Role.O (bC7.get_available_spots.getD k (0, 0)) ∧
      (Role.O = Role.X →
        (∀ s ∈ bC7.get_available_spots,
          spotScore bC7 Role.O s ≤ (minimax bC7 Role.O).score) ∧
        (∀ j, j < k →
          spotScore bC7 Role.O (bC7.get_available_spots.getD j (0, 0)) <
            (minimax bC7 Role.O).score)) ∧
      (Role.O = Role.O →
        (∀ s ∈ bC7.get_available_spots,
          (minimax bC7 Role.O).score ≤ spotScore bC7 Role.O s) ∧
        (∀ j, j < k →
          (minimax bC7 Role.O).score <
            spotScore bC7 Role.O (bC7.get_available_spots.getD j (0, 0)))) ∧
      (∀ k', k' < bC7.get_available_spots.length →
        spotScore bC7 Role.O (bC7.get_available_spots.getD k' (0, 0)) =
          (minimax bC7 Role.O).score →
        (∀ j, j < k' →
          spotScore bC7 Role.O (bC7.get_available_spots.getD j (0, 0)) ≠
            (minimax bC7 Role.O).score) →
        k' = k)) :=
  ⟨⟨by decide, by decide, by decide, by decide⟩,
    claim_C7 bC7 Role.O (by decide) (by decide) (by decide) (by decide)⟩

/-- Some canonical line is uniformly occupied by the role (decidably). -/
def Board.hasLine (b : Board) (r : Role) : Bool :=
  WINNING_SOLUTIONS.any (fun sol => b.solOwned sol r)

theorem Board.hasLine_iff {b : Board} {r : Role} :
    b.hasLine r = true ↔ ∃ sol ∈ WINNING_SOLUTIONS, b.solOwned sol r = true := by
  unfold Board.hasLine
  rw [List.any_eq_true]

theorem Role.other_other (r : Role) : r.other.other = r := by
  cases r <;> rfl

theorem Role.other_ne (r : Role) : r.other ≠ r := by
  cases r <;> decide

theorem spotScore_eq (b : Board) (p : Role) (s : PlayingPosition) :
    spotScore b p s = (minimax (b.set s.1 s.2 p).1 p.other).score := by
  unfold spotScore
  cases p <;> rfl

theorem compute_result_NF_iff {b : Board} {r : Role} (hm : b.magicOk) :
    b.compute_result r = GameResult.NotFinished ↔
      (¬∃ sol ∈ WINNING_SOLUTIONS, b.solOwned sol r = true) ∧ b.turns < 9 := by
  by_cases hl : ∃ sol ∈ WINNING_SOLUTIONS, b.solOwned sol r = true
  · obtain ⟨solc, hc⟩ := compute_result_winner_of_hasLine hm hl
    rw [hc]
    constructor
    · intro h
      exact absurd h (by simp)
    · rintro ⟨hno, -⟩
      exact absurd hl hno
  · rw [compute_result_no_winner hm hl]
    by_cases ht : 9 > b.turns
    · rw [if_pos ht]
      exact ⟨fun _ => ⟨hl, by omega⟩, fun _ => rfl⟩
    · rw [if_neg ht]
      constructor
      · intro h
        exact absurd h (by simp)
      · rintro ⟨-, h9⟩
        omega

theorem list_getD_set_ne {α} (l : List α) (i j : Nat) (a d : α) (hne : i ≠ j) :
    (l.set i a).getD j d = l.getD j d := by
  by_cases hj : j < l.length
  · rw [List.getD_eq_getElem _ _ (by simp; omega), List.getD_eq_getElem _ _ hj,
      List.getElem_set_ne (by omega)]
  · rw [List.getD_eq_default _ _ (by simp; omega), List.getD_eq_default _ _ (by omega)]

/-- A `set` for one role does not change which cells the other role owns. -/
theorem Board.ownedBy_after_set {b : Board} {x y : Nat} {p q : Role} (hpq : q ≠ p)
    (x' y' : Nat) :
    ((((b.set x y p).1).get x' y').ownedBy q) = ((b.get x' y').ownedBy q) := by
  cases hemp : b.is_empty x y with
  | false => rw [Board.set_eq_of_nonempty hemp]
  | true =>
    obtain ⟨n, hn⟩ := Board.is_empty_iff.1 hemp
    rw [Board.set_eq_of_empty hn]
    unfold Board.afterSet Board.get
    simp only
    by_cases hidx : y * 3 + x = y' * 3 + x'
    · rw [← hidx]
      by_cases hlt : y * 3 + x < b.tiles.length
      · rw [List.getD_eq_getElem _ _ (by simp; omega), List.getElem_set_self, hn]
        cases p <;> cases q <;> simp_all [Role.tile, Tile.ownedBy]
      · rw [List.getD_eq_default _ _ (by simp; omega), List.getD_eq_default _ _ (by omega)]
    · rw [list_getD_set_ne _ _ _ _ _ hidx]

theorem Board.solOwned_after_set {b : Board} {x y : Nat} {p q : Role} (hpq : q ≠ p)
    (sol : Solution) :
    ((b.set x y p).1).solOwned sol q = b.solOwned sol q := by
  unfold Board.solOwned
  refine Bool.eq_iff_iff.2 ?_
  rw [List.all_eq_true, List.all_eq_true]
  constructor
  · intro h pos hpos
    rw [← Board.ownedBy_after_set hpq pos.1 pos.2]
    exact h pos hpos
  · intro h pos hpos
    rw [Board.ownedBy_after_set hpq pos.1 pos.2]
    exact h pos hpos

theorem Board.hasLine_after_set {b : Board} {x y : Nat} {p q : Role} (hpq : q ≠ p) :
    ((b.set x y p).1).hasLine q = b.hasLine q := by
  unfold Board.hasLine
  refine Bool.eq_iff_iff.2 ?_
  rw [List.any_eq_true, List.any_eq_true]
  constructor
  · rintro ⟨sol, hsol, h⟩
    rw [Board.solOwned_after_set hpq sol] at h
    exact ⟨sol, hsol, h⟩
  · rintro ⟨sol, hsol, h⟩
    rw [← Board.solOwned_after_set hpq sol] at h
    exact ⟨sol, hsol, h⟩

theorem not_exists_of_hasLine_false {b : Board} {r : Role} (h : b.hasLine r = false) :
    ¬∃ sol ∈ WINNING_SOLUTIONS, b.solOwned sol r = true := by
  intro hex
  have h2 := Board.hasLine_iff.2 hex
  rw [h] at h2
  exact Bool.noConfusion h2

theorem Board.is_empty_eq (b : Board) (x y : Nat) :
    b.is_empty x y = (b.get x y).isEmpty := by
  unfold Board.is_empty
  cases b.get x y <;> rfl

/-- A position of an in-flight game: reachable, turn counter below 9, and no
line completed for either role. -/
def GoodPos (b : Board) : Prop :=
  Reachable b ∧ b.turns < 9 ∧ b.hasLine Role.O = false ∧ b.hasLine Role.X = false

theorem goodPos_facts {b : Board} (h : GoodPos b) :
    b.magicOk ∧ b.tiles.length = 9 ∧
      (b.compute_result Role.O).isWinFor Role.O = false ∧
      (b.compute_result Role.X).isWinFor Role.X = false ∧
      b.get_available_spots ≠ [] := by
  obtain ⟨hreach, ht9, hlO, hlX⟩ := h
  obtain ⟨hm, hcnt⟩ := reachable_invariant hreach
  have hlen : b.tiles.length = 9 := Board.magicOk_length hm
  refine ⟨hm, hlen, ?_, ?_, ?_⟩
  · exact bool_eq_false (fun habs => not_exists_of_hasLine_false hlO ((isWinFor_iff hm).1 habs))
  · exact bool_eq_false (fun habs => not_exists_of_hasLine_false hlX ((isWinFor_iff hm).1 habs))
  · have hfilled : b.filledCount < 9 := by
      unfold Board.filledCount at hcnt
      unfold Board.filledCount
      omega
    have hnotall : ¬∀ t ∈ b.tiles, (!t.isEmpty) = true := by
      intro hall
      have := List.countP_eq_length.2 hall
      unfold Board.filledCount at hfilled
      omega
    push_neg at hnotall
    obtain ⟨t, htmem, htne⟩ := hnotall
    have htempty : t.isEmpty = true := by
      cases t <;> simp_all [Tile.isEmpty]
    obtain ⟨i, hi, hit⟩ := List.mem_iff_getElem.1 htmem
    have hi9 : i < 9 := by omega
    have hspot : (i % 3, i / 3) ∈ b.get_available_spots := by
      refine Board.mem_available_spots.2 ⟨by omega, by omega, ?_⟩
      rw [Board.is_empty_eq]
      unfold Board.get
      have : i / 3 * 3 + i % 3 = i := by omega
      rw [this, List.getD_eq_getElem _ _ (by omega), hit]
      exact htempty
    exact List.ne_nil_of_mem hspot

theorem Board.set_snd_eq {b : Board} {x y : Nat} {r : Role}
    (hemp : b.is_empty x y = true) :
    (b.set x y r).2 = ((b.set x y r).1).compute_result r := by
  obtain ⟨n, hn⟩ := Board.is_empty_iff.1 hemp
  rw [Board.set_eq_of_empty hn]

/-- The choice and extremality facts of `minimax` in the packaging the game
argument uses. -/
theorem value_relations {b : Board} {p : Role} (hlen : b.tiles.length = 9)
    (hO : (b.compute_result Role.O).isWinFor Role.O = false)
    (hX : (b.compute_result Role.X).isWinFor Role.X = false)
    (hne : b.get_available_spots ≠ []) :
    (minimax b p).pos ∈ b.get_available_spots ∧
      spotScore b p ((minimax b p).pos) = (minimax b p).score ∧
      ∀ s ∈ b.get_available_spots,
        (p = Role.X → spotScore b p s ≤ (minimax b p).score) ∧
        (p = Role.O → (minimax b p).score ≤ spotScore b p s) := by
  obtain ⟨k, hk, hpos, hscore, hXprop, hOprop⟩ := minimax_choice hlen hO hX hne
  refine ⟨?_, ?_, ?_⟩
  · rw [hpos, List.getD_eq_getElem _ _ hk]
    exact List.getElem_mem hk
  · rw [hpos, hscore]
  · intro s hs
    constructor
    · intro hp
      exact (hXprop hp).1 s hs
    · intro hp
      exact (hOprop hp).1 s hs

/-- The legality constraint on a move of the game relation: a side using the
search plays exactly `minimax`'s coordinate; any other side plays some
available spot. -/
def movOk (isMM : Role → Bool) (b : Board) (p : Role) (s : PlayingPosition) : Prop :=
  if isMM p then s = (minimax b p).pos else s ∈ b.get_available_spots

/-- A complete game: from a board with `p` to move, each mover plays a legal
move (`minimax`'s move whenever `isMM` marks its role), the move is applied
with `Board::set` as the play state does, and the game ends the first time
`set` returns a result other than `NotFinished` — that result is the game's
outcome. -/
inductive Game (isMM : Role → Bool) : Board → Role → GameResult → Prop
  | last {b : Board} {p : Role} {s : PlayingPosition} (hmov : movOk isMM b p s)
      (hterm : (b.set s.1 s.2 p).2 ≠ GameResult.NotFinished) :
      Game isMM b p (b.set s.1 s.2 p).2
  | step {b : Board} {p : Role} {s : PlayingPosition} {out : GameResult}
      (hmov : movOk isMM b p s)
      (hnf : (b.set s.1 s.2 p).2 = GameResult.NotFinished)
      (hg : Game isMM (b.set s.1 s.2 p).1 p.other out) :
      Game isMM b p out

theorem goodPos_step {b : Board} {p : Role} {s : PlayingPosition} (hg : GoodPos b)
    (hs : s ∈ b.get_available_spots)
    (hnf : (b.set s.1 s.2 p).2 = GameResult.NotFinished) :
    GoodPos (b.set s.1 s.2 p).1 := by
  obtain ⟨hreach, ht9, hlO, hlX⟩ := hg
  obtain ⟨hx, hy, hemp⟩ := Board.mem_available_spots.1 hs
  have hreach' : Reachable (b.set s.1 s.2 p).1 := Reachable.set _ _ p hx hy hreach
  have hm' : ((b.set s.1 s.2 p).1).magicOk := (reachable_invariant hreach').1
  rw [Board.set_snd_eq hemp] at hnf
  have hnf' := (compute_result_NF_iff hm').1 hnf
  have hown : ((b.set s.1 s.2 p).1).hasLine p =
      false := bool_eq_false (fun habs => hnf'.1 (Board.hasLine_iff.1 habs))
  refine ⟨hreach', hnf'.2, ?_, ?_⟩
  · cases p with
    | O => exact hown
    | X =>
      rw [Board.hasLine_after_set (show Role.O ≠ Role.X by decide)]
      exact hlO
  · cases p with
    | O =>
      rw [Board.hasLine_after_set (show Role.X ≠ Role.O by decide)]
      exact hlX
    | X => exact hown

theorem game_never_loses {isMM : Role → Bool} {b : Board} {p : Role} {out : GameResult}
    (hgame : Game isMM b p out) :
    GoodPos b →
    (isMM Role.X = true → 0 ≤ (minimax b p).score) →
    (isMM Role.O = true → (minimax b p).score ≤ 0) →
    (∀ r sol, isMM r = true → out ≠ GameResult.Winner r.other sol) ∧
    ((isMM Role.O = true ∧ isMM Role.X = true) → out = GameResult.Draw) := by
  induction hgame with
  | @last b p s hmov hterm =>
    intro hg hinvX hinvO
    obtain ⟨hm, hlen, hO', hX', hne⟩ := goodPos_facts hg
    have hrel := value_relations (p := p) hlen hO' hX' hne
    have hsmem : s ∈ b.get_available_spots := by
      unfold movOk at hmov
      split at hmov
      · rw [hmov]
        exact hrel.1
      · exact hmov
    obtain ⟨hx, hy, hemp⟩ := Board.mem_available_spots.1 hsmem
    have hout : (b.set s.1 s.2 p).2 = ((b.set s.1 s.2 p).1).compute_result p :=
      Board.set_snd_eq hemp
    have hreach' : Reachable (b.set s.1 s.2 p).1 := Reachable.set _ _ p hx hy hg.1
    have hm' := (reachable_invariant hreach').1
    have hvs := hrel.2.2 s hsmem
    have hc1 : ∀ r sol, isMM r = true →
        (b.set s.1 s.2 p).2 ≠ GameResult.Winner r.other sol := by
      intro r sol hr habs
      rw [hout] at habs
      have hspec := compute_result_winner_spec hm' habs
      have hrr : r = p.other := by rw [← hspec.1, Role.other_other]
      subst hrr
      have hline : ∃ sol ∈ WINNING_SOLUTIONS,
          ((b.set s.1 s.2 p).1).solOwned sol p = true := ⟨sol, hspec.2.1, hspec.2.2⟩
      cases p with
      | O =>
        have hA : 0 ≤ (minimax b Role.O).score := hinvX hr
        have hwinO : (((b.set s.1 s.2 Role.O).1).compute_result Role.O).isWinFor Role.O
            = true := (isWinFor_iff hm').2 hline
        have hval : (minimax (b.set s.1 s.2 Role.O).1 Role.X).score = -10 := by
          rw [minimax_winO hwinO, Move.with_score_score]
        have hle : (minimax b Role.O).score ≤ spotScore b Role.O s := hvs.2 rfl
        rw [spotScore_eq] at hle
        have hox : Role.O.other = Role.X := rfl
        rw [hox] at hle
        omega
      | X =>
        have hA : (minimax b Role.X).score ≤ 0 := hinvO hr
        have hnoO : (((b.set s.1 s.2 Role.X).1).compute_result Role.O).isWinFor Role.O
            = false := by
          refine bool_eq_false (fun habs2 => ?_)
          have hl := (isWinFor_iff hm').1 habs2
          have heq : ((b.set s.1 s.2 Role.X).1).hasLine Role.O = b.hasLine Role.O :=
            Board.hasLine_after_set (show Role.O ≠ Role.X by decide)
          have := Board.hasLine_iff.2 hl
          rw [heq, (hg.2.2.1 : b.hasLine Role.O = false)] at this
          exact Bool.noConfusion this
        have hwinX : (((b.set s.1 s.2 Role.X).1).compute_result Role.X).isWinFor Role.X
            = true := (isWinFor_iff hm').2 hline
        have hval : (minimax (b.set s.1 s.2 Role.X).1 Role.O).score = 10 := by
          rw [minimax_winX hnoO hwinX, Move.with_score_score]
        have hle : spotScore b Role.X s ≤ (minimax b Role.X).score := hvs.1 rfl
        rw [spotScore_eq] at hle
        have hxo : Role.X.other = Role.O := rfl
        rw [hxo] at hle
        omega
    refine ⟨hc1, ?_⟩
    rintro ⟨hmO, hmX⟩
    cases hcr : (b.set s.1 s.2 p).2 with
    | Draw => rfl
    | NotFinished => exact absurd hcr hterm
    | Winner r0 sol =>
      exfalso
      have hcr2 := hcr
      rw [hout] at hcr2
      have hspec := compute_result_winner_spec hm' hcr2
      have hmm : isMM p.other = true := by
        cases p with
        | O => exact hmX
        | X => exact hmO
      have hne2 := hc1 p.other sol hmm
      rw [Role.other_other] at hne2
      exact hne2 (by rw [hcr, hspec.1])
  | @step b p s out hmov hnf hsub ih =>
    intro hg hinvX hinvO
    obtain ⟨hm, hlen, hO', hX', hne⟩ := goodPos_facts hg
    have hrel := value_relations (p := p) hlen hO' hX' hne
    have hsmem : s ∈ b.get_available_spots := by
      unfold movOk at hmov
      split at hmov
      · rw [hmov]
        exact hrel.1
      · exact hmov
    have hgood' := goodPos_step hg hsmem hnf
    have hvs := hrel.2.2 s hsmem
    have hspot : spotScore b p s = (minimax ((b.set s.1 s.2 p).1) p.other).score :=
      spotScore_eq b p s
    by_cases hmm : isMM p = true
    · have hs_eq : s = (minimax b p).pos := by
        unfold movOk at hmov
        rw [if_pos hmm] at hmov
        exact hmov
      have hchosen : spotScore b p s = (minimax b p).score := by
        rw [hs_eq]
        exact hrel.2.1
      refine ih hgood' ?_ ?_
      · intro hrX
        rw [← hspot, hchosen]
        exact hinvX hrX
      · intro hrO
        rw [← hspot, hchosen]
        exact hinvO hrO
    · refine ih hgood' ?_ ?_
      · intro hrX
        cases p with
        | O =>
          have hA : 0 ≤ (minimax b Role.O).score := hinvX hrX
          have hle := hvs.2 rfl
          rw [hspot] at hle
          omega
        | X => exact absurd hrX hmm
      · intro hrO
        cases p with
        | O => exact absurd hrO hmm
        | X =>
          have hA : (minimax b Role.X).score ≤ 0 := hinvO hrO
          have hle := hvs.1 rfl
          rw [hspot] at hle
          omega

theorem any_isEmpty_iff {b : Board} (hlen : b.tiles.length = 9) :
    b.tiles.any Tile.isEmpty = true ↔ b.get_available_spots ≠ [] := by
  constructor
  · intro h
    obtain ⟨t, htmem, htemp⟩ := List.any_eq_true.1 h
    obtain ⟨i, hi, hit⟩ := List.mem_iff_getElem.1 htmem
    have hi9 : i < 9 := by omega
    refine List.ne_nil_of_mem (a := (i % 3, i / 3)) ?_
    refine Board.mem_available_spots.2 ⟨by omega, by omega, ?_⟩
    rw [Board.is_empty_eq]
    unfold Board.get
    have h2 : i / 3 * 3 + i % 3 = i := by omega
    rw [h2, List.getD_eq_getElem _ _ (by omega), hit]
    exact htemp
  · intro h
    obtain ⟨s, hs⟩ := List.exists_mem_of_ne_nil _ h
    obtain ⟨hx, hy, hemp⟩ := Board.mem_available_spots.1 hs
    rw [Board.is_empty_eq] at hemp
    unfold Board.get at hemp
    have hidx : s.2 * 3 + s.1 < 9 := by omega
    rw [List.getD_eq_getElem _ _ (by omega)] at hemp
    exact List.any_eq_true.2 ⟨_, List.getElem_mem (by omega), hemp⟩

/-- A position in which the game goes on: no line for either role and at
least one empty tile. -/
def nonTerminalOK (b : Board) : Bool :=
  !(b.hasLine Role.O) && !(b.hasLine Role.X) && b.tiles.any Tile.isEmpty

/-- A finished position acceptable for `side`: the opposing role has no line,
and either `side` has a line or the board is full. -/
def terminalOK (side : Role) (b : Board) : Bool :=
  match side with
  | Role.X => !(b.hasLine Role.O) && (b.hasLine Role.X || !(b.tiles.any Tile.isEmpty))
  | Role.O => !(b.hasLine Role.X) && (b.hasLine Role.O || !(b.tiles.any Tile.isEmpty))

mutual
/-- A strategy certificate for one side: at the side's own turns a single
recommended move, at the opposing turns one subtree per available spot. -/
inductive GTree where
  | leaf : GTree
  | mine (x y : Nat) (t : GTree) : GTree
  | theirs (f : GForest) : GTree
inductive GForest where
  | nil : GForest
  | cons (x y : Nat) (t : GTree) (f : GForest) : GForest
end

/-- The spots covered by the branches of a certificate forest. -/
def forestSpots : GForest → List PlayingPosition
  | GForest.nil => []
  | GForest.cons x y _ f => (x, y) :: forestSpots f

mutual
/-- Validate a strategy certificate for `side` from board `b` with `p` to
move: leaves must be acceptable finished positions, `mine` nodes play one
legal move of `side`, `theirs` nodes cover exactly the available spots. -/
def checkT (side : Role) : Board → Role → GTree → Bool
  | b, _, GTree.leaf => terminalOK side b
  | b, p, GTree.mine x y t =>
      (p == side) && nonTerminalOK b &&
      (decide (x < 3) && decide (y < 3) && b.is_empty x y) &&
      checkT side (b.set x y p).1 p.other t
  | b, p, GTree.theirs f =>
      (p == side.other) && nonTerminalOK b &&
      (forestSpots f == b.get_available_spots) &&
      checkF side b p f
def checkF (side : Role) : Board → Role → GForest → Bool
  | _, _, GForest.nil => true
  | b, p, GForest.cons x y t f =>
      (decide (x < 3) && decide (y < 3)) &&
      checkT side (b.set x y p).1 p.other t && checkF side b p f
end

/-- The guarantee a certificate for `side` establishes about a `minimax`
score. -/
def Good (side : Role) (v : Int) : Prop :=
  match side with
  | Role.X => 0 ≤ v
  | Role.O => v ≤ 0

mutual
theorem checkT_sound (side : Role) :
    ∀ (t : GTree) (b : Board) (p : Role), Reachable b → checkT side b p t = true →
      Good side (minimax b p).score
  | GTree.leaf, b, p, hreach, hchk => by
    have hm := (reachable_invariant hreach).1
    have hlen := Board.magicOk_length hm
    cases side with
    | X =>
      simp only [checkT, terminalOK, Bool.and_eq_true, Bool.not_eq_true'] at hchk
      obtain ⟨hnoO, hor⟩ := hchk
      have hO' : (b.compute_result Role.O).isWinFor Role.O = false :=
        bool_eq_false (fun habs =>
          not_exists_of_hasLine_false hnoO ((isWinFor_iff hm).1 habs))
      cases hlineX : b.hasLine Role.X with
      | true =>
        have hwX : (b.compute_result Role.X).isWinFor Role.X = true :=
          (isWinFor_iff hm).2 (Board.hasLine_iff.1 hlineX)
        show (0 : Int) ≤ (minimax b p).score
        rw [minimax_winX hO' hwX, Move.with_score_score]
        omega
      | false =>
        rw [Bool.or_eq_true, hlineX] at hor
        have hanyf : b.tiles.any Tile.isEmpty = false := by
          rcases hor with h | h
          · exact Bool.noConfusion h
          · simpa using h
        have hsp : b.get_available_spots = [] := by
          by_contra hne
          have := (any_isEmpty_iff hlen).2 hne
          rw [hanyf] at this
          exact Bool.noConfusion this
        have hX' : (b.compute_result Role.X).isWinFor Role.X = false :=
          bool_eq_false (fun habs =>
            not_exists_of_hasLine_false hlineX ((isWinFor_iff hm).1 habs))
        show (0 : Int) ≤ (minimax b p).score
        rw [minimax_full hO' hX' hsp, Move.with_score_score]
    | O =>
      simp only [checkT, terminalOK, Bool.and_eq_true, Bool.not_eq_true'] at hchk
      obtain ⟨hnoX, hor⟩ := hchk
      have hX' : (b.compute_result Role.X).isWinFor Role.X = false :=
        bool_eq_false (fun habs =>
          not_exists_of_hasLine_false hnoX ((isWinFor_iff hm).1 habs))
      cases hlineO : b.hasLine Role.O with
      | true =>
        have hwO : (b.compute_result Role.O).isWinFor Role.O = true :=
          (isWinFor_iff hm).2 (Board.hasLine_iff.1 hlineO)
        show (minimax b p).score ≤ 0
        rw [minimax_winO hwO, Move.with_score_score]
        omega
      | false =>
        rw [Bool.or_eq_true, hlineO] at hor
        have hanyf : b.tiles.any Tile.isEmpty = false := by
          rcases hor with h | h
          · exact Bool.noConfusion h
          · simpa using h
        have hsp : b.get_available_spots = [] := by
          by_contra hne
          have := (any_isEmpty_iff hlen).2 hne
          rw [hanyf] at this
          exact Bool.noConfusion this
        have hO' : (b.compute_result Role.O).isWinFor Role.O = false :=
          bool_eq_false (fun habs =>
            not_exists_of_hasLine_false hlineO ((isWinFor_iff hm).1 habs))
        show (minimax b p).score ≤ 0
        rw [minimax_full hO' hX' hsp, Move.with_score_score]
  | GTree.mine x y t, b, p, hreach, hchk => by
    have hm := (reachable_invariant hreach).1
    have hlen := Board.magicOk_length hm
    simp only [checkT, Bool.and_eq_true, decide_eq_true_eq, beq_iff_eq] at hchk
    obtain ⟨⟨⟨hp, hnt⟩, ⟨hx3, hy3⟩, hemp⟩, hrec⟩ := hchk
    obtain ⟨⟨hnoO, hnoX⟩, hany⟩ : (b.hasLine Role.O = false ∧ b.hasLine Role.X = false) ∧
        b.tiles.any Tile.isEmpty = true := by
      simp only [nonTerminalOK, Bool.and_eq_true, Bool.not_eq_true'] at hnt
      exact hnt
    have hO' : (b.compute_result Role.O).isWinFor Role.O = false :=
      bool_eq_false (fun habs =>
        not_exists_of_hasLine_false hnoO ((isWinFor_iff hm).1 habs))
    have hX' : (b.compute_result Role.X).isWinFor Role.X = false :=
      bool_eq_false (fun habs =>
        not_exists_of_hasLine_false hnoX ((isWinFor_iff hm).1 habs))
    have hne := (any_isEmpty_iff hlen).1 hany
    have hsmem : ((x, y) : PlayingPosition) ∈ b.get_available_spots :=
      Board.mem_available_spots.2 ⟨hx3, hy3, hemp⟩
    have hreach' : Reachable (b.set x y p).1 := Reachable.set x y p hx3 hy3 hreach
    have hchild := checkT_sound side t (b.set x y p).1 p.other hreach' hrec
    have hvs := (value_relations (p := p) hlen hO' hX' hne).2.2 (x, y) hsmem
    have hs_eq : spotScore b p (x, y) = (minimax ((b.set x y p).1) p.other).score :=
      spotScore_eq b p (x, y)
    subst hp
    cases p with
    | X =>
      have h1 := hvs.1 rfl
      show (0 : Int) ≤ (minimax b Role.X).score
      rw [hs_eq] at h1
      have h2 : (0 : Int) ≤ (minimax ((b.set x y Role.X).1) Role.X.other).score := hchild
      omega
    | O =>
      have h1 := hvs.2 rfl
      show (minimax b Role.O).score ≤ 0
      rw [hs_eq] at h1
      have h2 : (minimax ((b.set x y Role.O).1) Role.O.other).score ≤ 0 := hchild
      omega
  | GTree.theirs f, b, p, hreach, hchk => by
    have hm := (reachable_invariant hreach).1
    have hlen := Board.magicOk_length hm
    simp only [checkT, Bool.and_eq_true, beq_iff_eq] at hchk
    obtain ⟨⟨⟨hp, hnt⟩, hcov⟩, hF⟩ := hchk
    obtain ⟨⟨hnoO, hnoX⟩, hany⟩ : (b.hasLine Role.O = false ∧ b.hasLine Role.X = false) ∧
        b.tiles.any Tile.isEmpty = true := by
      simp only [nonTerminalOK, Bool.and_eq_true, Bool.not_eq_true'] at hnt
      exact hnt
    have hO' : (b.compute_result Role.O).isWinFor Role.O = false :=
      bool_eq_false (fun habs =>
        not_exists_of_hasLine_false hnoO ((isWinFor_iff hm).1 habs))
    have hX' : (b.compute_result Role.X).isWinFor Role.X = false :=
      bool_eq_false (fun habs =>
        not_exists_of_hasLine_false hnoX ((isWinFor_iff hm).1 habs))
    have hne := (any_isEmpty_iff hlen).1 hany
    have hrel := value_relations (p := p) hlen hO' hX' hne
    have hposmem : (minimax b p).pos ∈ forestSpots f := by
      rw [hcov]
      exact hrel.1
    have hmem2 : ((minimax b p).pos.1, (minimax b p).pos.2) ∈ forestSpots f := by
      rw [Prod.mk.eta]
      exact hposmem
    have hchild := checkF_sound side f b p hreach hF (minimax b p).pos.1
      (minimax b p).pos.2 hmem2
    have hval : spotScore b p (minimax b p).pos = (minimax b p).score := hrel.2.1
    have hs_eq : spotScore b p ((minimax b p).pos.1, (minimax b p).pos.2) =
        (minimax ((b.set (minimax b p).pos.1 (minimax b p).pos.2 p).1) p.other).score :=
      spotScore_eq b p ((minimax b p).pos.1, (minimax b p).pos.2)
    rw [Prod.mk.eta] at hs_eq
    cases side with
    | X =>
      show (0 : Int) ≤ (minimax b p).score
      have h2 : (0 : Int) ≤ _ := hchild
      rw [← hs_eq, hval] at h2
      exact h2
    | O =>
      show (minimax b p).score ≤ 0
      have h2 : _ ≤ (0 : Int) := hchild
      rw [← hs_eq, hval] at h2
      exact h2
theorem checkF_sound (side : Role) :
    ∀ (f : GForest) (b : Board) (p : Role), Reachable b → checkF side b p f = true →
      ∀ x y, ((x, y) : PlayingPosition) ∈ forestSpots f →
        Good side (minimax ((b.set x y p).1) p.other).score
  | GForest.nil, b, p, _, _ => by
    intro x y hmem
    simp [forestSpots] at hmem
  | GForest.cons x0 y0 t f, b, p, hreach, hchk => by
    intro x y hmem
    simp only [checkF, Bool.and_eq_true, decide_eq_true_eq] at hchk
    obtain ⟨⟨⟨hx3, hy3⟩, hT⟩, hF⟩ := hchk
    simp only [forestSpots, List.mem_cons] at hmem
    rcases hmem with heq | hmem
    · obtain ⟨h1, h2⟩ := Prod.mk.injEq .. ▸ heq
      subst h1
      subst h2
      exact checkT_sound side t (b.set x y p).1 p.other
        (Reachable.set x y p hx3 hy3 hreach) hT
    · exact checkF_sound side f b p hreach hF x y hmem
end

/-- Shorthand builders for the certificate literals below. -/
def Tl : GTree := GTree.leaf

def Tm : Nat → Nat → GTree → GTree := GTree.mine

def Tt : GForest → GTree := GTree.theirs

def Fn : GForest := GForest.nil

def Fc : Nat → Nat → GTree → GForest → GForest := GForest.cons

/-- Certificate: with X to move on the empty board, following `minimax` guarantees X at least a draw (`minimax` score of the empty board with X to move is at least 0). -/
def certA : GTree :=
  (Tm 0 0 (Tt (Fc 0 1 (Tm 1 0 (Tt (Fc 0 2 (Tm 1 1 (Tt (Fc 1 2 (Tm 2 0 Tl) (Fc 2 0 (Tm 1 2 Tl) (Fc 2 1 (Tm 1 2 Tl) (Fc 2 2 (Tm 1 2 Tl) Fn)))))) (Fc 1 1 (Tm 2 0 Tl) (Fc 1 2 (Tm 1 1 (Tt (Fc 0 2 (Tm 2 0 Tl) (Fc 2 0 (Tm 2 2 Tl) (Fc 2 1 (Tm 0 2 (Tt (Fc 2 0 (Tm 2 2 Tl) (Fc 2 2 (Tm 2 0 Tl) Fn)))) (Fc 2 2 (Tm 2 0 Tl) Fn)))))) (Fc 2 0 (Tm 1 1 (Tt (Fc 0 2 (Tm 1 2 Tl) (Fc 1 2 (Tm 2 2 Tl) (Fc 2 1 (Tm 1 2 Tl) (Fc 2 2 (Tm 1 2 Tl) Fn)))))) (Fc 2 1 (Tm 1 1 (Tt (Fc 0 2 (Tm 1 2 Tl) (Fc 1 2 (Tm 0 2 (Tt (Fc 2 0 (Tm 2 2 Tl) (Fc 2 2 (Tm 2 0 Tl) Fn)))) (Fc 2 0 (Tm 1 2 Tl) (Fc 2 2 (Tm 1 2 Tl) Fn)))))) (Fc 2 2 (Tm 1 1 (Tt (Fc 0 2 (Tm 1 2 Tl) (Fc 1 2 (Tm 2 0 Tl) (Fc 2 0 (Tm 1 2 Tl) (Fc 2 1 (Tm 1 2 Tl) Fn)))))) Fn)))))))) (Fc 0 2 (Tm 1 0 (Tt (Fc 0 1 (Tm 1 1 (Tt (Fc 1 2 (Tm 2 0 Tl) (Fc 2 0 (Tm 1 2 Tl) (Fc 2 1 (Tm 1 2 Tl) (Fc 2 2 (Tm 1 2 Tl) Fn)))))) (Fc 1 1 (Tm 2 0 Tl) (Fc 1 2 (Tm 2 0 Tl) (Fc 2 0 (Tm 1 1 (Tt (Fc 0 1 (Tm 1 2 Tl) (Fc 1 2 (Tm 2 2 Tl) (Fc 2 1 (Tm 1 2 Tl) (Fc 2 2 (Tm 1 2 Tl) Fn)))))) (Fc 2 1 (Tm 1 1 (Tt (Fc 0 1 (Tm 1 2 Tl) (Fc 1 2 (Tm 2 0 Tl) (Fc 2 0 (Tm 1 2 Tl) (Fc 2 2 (Tm 1 2 Tl) Fn)))))) (Fc 2 2 (Tm 1 2 (Tt (Fc 0 1 (Tm 1 1 Tl) (Fc 1 1 (Tm 2 0 Tl) (Fc 2 0 (Tm 1 1 Tl) (Fc 2 1 (Tm 1 1 Tl) Fn)))))) Fn)))))))) (Fc 1 0 (Tm 0 1 (Tt (Fc 0 2 (Tm 1 1 (Tt (Fc 1 2 (Tm 2 1 Tl) (Fc 2 0 (Tm 1 2 (Tt (Fc 2 1 (Tm 2 2 Tl) (Fc 2 2 (Tm 2 1 Tl) Fn)))) (Fc 2 1 (Tm 2 2 Tl) (Fc 2 2 (Tm 2 1 Tl) Fn)))))) (Fc 1 1 (Tm 0 2 Tl) (Fc 1 2 (Tm 0 2 Tl) (Fc 2 0 (Tm 0 2 Tl) (Fc 2 1 (Tm 0 2 Tl) (Fc 2 2 (Tm 0 2 Tl) Fn)))))))) (Fc 1 1 (Tm 0 1 (Tt (Fc 0 2 (Tm 2 0 (Tt (Fc 1 0 (Tm 1 2 (Tt (Fc 2 1 (Tm 2 2 Tl) (Fc 2 2 (Tm 2 1 Tl) Fn)))) (Fc 1 2 (Tm 1 0 Tl) (Fc 2 1 (Tm 1 0 Tl) (Fc 2 2 (Tm 1 0 Tl) Fn)))))) (Fc 1 0 (Tm 0 2 Tl) (Fc 1 2 (Tm 0 2 Tl) (Fc 2 0 (Tm 0 2 Tl) (Fc 2 1 (Tm 0 2 Tl) (Fc 2 2 (Tm 0 2 Tl) Fn)))))))) (Fc 1 2 (Tm 0 2 (Tt (Fc 0 1 (Tm 1 1 (Tt (Fc 1 0 (Tm 2 0 Tl) (Fc 2 0 (Tm 2 2 Tl) (Fc 2 1 (Tm 1 0 (Tt (Fc 2 0 (Tm 2 2 Tl) (Fc 2 2 (Tm 2 0 Tl) Fn)))) (Fc 2 2 (Tm 2 0 Tl) Fn)))))) (Fc 1 0 (Tm 0 1 Tl) (Fc 1 1 (Tm 0 1 Tl) (Fc 2 0 (Tm 0 1 Tl) (Fc 2 1 (Tm 0 1 Tl) (Fc 2 2 (Tm 0 1 Tl) Fn)))))))) (Fc 2 0 (Tm 0 1 (Tt (Fc 0 2 (Tm 1 1 (Tt (Fc 1 0 (Tm 1 2 (Tt (Fc 2 1 (Tm 2 2 Tl) (Fc 2 2 (Tm 2 1 Tl) Fn)))) (Fc 1 2 (Tm 2 1 Tl) (Fc 2 1 (Tm 2 2 Tl) (Fc 2 2 (Tm 2 1 Tl) Fn)))))) (Fc 1 0 (Tm 0 2 Tl) (Fc 1 1 (Tm 0 2 Tl) (Fc 1 2 (Tm 0 2 Tl) (Fc 2 1 (Tm 0 2 Tl) (Fc 2 2 (Tm 0 2 Tl) Fn)))))))) (Fc 2 1 (Tm 0 2 (Tt (Fc 0 1 (Tm 1 1 (Tt (Fc 1 0 (Tm 1 2 (Tt (Fc 2 0 (Tm 2 2 Tl) (Fc 2 2 (Tm 2 0 Tl) Fn)))) (Fc 1 2 (Tm 1 0 (Tt (Fc 2 0 (Tm 2 2 Tl) (Fc 2 2 (Tm 2 0 Tl) Fn)))) (Fc 2 0 (Tm 2 2 Tl) (Fc 2 2 (Tm 2 0 Tl) Fn)))))) (Fc 1 0 (Tm 0 1 Tl) (Fc 1 1 (Tm 0 1 Tl) (Fc 1 2 (Tm 0 1 Tl) (Fc 2 0 (Tm 0 1 Tl) (Fc 2 2 (Tm 0 1 Tl) Fn)))))))) (Fc 2 2 (Tm 0 2 (Tt (Fc 0 1 (Tm 2 0 (Tt (Fc 1 0 (Tm 1 1 Tl) (Fc 1 1 (Tm 1 0 Tl) (Fc 1 2 (Tm 1 0 Tl) (Fc 2 1 (Tm 1 0 Tl) Fn)))))) (Fc 1 0 (Tm 0 1 Tl) (Fc 1 1 (Tm 0 1 Tl) (Fc 1 2 (Tm 0 1 Tl) (Fc 2 0 (Tm 0 1 Tl) (Fc 2 1 (Tm 0 1 Tl) Fn)))))))) Fn))))))))))

def certB_0 : GTree :=
  (Tm 1 1 (Tt (Fc 0 1 (Tm 0 2 (Tt (Fc 1 0 (Tm 2 0 Tl) (Fc 1 2 (Tm 2 0 Tl) (Fc 2 0 (Tm 1 0 (Tt (Fc 1 2 (Tm 2 1 (Tt (Fc 2 2 Tl Fn))) (Fc 2 1 (Tm 1 2 Tl) (Fc 2 2 (Tm 1 2 Tl) Fn))))) (Fc 2 1 (Tm 1 0 (Tt (Fc 1 2 (Tm 2 0 Tl) (Fc 2 0 (Tm 1 2 Tl) (Fc 2 2 (Tm 1 2 Tl) Fn))))) (Fc 2 2 (Tm 1 0 (Tt (Fc 1 2 (Tm 2 0 Tl) (Fc 2 0 (Tm 1 2 Tl) (Fc 2 1 (Tm 1 2 Tl) Fn))))) Fn))))))) (Fc 0 2 (Tm 0 1 (Tt (Fc 1 0 (Tm 2 1 Tl) (Fc 1 2 (Tm 2 1 Tl) (Fc 2 0 (Tm 1 0 (Tt (Fc 1 2 (Tm 2 1 Tl) (Fc 2 1 (Tm 1 2 Tl) (Fc 2 2 (Tm 1 2 Tl) Fn))))) (Fc 2 1 (Tm 1 0 (Tt (Fc 1 2 (Tm 2 2 (Tt (Fc 2 0 Tl Fn))) (Fc 2 0 (Tm 1 2 Tl) (Fc 2 2 (Tm 1 2 Tl) Fn))))) (Fc 2 2 (Tm 1 2 (Tt (Fc 1 0 (Tm 2 1 Tl) (Fc 2 0 (Tm 1 0 Tl) (Fc 2 1 (Tm 1 0 Tl) Fn))))) Fn))))))) (Fc 1 0 (Tm 2 0 (Tt (Fc 0 1 (Tm 0 2 Tl) (Fc 0 2 (Tm 0 1 (Tt (Fc 1 2 (Tm 2 1 Tl) (Fc 2 1 (Tm 1 2 (Tt (Fc 2 2 Tl Fn))) (Fc 2 2 (Tm 2 1 Tl) Fn))))) (Fc 1 2 (Tm 0 1 (Tt (Fc 0 2 (Tm 2 1 Tl) (Fc 2 1 (Tm 0 2 Tl) (Fc 2 2 (Tm 0 2 Tl) Fn))))) (Fc 2 1 (Tm 0 2 Tl) (Fc 2 2 (Tm 0 1 (Tt (Fc 0 2 (Tm 2 1 Tl) (Fc 1 2 (Tm 0 2 Tl) (Fc 2 1 (Tm 0 2 Tl) Fn))))) Fn))))))) (Fc 1 2 (Tm 0 1 (Tt (Fc 0 2 (Tm 2 1 Tl) (Fc 1 0 (Tm 2 0 (Tt (Fc 0 2 (Tm 2 1 Tl) (Fc 2 1 (Tm 0 2 Tl) (Fc 2 2 (Tm 0 2 Tl) Fn))))) (Fc 2 0 (Tm 2 1 Tl) (Fc 2 1 (Tm 2 0 (Tt (Fc 0 2 (Tm 2 2 (Tt (Fc 1 0 Tl Fn))) (Fc 1 0 (Tm 0 2 Tl) (Fc 2 2 (Tm 0 2 Tl) Fn))))) (Fc 2 2 (Tm 0 2 (Tt (Fc 1 0 (Tm 2 0 Tl) (Fc 2 0 (Tm 2 1 Tl) (Fc 2 1 (Tm 2 0 Tl) Fn))))) Fn))))))) (Fc 2 0 (Tm 1 0 (Tt (Fc 0 1 (Tm 1 2 Tl) (Fc 0 2 (Tm 0 1 (Tt (Fc 1 2 (Tm 2 1 Tl) (Fc 2 1 (Tm 1 2 Tl) (Fc 2 2 (Tm 1 2 Tl) Fn))))) (Fc 1 2 (Tm 0 1 (Tt (Fc 0 2 (Tm 2 1 Tl) (Fc 2 1 (Tm 2 2 (Tt (Fc 0 2 Tl Fn))) (Fc 2 2 (Tm 2 1 Tl) Fn))))) (Fc 2 1 (Tm 1 2 Tl) (Fc 2 2 (Tm 1 2 Tl) Fn))))))) (Fc 2 1 (Tm 1 0 (Tt (Fc 0 1 (Tm 0 2 (Tt (Fc 1 2 (Tm 2 0 Tl) (Fc 2 0 (Tm 1 2 Tl) (Fc 2 2 (Tm 1 2 Tl) Fn))))) (Fc 0 2 (Tm 1 2 Tl) (Fc 1 2 (Tm 0 2 (Tt (Fc 0 1 (Tm 2 0 Tl) (Fc 2 0 (Tm 2 2 (Tt (Fc 0 1 Tl Fn))) (Fc 2 2 (Tm 2 0 Tl) Fn))))) (Fc 2 0 (Tm 1 2 Tl) (Fc 2 2 (Tm 1 2 Tl) Fn))))))) (Fc 2 2 (Tm 0 1 (Tt (Fc 0 2 (Tm 1 2 (Tt (Fc 1 0 (Tm 2 1 Tl) (Fc 2 0 (Tm 1 0 Tl) (Fc 2 1 (Tm 1 0 Tl) Fn))))) (Fc 1 0 (Tm 2 0 (Tt (Fc 0 2 (Tm 2 1 Tl) (Fc 1 2 (Tm 0 2 Tl) (Fc 2 1 (Tm 0 2 Tl) Fn))))) (Fc 1 2 (Tm 0 2 (Tt (Fc 1 0 (Tm 2 0 Tl) (Fc 2 0 (Tm 2 1 Tl) (Fc 2 1 (Tm 2 0 Tl) Fn))))) (Fc 2 0 (Tm 2 1 Tl) (Fc 2 1 (Tm 2 0 (Tt (Fc 0 2 (Tm 1 2 (Tt (Fc 1 0 Tl Fn))) (Fc 1 0 (Tm 0 2 Tl) (Fc 1 2 (Tm 0 2 Tl) Fn))))) Fn))))))) Fn)))))))))

def certB_1 : GTree :=
  (Tm 0 0 (Tt (Fc 0 2 (Tm 1 0 (Tt (Fc 1 1 (Tm 2 0 Tl) (Fc 1 2 (Tm 2 0 Tl) (Fc 2 0 (Tm 1 1 (Tt (Fc 1 2 (Tm 2 2 Tl) (Fc 2 1 (Tm 1 2 Tl) (Fc 2 2 (Tm 1 2 Tl) Fn))))) (Fc 2 1 (Tm 1 1 (Tt (Fc 1 2 (Tm 2 0 Tl) (Fc 2 0 (Tm 1 2 Tl) (Fc 2 2 (Tm 1 2 Tl) Fn))))) (Fc 2 2 (Tm 1 2 (Tt (Fc 1 1 (Tm 2 0 Tl) (Fc 2 0 (Tm 1 1 Tl) (Fc 2 1 (Tm 1 1 Tl) Fn))))) Fn))))))) (Fc 1 0 (Tm 1 1 (Tt (Fc 0 2 (Tm 2 2 Tl) (Fc 1 2 (Tm 0 2 (Tt (Fc 2 0 (Tm 2 2 Tl) (Fc 2 1 (Tm 2 0 Tl) (Fc 2 2 (Tm 2 0 Tl) Fn))))) (Fc 2 0 (Tm 2 2 Tl) (Fc 2 1 (Tm 0 2 (Tt (Fc 1 2 (Tm 2 0 Tl) (Fc 2 0 (Tm 2 2 Tl) (Fc 2 2 (Tm 2 0 Tl) Fn))))) (Fc 2 2 (Tm 0 2 (Tt (Fc 1 2 (Tm 2 0 Tl) (Fc 2 0 (Tm 2 1 (Tt (Fc 1 2 Tl Fn))) (Fc 2 1 (Tm 2 0 Tl) Fn))))) Fn))))))) (Fc 1 1 (Tm 2 1 (Tt (Fc 0 2 (Tm 2 0 (Tt (Fc 1 0 (Tm 2 2 Tl) (Fc 1 2 (Tm 1 0 Tl) (Fc 2 2 (Tm 1 0 Tl) Fn))))) (Fc 1 0 (Tm 1 2 (Tt (Fc 0 2 (Tm 2 0 (Tt (Fc 2 2 Tl Fn))) (Fc 2 0 (Tm 0 2 (Tt (Fc 2 2 Tl Fn))) (Fc 2 2 (Tm 0 2 (Tt (Fc 2 0 Tl Fn))) Fn))))) (Fc 1 2 (Tm 1 0 (Tt (Fc 0 2 (Tm 2 0 Tl) (Fc 2 0 (Tm 0 2 (Tt (Fc 2 2 Tl Fn))) (Fc 2 2 (Tm 2 0 Tl) Fn))))) (Fc 2 0 (Tm 0 2 (Tt (Fc 1 0 (Tm 1 2 (Tt (Fc 2 2 Tl Fn))) (Fc 1 2 (Tm 1 0 (Tt (Fc 2 2 Tl Fn))) (Fc 2 2 (Tm 1 0 (Tt (Fc 1 2 Tl Fn))) Fn))))) (Fc 2 2 (Tm 0 2 (Tt (Fc 1 0 (Tm 1 2 (Tt (Fc 2 0 Tl Fn))) (Fc 1 2 (Tm 1 0 (Tt (Fc 2 0 Tl Fn))) (Fc 2 0 (Tm 1 0 (Tt (Fc 1 2 Tl Fn))) Fn))))) Fn))))))) (Fc 1 2 (Tm 2 0 (Tt (Fc 0 2 (Tm 1 0 Tl) (Fc 1 0 (Tm 1 1 (Tt (Fc 0 2 (Tm 2 2 Tl) (Fc 2 1 (Tm 0 2 Tl) (Fc 2 2 (Tm 0 2 Tl) Fn))))) (Fc 1 1 (Tm 1 0 Tl) (Fc 2 1 (Tm 1 0 Tl) (Fc 2 2 (Tm 0 2 (Tt (Fc 1 0 (Tm 1 1 Tl) (Fc 1 1 (Tm 1 0 Tl) (Fc 2 1 (Tm 1 0 Tl) Fn))))) Fn))))))) (Fc 2 0 (Tm 1 1 (Tt (Fc 0 2 (Tm 1 0 (Tt (Fc 1 2 (Tm 2 2 Tl) (Fc 2 1 (Tm 1 2 Tl) (Fc 2 2 (Tm 1 2 Tl) Fn))))) (Fc 1 0 (Tm 2 2 Tl) (Fc 1 2 (Tm 2 2 Tl) (Fc 2 1 (Tm 2 2 Tl) (Fc 2 2 (Tm 2 1 (Tt (Fc 0 2 (Tm 1 2 (Tt (Fc 1 0 Tl Fn))) (Fc 1 0 (Tm 0 2 (Tt (Fc 1 2 Tl Fn))) (Fc 1 2 (Tm 0 2 (Tt (Fc 1 0 Tl Fn))) Fn))))) Fn))))))) (Fc 2 1 (Tm 1 1 (Tt (Fc 0 2 (Tm 1 0 (Tt (Fc 1 2 (Tm 2 0 Tl) (Fc 2 0 (Tm 1 2 Tl) (Fc 2 2 (Tm 1 2 Tl) Fn))))) (Fc 1 0 (Tm 0 2 (Tt (Fc 1 2 (Tm 2 0 Tl) (Fc 2 0 (Tm 2 2 Tl) (Fc 2 2 (Tm 2 0 Tl) Fn))))) (Fc 1 2 (Tm 0 2 (Tt (Fc 1 0 (Tm 2 0 Tl) (Fc 2 0 (Tm 2 2 Tl) (Fc 2 2 (Tm 2 0 Tl) Fn))))) (Fc 2 0 (Tm 2 2 Tl) (Fc 2 2 (Tm 2 0 (Tt (Fc 0 2 (Tm 1 0 Tl) (Fc 1 0 (Tm 0 2 Tl) (Fc 1 2 (Tm 0 2 Tl) Fn))))) Fn))))))) (Fc 2 2 (Tm 1 1 (Tt (Fc 0 2 (Tm 1 2 (Tt (Fc 1 0 (Tm 2 0 (Tt (Fc 2 1 Tl Fn))) (Fc 2 0 (Tm 1 0 Tl) (Fc 2 1 (Tm 1 0 Tl) Fn))))) (Fc 1 0 (Tm 0 2 (Tt (Fc 1 2 (Tm 2 0 Tl) (Fc 2 0 (Tm 2 1 (Tt (Fc 1 2 Tl Fn))) (Fc 2 1 (Tm 2 0 Tl) Fn))))) (Fc 1 2 (Tm 0 2 (Tt (Fc 1 0 (Tm 2 0 Tl) (Fc 2 0 (Tm 2 1 (Tt (Fc 1 0 Tl Fn))) (Fc 2 1 (Tm 2 0 Tl) Fn))))) (Fc 2 0 (Tm 2 1 (Tt (Fc 0 2 (Tm 1 2 (Tt (Fc 1 0 Tl Fn))) (Fc 1 0 (Tm 0 2 (Tt (Fc 1 2 Tl Fn))) (Fc 1 2 (Tm 0 2 (Tt (Fc 1 0 Tl Fn))) Fn))))) (Fc 2 1 (Tm 2 0 (Tt (Fc 0 2 (Tm 1 0 Tl) (Fc 1 0 (Tm 0 2 Tl) (Fc 1 2 (Tm 0 2 Tl) Fn))))) Fn))))))) Fn)))))))))

def certB_2 : GTree :=
  (Tm 1 1 (Tt (Fc 0 0 (Tm 0 1 (Tt (Fc 1 0 (Tm 2 1 Tl) (Fc 1 2 (Tm 2 1 Tl) (Fc 2 0 (Tm 1 0 (Tt (Fc 1 2 (Tm 2 1 Tl) (Fc 2 1 (Tm 1 2 Tl) (Fc 2 2 (Tm 1 2 Tl) Fn))))) (Fc 2 1 (Tm 1 0 (Tt (Fc 1 2 (Tm 2 2 (Tt (Fc 2 0 Tl Fn))) (Fc 2 0 (Tm 1 2 Tl) (Fc 2 2 (Tm 1 2 Tl) Fn))))) (Fc 2 2 (Tm 1 2 (Tt (Fc 1 0 (Tm 2 1 Tl) (Fc 2 0 (Tm 1 0 Tl) (Fc 2 1 (Tm 1 0 Tl) Fn))))) Fn))))))) (Fc 0 1 (Tm 0 0 (Tt (Fc 1 0 (Tm 2 2 Tl) (Fc 1 2 (Tm 2 2 Tl) (Fc 2 0 (Tm 1 0 (Tt (Fc 1 2 (Tm 2 2 Tl) (Fc 2 1 (Tm 1 2 Tl) (Fc 2 2 (Tm 1 2 Tl) Fn))))) (Fc 2 1 (Tm 1 0 (Tt (Fc 1 2 (Tm 2 0 Tl) (Fc 2 0 (Tm 1 2 Tl) (Fc 2 2 (Tm 1 2 Tl) Fn))))) (Fc 2 2 (Tm 1 2 (Tt (Fc 1 0 (Tm 2 0 (Tt (Fc 2 1 Tl Fn))) (Fc 2 0 (Tm 1 0 Tl) (Fc 2 1 (Tm 1 0 Tl) Fn))))) Fn))))))) (Fc 1 0 (Tm 0 0 (Tt (Fc 0 1 (Tm 2 2 Tl) (Fc 1 2 (Tm 2 2 Tl) (Fc 2 0 (Tm 0 1 (Tt (Fc 1 2 (Tm 2 1 Tl) (Fc 2 1 (Tm 2 2 Tl) (Fc 2 2 (Tm 2 1 Tl) Fn))))) (Fc 2 1 (Tm 2 2 Tl) (Fc 2 2 (Tm 1 2 (Tt (Fc 0 1 (Tm 2 0 (Tt (Fc 2 1 Tl Fn))) (Fc 2 0 (Tm 2 1 (Tt (Fc 0 1 Tl Fn))) (Fc 2 1 (Tm 2 0 (Tt (Fc 0 1 Tl Fn))) Fn))))) Fn))))))) (Fc 1 2 (Tm 2 2 (Tt (Fc 0 0 (Tm 0 1 (Tt (Fc 1 0 (Tm 2 1 Tl) (Fc 2 0 (Tm 2 1 Tl) (Fc 2 1 (Tm 1 0 (Tt (Fc 2 0 Tl Fn))) Fn))))) (Fc 0 1 (Tm 0 0 Tl) (Fc 1 0 (Tm 0 0 Tl) (Fc 2 0 (Tm 0 0 Tl) (Fc 2 1 (Tm 0 0 Tl) Fn))))))) (Fc 2 0 (Tm 0 1 (Tt (Fc 0 0 (Tm 1 0 (Tt (Fc 1 2 (Tm 2 1 Tl) (Fc 2 1 (Tm 1 2 Tl) (Fc 2 2 (Tm 1 2 Tl) Fn))))) (Fc 1 0 (Tm 0 0 (Tt (Fc 1 2 (Tm 2 1 Tl) (Fc 2 1 (Tm 2 2 Tl) (Fc 2 2 (Tm 2 1 Tl) Fn))))) (Fc 1 2 (Tm 2 1 Tl) (Fc 2 1 (Tm 2 2 (Tt (Fc 0 0 (Tm 1 0 (Tt (Fc 1 2 Tl Fn))) (Fc 1 0 (Tm 0 0 Tl) (Fc 1 2 (Tm 0 0 Tl) Fn))))) (Fc 2 2 (Tm 2 1 Tl) Fn))))))) (Fc 2 1 (Tm 1 0 (Tt (Fc 0 0 (Tm 1 2 Tl) (Fc 0 1 (Tm 0 0 (Tt (Fc 1 2 (Tm 2 0 Tl) (Fc 2 0 (Tm 1 2 Tl) (Fc 2 2 (Tm 1 2 Tl) Fn))))) (Fc 1 2 (Tm 2 2 (Tt (Fc 0 0 (Tm 0 1 (Tt (Fc 2 0 Tl Fn))) (Fc 0 1 (Tm 0 0 Tl) (Fc 2 0 (Tm 0 0 Tl) Fn))))) (Fc 2 0 (Tm 1 2 Tl) (Fc 2 2 (Tm 1 2 Tl) Fn))))))) (Fc 2 2 (Tm 1 2 (Tt (Fc 0 0 (Tm 0 1 (Tt (Fc 1 0 (Tm 2 1 Tl) (Fc 2 0 (Tm 1 0 Tl) (Fc 2 1 (Tm 1 0 Tl) Fn))))) (Fc 0 1 (Tm 1 0 Tl) (Fc 1 0 (Tm 0 0 (Tt (Fc 0 1 (Tm 2 0 (Tt (Fc 2 1 Tl Fn))) (Fc 2 0 (Tm 2 1 (Tt (Fc 0 1 Tl Fn))) (Fc 2 1 (Tm 2 0 (Tt (Fc 0 1 Tl Fn))) Fn))))) (Fc 2 0 (Tm 1 0 Tl) (Fc 2 1 (Tm 1 0 Tl) Fn))))))) Fn)))))))))

def certB_3 : GTree :=
  (Tm 0 0 (Tt (Fc 0 1 (Tm 1 1 (Tt (Fc 0 2 (Tm 2 2 Tl) (Fc 1 2 (Tm 0 2 (Tt (Fc 2 0 (Tm 2 2 Tl) (Fc 2 1 (Tm 2 0 Tl) (Fc 2 2 (Tm 2 0 Tl) Fn))))) (Fc 2 0 (Tm 2 2 Tl) (Fc 2 1 (Tm 0 2 (Tt (Fc 1 2 (Tm 2 0 Tl) (Fc 2 0 (Tm 2 2 Tl) (Fc 2 2 (Tm 2 0 Tl) Fn))))) (Fc 2 2 (Tm 0 2 (Tt (Fc 1 2 (Tm 2 0 Tl) (Fc 2 0 (Tm 2 1 (Tt (Fc 1 2 Tl Fn))) (Fc 2 1 (Tm 2 0 Tl) Fn))))) Fn))))))) (Fc 0 2 (Tm 1 1 (Tt (Fc 0 1 (Tm 2 2 Tl) (Fc 1 2 (Tm 2 2 Tl) (Fc 2 0 (Tm 0 1 (Tt (Fc 1 2 (Tm 2 1 Tl) (Fc 2 1 (Tm 2 2 Tl) (Fc 2 2 (Tm 2 1 Tl) Fn))))) (Fc 2 1 (Tm 2 2 Tl) (Fc 2 2 (Tm 1 2 (Tt (Fc 0 1 (Tm 2 0 (Tt (Fc 2 1 Tl Fn))) (Fc 2 0 (Tm 2 1 (Tt (Fc 0 1 Tl Fn))) (Fc 2 1 (Tm 2 0 (Tt (Fc 0 1 Tl Fn))) Fn))))) Fn))))))) (Fc 1 1 (Tm 1 2 (Tt (Fc 0 1 (Tm 2 1 (Tt (Fc 0 2 (Tm 2 0 (Tt (Fc 2 2 Tl Fn))) (Fc 2 0 (Tm 0 2 (Tt (Fc 2 2 Tl Fn))) (Fc 2 2 (Tm 0 2 (Tt (Fc 2 0 Tl Fn))) Fn))))) (Fc 0 2 (Tm 2 0 (Tt (Fc 0 1 (Tm 2 1 (Tt (Fc 2 2 Tl Fn))) (Fc 2 1 (Tm 0 1 (Tt (Fc 2 2 Tl Fn))) (Fc 2 2 (Tm 0 1 (Tt (Fc 2 1 Tl Fn))) Fn))))) (Fc 2 0 (Tm 0 2 (Tt (Fc 0 1 (Tm 2 2 Tl) (Fc 2 1 (Tm 0 1 Tl) (Fc 2 2 (Tm 0 1 Tl) Fn))))) (Fc 2 1 (Tm 0 1 (Tt (Fc 0 2 (Tm 2 0 (Tt (Fc 2 2 Tl Fn))) (Fc 2 0 (Tm 0 2 Tl) (Fc 2 2 (Tm 0 2 Tl) Fn))))) (Fc 2 2 (Tm 0 1 (Tt (Fc 0 2 (Tm 2 0 (Tt (Fc 2 1 Tl Fn))) (Fc 2 0 (Tm 0 2 Tl) (Fc 2 1 (Tm 0 2 Tl) Fn))))) Fn))))))) (Fc 1 2 (Tm 1 1 (Tt (Fc 0 1 (Tm 0 2 (Tt (Fc 2 0 (Tm 2 2 Tl) (Fc 2 1 (Tm 2 0 Tl) (Fc 2 2 (Tm 2 0 Tl) Fn))))) (Fc 0 2 (Tm 2 2 Tl) (Fc 2 0 (Tm 0 1 (Tt (Fc 0 2 (Tm 2 1 Tl) (Fc 2 1 (Tm 0 2 Tl) (Fc 2 2 (Tm 0 2 Tl) Fn))))) (Fc 2 1 (Tm 0 1 (Tt (Fc 0 2 (Tm 2 2 Tl) (Fc 2 0 (Tm 0 2 Tl) (Fc 2 2 (Tm 0 2 Tl) Fn))))) (Fc 2 2 (Tm 0 2 (Tt (Fc 0 1 (Tm 2 0 Tl) (Fc 2 0 (Tm 0 1 Tl) (Fc 2 1 (Tm 0 1 Tl) Fn))))) Fn))))))) (Fc 2 0 (Tm 0 1 (Tt (Fc 0 2 (Tm 1 1 (Tt (Fc 1 2 (Tm 2 1 Tl) (Fc 2 1 (Tm 2 2 Tl) (Fc 2 2 (Tm 2 1 Tl) Fn))))) (Fc 1 1 (Tm 0 2 Tl) (Fc 1 2 (Tm 0 2 Tl) (Fc 2 1 (Tm 0 2 Tl) (Fc 2 2 (Tm 0 2 Tl) Fn))))))) (Fc 2 1 (Tm 0 2 (Tt (Fc 0 1 (Tm 1 1 (Tt (Fc 1 2 (Tm 2 0 Tl) (Fc 2 0 (Tm 2 2 Tl) (Fc 2 2 (Tm 2 0 Tl) Fn))))) (Fc 1 1 (Tm 0 1 Tl) (Fc 1 2 (Tm 0 1 Tl) (Fc 2 0 (Tm 0 1 Tl) (Fc 2 2 (Tm 0 1 Tl) Fn))))))) (Fc 2 2 (Tm 0 2 (Tt (Fc 0 1 (Tm 1 1 (Tt (Fc 1 2 (Tm 2 0 Tl) (Fc 2 0 (Tm 2 1 (Tt (Fc 1 2 Tl Fn))) (Fc 2 1 (Tm 2 0 Tl) Fn))))) (Fc 1 1 (Tm 0 1 Tl) (Fc 1 2 (Tm 0 1 Tl) (Fc 2 0 (Tm 0 1 Tl) (Fc 2 1 (Tm 0 1 Tl) Fn))))))) Fn)))))))))

def certB_4 : GTree :=
  (Tm 0 0 (Tt (Fc 0 1 (Tm 2 1 (Tt (Fc 0 2 (Tm 2 0 (Tt (Fc 1 0 (Tm 2 2 Tl) (Fc 1 2 (Tm 1 0 Tl) (Fc 2 2 (Tm 1 0 Tl) Fn))))) (Fc 1 0 (Tm 1 2 (Tt (Fc 0 2 (Tm 2 0 (Tt (Fc 2 2 Tl Fn))) (Fc 2 0 (Tm 0 2 (Tt (Fc 2 2 Tl Fn))) (Fc 2 2 (Tm 0 2 (Tt (Fc 2 0 Tl Fn))) Fn))))) (Fc 1 2 (Tm 1 0 (Tt (Fc 0 2 (Tm 2 0 Tl) (Fc 2 0 (Tm 0 2 (Tt (Fc 2 2 Tl Fn))) (Fc 2 2 (Tm 2 0 Tl) Fn))))) (Fc 2 0 (Tm 0 2 (Tt (Fc 1 0 (Tm 1 2 (Tt (Fc 2 2 Tl Fn))) (Fc 1 2 (Tm 1 0 (Tt (Fc 2 2 Tl Fn))) (Fc 2 2 (Tm 1 0 (Tt (Fc 1 2 Tl Fn))) Fn))))) (Fc 2 2 (Tm 0 2 (Tt (Fc 1 0 (Tm 1 2 (Tt (Fc 2 0 Tl Fn))) (Fc 1 2 (Tm 1 0 (Tt (Fc 2 0 Tl Fn))) (Fc 2 0 (Tm 1 0 (Tt (Fc 1 2 Tl Fn))) Fn))))) Fn))))))) (Fc 0 2 (Tm 2 0 (Tt (Fc 0 1 (Tm 1 0 Tl) (Fc 1 0 (Tm 1 2 (Tt (Fc 0 1 (Tm 2 1 (Tt (Fc 2 2 Tl Fn))) (Fc 2 1 (Tm 0 1 (Tt (Fc 2 2 Tl Fn))) (Fc 2 2 (Tm 0 1 (Tt (Fc 2 1 Tl Fn))) Fn))))) (Fc 1 2 (Tm 1 0 Tl) (Fc 2 1 (Tm 1 0 Tl) (Fc 2 2 (Tm 1 0 Tl) Fn))))))) (Fc 1 0 (Tm 1 2 (Tt (Fc 0 1 (Tm 2 1 (Tt (Fc 0 2 (Tm 2 0 (Tt (Fc 2 2 Tl Fn))) (Fc 2 0 (Tm 0 2 (Tt (Fc 2 2 Tl Fn))) (Fc 2 2 (Tm 0 2 (Tt (Fc 2 0 Tl Fn))) Fn))))) (Fc 0 2 (Tm 2 0 (Tt (Fc 0 1 (Tm 2 1 (Tt (Fc 2 2 Tl Fn))) (Fc 2 1 (Tm 0 1 (Tt (Fc 2 2 Tl Fn))) (Fc 2 2 (Tm 0 1 (Tt (Fc 2 1 Tl Fn))) Fn))))) (Fc 2 0 (Tm 0 2 (Tt (Fc 0 1 (Tm 2 2 Tl) (Fc 2 1 (Tm 0 1 Tl) (Fc 2 2 (Tm 0 1 Tl) Fn))))) (Fc 2 1 (Tm 0 1 (Tt (Fc 0 2 (Tm 2 0 (Tt (Fc 2 2 Tl Fn))) (Fc 2 0 (Tm 0 2 Tl) (Fc 2 2 (Tm 0 2 Tl) Fn))))) (Fc 2 2 (Tm 0 1 (Tt (Fc 0 2 (Tm 2 0 (Tt (Fc 2 1 Tl Fn))) (Fc 2 0 (Tm 0 2 Tl) (Fc 2 1 (Tm 0 2 Tl) Fn))))) Fn))))))) (Fc 1 2 (Tm 1 0 (Tt (Fc 0 1 (Tm 2 0 Tl) (Fc 0 2 (Tm 2 0 Tl) (Fc 2 0 (Tm 0 2 (Tt (Fc 0 1 (Tm 2 1 (Tt (Fc 2 2 Tl Fn))) (Fc 2 1 (Tm 0 1 Tl) (Fc 2 2 (Tm 0 1 Tl) Fn))))) (Fc 2 1 (Tm 0 1 (Tt (Fc 0 2 (Tm 2 0 Tl) (Fc 2 0 (Tm 0 2 Tl) (Fc 2 2 (Tm 0 2 Tl) Fn))))) (Fc 2 2 (Tm 0 2 (Tt (Fc 0 1 (Tm 2 0 Tl) (Fc 2 0 (Tm 0 1 Tl) (Fc 2 1 (Tm 0 1 Tl) Fn))))) Fn))))))) (Fc 2 0 (Tm 0 2 (Tt (Fc 0 1 (Tm 2 1 (Tt (Fc 1 0 (Tm 1 2 (Tt (Fc 2 2 Tl Fn))) (Fc 1 2 (Tm 1 0 (Tt (Fc 2 2 Tl Fn))) (Fc 2 2 (Tm 1 0 (Tt (Fc 1 2 Tl Fn))) Fn))))) (Fc 1 0 (Tm 0 1 Tl) (Fc 1 2 (Tm 0 1 Tl) (Fc 2 1 (Tm 0 1 Tl) (Fc 2 2 (Tm 0 1 Tl) Fn))))))) (Fc 2 1 (Tm 0 1 (Tt (Fc 0 2 (Tm 2 0 (Tt (Fc 1 0 (Tm 1 2 (Tt (Fc 2 2 Tl Fn))) (Fc 1 2 (Tm 1 0 Tl) (Fc 2 2 (Tm 1 0 Tl) Fn))))) (Fc 1 0 (Tm 0 2 Tl) (Fc 1 2 (Tm 0 2 Tl) (Fc 2 0 (Tm 0 2 Tl) (Fc 2 2 (Tm 0 2 Tl) Fn))))))) (Fc 2 2 (Tm 0 2 (Tt (Fc 0 1 (Tm 2 1 (Tt (Fc 1 0 (Tm 1 2 (Tt (Fc 2 0 Tl Fn))) (Fc 1 2 (Tm 1 0 (Tt (Fc 2 0 Tl Fn))) (Fc 2 0 (Tm 1 0 (Tt (Fc 1 2 Tl Fn))) Fn))))) (Fc 1 0 (Tm 0 1 Tl) (Fc 1 2 (Tm 0 1 Tl) (Fc 2 0 (Tm 0 1 Tl) (Fc 2 1 (Tm 0 1 Tl) Fn))))))) Fn)))))))))

def certB_5 : GTree :=
  (Tm 0 2 (Tt (Fc 0 0 (Tm 1 0 (Tt (Fc 0 1 (Tm 1 1 (Tt (Fc 2 0 (Tm 2 1 (Tt (Fc 2 2 Tl Fn))) (Fc 2 1 (Tm 2 0 Tl) (Fc 2 2 (Tm 2 0 Tl) Fn))))) (Fc 1 1 (Tm 2 2 (Tt (Fc 0 1 (Tm 2 1 (Tt (Fc 2 0 Tl Fn))) (Fc 2 0 (Tm 0 1 (Tt (Fc 2 1 Tl Fn))) (Fc 2 1 (Tm 0 1 (Tt (Fc 2 0 Tl Fn))) Fn))))) (Fc 2 0 (Tm 1 1 (Tt (Fc 0 1 (Tm 2 1 (Tt (Fc 2 2 Tl Fn))) (Fc 2 1 (Tm 2 2 (Tt (Fc 0 1 Tl Fn))) (Fc 2 2 (Tm 2 1 (Tt (Fc 0 1 Tl Fn))) Fn))))) (Fc 2 1 (Tm 1 1 (Tt (Fc 0 1 (Tm 2 0 Tl) (Fc 2 0 (Tm 2 2 (Tt (Fc 0 1 Tl Fn))) (Fc 2 2 (Tm 2 0 Tl) Fn))))) (Fc 2 2 (Tm 1 1 (Tt (Fc 0 1 (Tm 2 0 Tl) (Fc 2 0 (Tm 2 1 (Tt (Fc 0 1 Tl Fn))) (Fc 2 1 (Tm 2 0 Tl) Fn))))) Fn))))))) (Fc 0 1 (Tm 1 0 (Tt (Fc 0 0 (Tm 1 1 (Tt (Fc 2 0 (Tm 2 1 (Tt (Fc 2 2 Tl Fn))) (Fc 2 1 (Tm 2 0 Tl) (Fc 2 2 (Tm 2 0 Tl) Fn))))) (Fc 1 1 (Tm 2 1 (Tt (Fc 0 0 (Tm 2 2 (Tt (Fc 2 0 Tl Fn))) (Fc 2 0 (Tm 0 0 (Tt (Fc 2 2 Tl Fn))) (Fc 2 2 (Tm 0 0 (Tt (Fc 2 0 Tl Fn))) Fn))))) (Fc 2 0 (Tm 1 1 (Tt (Fc 0 0 (Tm 2 1 (Tt (Fc 2 2 Tl Fn))) (Fc 2 1 (Tm 2 2 (Tt (Fc 0 0 Tl Fn))) (Fc 2 2 (Tm 2 1 (Tt (Fc 0 0 Tl Fn))) Fn))))) (Fc 2 1 (Tm 1 1 (Tt (Fc 0 0 (Tm 2 0 Tl) (Fc 2 0 (Tm 2 2 (Tt (Fc 0 0 Tl Fn))) (Fc 2 2 (Tm 2 0 Tl) Fn))))) (Fc 2 2 (Tm 2 0 (Tt (Fc 0 0 (Tm 1 1 Tl) (Fc 1 1 (Tm 0 0 Tl) (Fc 2 1 (Tm 0 0 Tl) Fn))))) Fn))))))) (Fc 1 0 (Tm 1 1 (Tt (Fc 0 0 (Tm 2 0 Tl) (Fc 0 1 (Tm 0 0 (Tt (Fc 2 0 (Tm 2 2 Tl) (Fc 2 1 (Tm 2 0 Tl) (Fc 2 2 (Tm 2 0 Tl) Fn))))) (Fc 2 0 (Tm 0 0 (Tt (Fc 0 1 (Tm 2 2 Tl) (Fc 2 1 (Tm 0 1 Tl) (Fc 2 2 (Tm 0 1 Tl) Fn))))) (Fc 2 1 (Tm 0 0 (Tt (Fc 0 1 (Tm 2 0 Tl) (Fc 2 0 (Tm 0 1 Tl) (Fc 2 2 (Tm 0 1 Tl) Fn))))) (Fc 2 2 (Tm 0 0 (Tt (Fc 0 1 (Tm 2 0 Tl) (Fc 2 0 (Tm 0 1 Tl) (Fc 2 1 (Tm 0 1 Tl) Fn))))) Fn))))))) (Fc 1 1 (Tm 1 0 (Tt (Fc 0 0 (Tm 2 2 (Tt (Fc 0 1 (Tm 2 1 (Tt (Fc 2 0 Tl Fn))) (Fc 2 0 (Tm 0 1 (Tt (Fc 2 1 Tl Fn))) (Fc 2 1 (Tm 0 1 (Tt (Fc 2 0 Tl Fn))) Fn))))) (Fc 0 1 (Tm 2 1 (Tt (Fc 0 0 (Tm 2 2 (Tt (Fc 2 0 Tl Fn))) (Fc 2 0 (Tm 0 0 (Tt (Fc 2 2 Tl Fn))) (Fc 2 2 (Tm 0 0 (Tt (Fc 2 0 Tl Fn))) Fn))))) (Fc 2 0 (Tm 0 0 (Tt (Fc 0 1 (Tm 2 1 (Tt (Fc 2 2 Tl Fn))) (Fc 2 1 (Tm 0 1 Tl) (Fc 2 2 (Tm 0 1 Tl) Fn))))) (Fc 2 1 (Tm 0 1 (Tt (Fc 0 0 (Tm 2 2 (Tt (Fc 2 0 Tl Fn))) (Fc 2 0 (Tm 0 0 Tl) (Fc 2 2 (Tm 0 0 Tl) Fn))))) (Fc 2 2 (Tm 0 0 (Tt (Fc 0 1 (Tm 2 0 Tl) (Fc 2 0 (Tm 0 1 Tl) (Fc 2 1 (Tm 0 1 Tl) Fn))))) Fn))))))) (Fc 2 0 (Tm 0 0 (Tt (Fc 0 1 (Tm 1 1 (Tt (Fc 1 0 (Tm 2 2 Tl) (Fc 2 1 (Tm 2 2 Tl) (Fc 2 2 (Tm 2 1 (Tt (Fc 1 0 Tl Fn))) Fn))))) (Fc 1 0 (Tm 0 1 Tl) (Fc 1 1 (Tm 0 1 Tl) (Fc 2 1 (Tm 0 1 Tl) (Fc 2 2 (Tm 0 1 Tl) Fn))))))) (Fc 2 1 (Tm 0 0 (Tt (Fc 0 1 (Tm 1 1 (Tt (Fc 1 0 (Tm 2 0 Tl) (Fc 2 0 (Tm 2 2 Tl) (Fc 2 2 (Tm 2 0 Tl) Fn))))) (Fc 1 0 (Tm 0 1 Tl) (Fc 1 1 (Tm 0 1 Tl) (Fc 2 0 (Tm 0 1 Tl) (Fc 2 2 (Tm 0 1 Tl) Fn))))))) (Fc 2 2 (Tm 0 0 (Tt (Fc 0 1 (Tm 2 0 (Tt (Fc 1 0 (Tm 1 1 Tl) (Fc 1 1 (Tm 1 0 Tl) (Fc 2 1 (Tm 1 0 Tl) Fn))))) (Fc 1 0 (Tm 0 1 Tl) (Fc 1 1 (Tm 0 1 Tl) (Fc 2 0 (Tm 0 1 Tl) (Fc 2 1 (Tm 0 1 Tl) Fn))))))) Fn)))))))))

def certB_6 : GTree :=
  (Tm 1 1 (Tt (Fc 0 0 (Tm 1 0 (Tt (Fc 0 1 (Tm 1 2 Tl) (Fc 0 2 (Tm 0 1 (Tt (Fc 1 2 (Tm 2 1 Tl) (Fc 2 1 (Tm 1 2 Tl) (Fc 2 2 (Tm 1 2 Tl) Fn))))) (Fc 1 2 (Tm 0 1 (Tt (Fc 0 2 (Tm 2 1 Tl) (Fc 2 1 (Tm 2 2 (Tt (Fc 0 2 Tl Fn))) (Fc 2 2 (Tm 2 1 Tl) Fn))))) (Fc 2 1 (Tm 1 2 Tl) (Fc 2 2 (Tm 1 2 Tl) Fn))))))) (Fc 0 1 (Tm 0 0 (Tt (Fc 0 2 (Tm 1 0 (Tt (Fc 1 2 (Tm 2 2 Tl) (Fc 2 1 (Tm 1 2 Tl) (Fc 2 2 (Tm 1 2 Tl) Fn))))) (Fc 1 0 (Tm 2 2 Tl) (Fc 1 2 (Tm 2 2 Tl) (Fc 2 1 (Tm 2 2 Tl) (Fc 2 2 (Tm 2 1 (Tt (Fc 0 2 (Tm 1 2 (Tt (Fc 1 0 Tl Fn))) (Fc 1 0 (Tm 0 2 (Tt (Fc 1 2 Tl Fn))) (Fc 1 2 (Tm 0 2 (Tt (Fc 1 0 Tl Fn))) Fn))))) Fn))))))) (Fc 0 2 (Tm 0 1 (Tt (Fc 0 0 (Tm 1 0 (Tt (Fc 1 2 (Tm 2 1 Tl) (Fc 2 1 (Tm 1 2 Tl) (Fc 2 2 (Tm 1 2 Tl) Fn))))) (Fc 1 0 (Tm 0 0 (Tt (Fc 1 2 (Tm 2 1 Tl) (Fc 2 1 (Tm 2 2 Tl) (Fc 2 2 (Tm 2 1 Tl) Fn))))) (Fc 1 2 (Tm 2 1 Tl) (Fc 2 1 (Tm 2 2 (Tt (Fc 0 0 (Tm 1 0 (Tt (Fc 1 2 Tl Fn))) (Fc 1 0 (Tm 0 0 Tl) (Fc 1 2 (Tm 0 0 Tl) Fn))))) (Fc 2 2 (Tm 2 1 Tl) Fn))))))) (Fc 1 0 (Tm 0 0 (Tt (Fc 0 1 (Tm 2 2 Tl) (Fc 0 2 (Tm 0 1 (Tt (Fc 1 2 (Tm 2 1 Tl) (Fc 2 1 (Tm 2 2 Tl) (Fc 2 2 (Tm 2 1 Tl) Fn))))) (Fc 1 2 (Tm 0 1 (Tt (Fc 0 2 (Tm 2 1 Tl) (Fc 2 1 (Tm 0 2 Tl) (Fc 2 2 (Tm 0 2 Tl) Fn))))) (Fc 2 1 (Tm 2 2 Tl) (Fc 2 2 (Tm 2 1 (Tt (Fc 0 1 (Tm 0 2 (Tt (Fc 1 2 Tl Fn))) (Fc 0 2 (Tm 0 1 Tl) (Fc 1 2 (Tm 0 1 Tl) Fn))))) Fn))))))) (Fc 1 2 (Tm 0 1 (Tt (Fc 0 0 (Tm 2 1 Tl) (Fc 0 2 (Tm 2 1 Tl) (Fc 1 0 (Tm 0 0 (Tt (Fc 0 2 (Tm 2 1 Tl) (Fc 2 1 (Tm 0 2 Tl) (Fc 2 2 (Tm 0 2 Tl) Fn))))) (Fc 2 1 (Tm 2 2 (Tt (Fc 0 0 (Tm 1 0 (Tt (Fc 0 2 Tl Fn))) (Fc 0 2 (Tm 0 0 Tl) (Fc 1 0 (Tm 0 0 Tl) Fn))))) (Fc 2 2 (Tm 2 1 Tl) Fn))))))) (Fc 2 1 (Tm 2 2 (Tt (Fc 0 0 (Tm 1 0 (Tt (Fc 0 1 (Tm 1 2 Tl) (Fc 0 2 (Tm 1 2 Tl) (Fc 1 2 (Tm 0 1 (Tt (Fc 0 2 Tl Fn))) Fn))))) (Fc 0 1 (Tm 0 0 Tl) (Fc 0 2 (Tm 0 0 Tl) (Fc 1 0 (Tm 0 0 Tl) (Fc 1 2 (Tm 0 0 Tl) Fn))))))) (Fc 2 2 (Tm 2 1 (Tt (Fc 0 0 (Tm 0 1 Tl) (Fc 0 1 (Tm 0 0 (Tt (Fc 0 2 (Tm 1 2 (Tt (Fc 1 0 Tl Fn))) (Fc 1 0 (Tm 0 2 (Tt (Fc 1 2 Tl Fn))) (Fc 1 2 (Tm 0 2 (Tt (Fc 1 0 Tl Fn))) Fn))))) (Fc 0 2 (Tm 0 1 Tl) (Fc 1 0 (Tm 0 1 Tl) (Fc 1 2 (Tm 0 1 Tl) Fn))))))) Fn)))))))))

def certB_7 : GTree :=
  (Tm 0 1 (Tt (Fc 0 0 (Tm 2 0 (Tt (Fc 0 2 (Tm 1 1 (Tt (Fc 1 0 (Tm 1 2 (Tt (Fc 2 2 Tl Fn))) (Fc 1 2 (Tm 2 2 (Tt (Fc 1 0 Tl Fn))) (Fc 2 2 (Tm 1 2 (Tt (Fc 1 0 Tl Fn))) Fn))))) (Fc 1 0 (Tm 1 1 (Tt (Fc 0 2 (Tm 1 2 (Tt (Fc 2 2 Tl Fn))) (Fc 1 2 (Tm 0 2 Tl) (Fc 2 2 (Tm 0 2 Tl) Fn))))) (Fc 1 1 (Tm 2 2 (Tt (Fc 0 2 (Tm 1 0 (Tt (Fc 1 2 Tl Fn))) (Fc 1 0 (Tm 1 2 (Tt (Fc 0 2 Tl Fn))) (Fc 1 2 (Tm 1 0 (Tt (Fc 0 2 Tl Fn))) Fn))))) (Fc 1 2 (Tm 1 1 (Tt (Fc 0 2 (Tm 2 2 (Tt (Fc 1 0 Tl Fn))) (Fc 1 0 (Tm 0 2 Tl) (Fc 2 2 (Tm 0 2 Tl) Fn))))) (Fc 2 2 (Tm 1 1 (Tt (Fc 0 2 (Tm 1 2 (Tt (Fc 1 0 Tl Fn))) (Fc 1 0 (Tm 0 2 Tl) (Fc 1 2 (Tm 0 2 Tl) Fn))))) Fn))))))) (Fc 0 2 (Tm 2 0 (Tt (Fc 0 0 (Tm 1 1 (Tt (Fc 1 0 (Tm 1 2 (Tt (Fc 2 2 Tl Fn))) (Fc 1 2 (Tm 2 2 (Tt (Fc 1 0 Tl Fn))) (Fc 2 2 (Tm 1 2 (Tt (Fc 1 0 Tl Fn))) Fn))))) (Fc 1 0 (Tm 1 1 (Tt (Fc 0 0 (Tm 1 2 (Tt (Fc 2 2 Tl Fn))) (Fc 1 2 (Tm 2 2 (Tt (Fc 0 0 Tl Fn))) (Fc 2 2 (Tm 1 2 (Tt (Fc 0 0 Tl Fn))) Fn))))) (Fc 1 1 (Tm 0 0 (Tt (Fc 1 0 (Tm 1 2 (Tt (Fc 2 2 Tl Fn))) (Fc 1 2 (Tm 1 0 Tl) (Fc 2 2 (Tm 1 0 Tl) Fn))))) (Fc 1 2 (Tm 2 2 (Tt (Fc 0 0 (Tm 1 0 (Tt (Fc 1 1 Tl Fn))) (Fc 1 0 (Tm 1 1 (Tt (Fc 0 0 Tl Fn))) (Fc 1 1 (Tm 1 0 (Tt (Fc 0 0 Tl Fn))) Fn))))) (Fc 2 2 (Tm 1 2 (Tt (Fc 0 0 (Tm 1 1 (Tt (Fc 1 0 Tl Fn))) (Fc 1 0 (Tm 0 0 (Tt (Fc 1 1 Tl Fn))) (Fc 1 1 (Tm 0 0 (Tt (Fc 1 0 Tl Fn))) Fn))))) Fn))))))) (Fc 1 0 (Tm 2 0 (Tt (Fc 0 0 (Tm 1 1 (Tt (Fc 0 2 (Tm 1 2 (Tt (Fc 2 2 Tl Fn))) (Fc 1 2 (Tm 0 2 Tl) (Fc 2 2 (Tm 0 2 Tl) Fn))))) (Fc 0 2 (Tm 1 1 (Tt (Fc 0 0 (Tm 1 2 (Tt (Fc 2 2 Tl Fn))) (Fc 1 2 (Tm 2 2 (Tt (Fc 0 0 Tl Fn))) (Fc 2 2 (Tm 1 2 (Tt (Fc 0 0 Tl Fn))) Fn))))) (Fc 1 1 (Tm 1 2 (Tt (Fc 0 0 (Tm 2 2 (Tt (Fc 0 2 Tl Fn))) (Fc 0 2 (Tm 0 0 (Tt (Fc 2 2 Tl Fn))) (Fc 2 2 (Tm 0 0 (Tt (Fc 0 2 Tl Fn))) Fn))))) (Fc 1 2 (Tm 1 1 (Tt (Fc 0 0 (Tm 0 2 Tl) (Fc 0 2 (Tm 2 2 (Tt (Fc 0 0 Tl Fn))) (Fc 2 2 (Tm 0 2 Tl) Fn))))) (Fc 2 2 (Tm 0 2 (Tt (Fc 0 0 (Tm 1 1 Tl) (Fc 1 1 (Tm 0 0 Tl) (Fc 1 2 (Tm 0 0 Tl) Fn))))) Fn))))))) (Fc 1 1 (Tm 0 0 (Tt (Fc 0 2 (Tm 2 0 (Tt (Fc 1 0 (Tm 1 2 (Tt (Fc 2 2 Tl Fn))) (Fc 1 2 (Tm 1 0 Tl) (Fc 2 2 (Tm 1 0 Tl) Fn))))) (Fc 1 0 (Tm 0 2 Tl) (Fc 1 2 (Tm 0 2 Tl) (Fc 2 0 (Tm 0 2 Tl) (Fc 2 2 (Tm 0 2 Tl) Fn))))))) (Fc 1 2 (Tm 2 0 (Tt (Fc 0 0 (Tm 1 1 (Tt (Fc 0 2 (Tm 2 2 (Tt (Fc 1 0 Tl Fn))) (Fc 1 0 (Tm 0 2 Tl) (Fc 2 2 (Tm 0 2 Tl) Fn))))) (Fc 0 2 (Tm 2 2 (Tt (Fc 0 0 (Tm 1 0 (Tt (Fc 1 1 Tl Fn))) (Fc 1 0 (Tm 1 1 (Tt (Fc 0 0 Tl Fn))) (Fc 1 1 (Tm 1 0 (Tt (Fc 0 0 Tl Fn))) Fn))))) (Fc 1 0 (Tm 1 1 (Tt (Fc 0 0 (Tm 0 2 Tl) (Fc 0 2 (Tm 2 2 (Tt (Fc 0 0 Tl Fn))) (Fc 2 2 (Tm 0 2 Tl) Fn))))) (Fc 1 1 (Tm 1 0 (Tt (Fc 0 0 (Tm 2 2 (Tt (Fc 0 2 Tl Fn))) (Fc 0 2 (Tm 0 0 Tl) (Fc 2 2 (Tm 0 0 Tl) Fn))))) (Fc 2 2 (Tm 0 2 (Tt (Fc 0 0 (Tm 1 1 Tl) (Fc 1 0 (Tm 0 0 Tl) (Fc 1 1 (Tm 0 0 Tl) Fn))))) Fn))))))) (Fc 2 0 (Tm 2 2 (Tt (Fc 0 0 (Tm 1 0 (Tt (Fc 0 2 (Tm 1 1 (Tt (Fc 1 2 Tl Fn))) (Fc 1 1 (Tm 0 2 (Tt (Fc 1 2 Tl Fn))) (Fc 1 2 (Tm 0 2 (Tt (Fc 1 1 Tl Fn))) Fn))))) (Fc 0 2 (Tm 1 1 (Tt (Fc 0 0 (Tm 1 0 (Tt (Fc 1 2 Tl Fn))) (Fc 1 0 (Tm 0 0 Tl) (Fc 1 2 (Tm 0 0 Tl) Fn))))) (Fc 1 0 (Tm 0 0 (Tt (Fc 0 2 (Tm 1 1 Tl) (Fc 1 1 (Tm 0 2 Tl) (Fc 1 2 (Tm 0 2 Tl) Fn))))) (Fc 1 1 (Tm 0 2 (Tt (Fc 0 0 (Tm 1 2 Tl) (Fc 1 0 (Tm 0 0 Tl) (Fc 1 2 (Tm 0 0 Tl) Fn))))) (Fc 1 2 (Tm 0 0 (Tt (Fc 0 2 (Tm 1 1 Tl) (Fc 1 0 (Tm 0 2 Tl) (Fc 1 1 (Tm 0 2 Tl) Fn))))) Fn))))))) (Fc 2 2 (Tm 2 0 (Tt (Fc 0 0 (Tm 1 1 (Tt (Fc 0 2 (Tm 1 2 (Tt (Fc 1 0 Tl Fn))) (Fc 1 0 (Tm 0 2 Tl) (Fc 1 2 (Tm 0 2 Tl) Fn))))) (Fc 0 2 (Tm 1 2 (Tt (Fc 0 0 (Tm 1 1 (Tt (Fc 1 0 Tl Fn))) (Fc 1 0 (Tm 0 0 (Tt (Fc 1 1 Tl Fn))) (Fc 1 1 (Tm 0 0 (Tt (Fc 1 0 Tl Fn))) Fn))))) (Fc 1 0 (Tm 0 2 (Tt (Fc 0 0 (Tm 1 1 Tl) (Fc 1 1 (Tm 0 0 Tl) (Fc 1 2 (Tm 0 0 Tl) Fn))))) (Fc 1 1 (Tm 0 0 (Tt (Fc 0 2 (Tm 1 0 Tl) (Fc 1 0 (Tm 0 2 Tl) (Fc 1 2 (Tm 0 2 Tl) Fn))))) (Fc 1 2 (Tm 0 2 (Tt (Fc 0 0 (Tm 1 1 Tl) (Fc 1 0 (Tm 0 0 Tl) (Fc 1 1 (Tm 0 0 Tl) Fn))))) Fn))))))) Fn)))))))))

def certB_8 : GTree :=
  (Tm 1 1 (Tt (Fc 0 0 (Tm 0 1 (Tt (Fc 0 2 (Tm 1 2 (Tt (Fc 1 0 (Tm 2 1 Tl) (Fc 2 0 (Tm 1 0 Tl) (Fc 2 1 (Tm 1 0 Tl) Fn))))) (Fc 1 0 (Tm 2 0 (Tt (Fc 0 2 (Tm 2 1 Tl) (Fc 1 2 (Tm 0 2 Tl) (Fc 2 1 (Tm 0 2 Tl) Fn))))) (Fc 1 2 (Tm 0 2 (Tt (Fc 1 0 (Tm 2 0 Tl) (Fc 2 0 (Tm 2 1 Tl) (Fc 2 1 (Tm 2 0 Tl) Fn))))) (Fc 2 0 (Tm 2 1 Tl) (Fc 2 1 (Tm 2 0 (Tt (Fc 0 2 (Tm 1 2 (Tt (Fc 1 0 Tl Fn))) (Fc 1 0 (Tm 0 2 Tl) (Fc 1 2 (Tm 0 2 Tl) Fn))))) Fn))))))) (Fc 0 1 (Tm 0 0 (Tt (Fc 0 2 (Tm 1 2 (Tt (Fc 1 0 (Tm 2 0 (Tt (Fc 2 1 Tl Fn))) (Fc 2 0 (Tm 1 0 Tl) (Fc 2 1 (Tm 1 0 Tl) Fn))))) (Fc 1 0 (Tm 0 2 (Tt (Fc 1 2 (Tm 2 0 Tl) (Fc 2 0 (Tm 2 1 (Tt (Fc 1 2 Tl Fn))) (Fc 2 1 (Tm 2 0 Tl) Fn))))) (Fc 1 2 (Tm 0 2 (Tt (Fc 1 0 (Tm 2 0 Tl) (Fc 2 0 (Tm 2 1 (Tt (Fc 1 0 Tl Fn))) (Fc 2 1 (Tm 2 0 Tl) Fn))))) (Fc 2 0 (Tm 2 1 (Tt (Fc 0 2 (Tm 1 2 (Tt (Fc 1 0 Tl Fn))) (Fc 1 0 (Tm 0 2 (Tt (Fc 1 2 Tl Fn))) (Fc 1 2 (Tm 0 2 (Tt (Fc 1 0 Tl Fn))) Fn))))) (Fc 2 1 (Tm 2 0 (Tt (Fc 0 2 (Tm 1 0 Tl) (Fc 1 0 (Tm 0 2 Tl) (Fc 1 2 (Tm 0 2 Tl) Fn))))) Fn))))))) (Fc 0 2 (Tm 1 2 (Tt (Fc 0 0 (Tm 0 1 (Tt (Fc 1 0 (Tm 2 1 Tl) (Fc 2 0 (Tm 1 0 Tl) (Fc 2 1 (Tm 1 0 Tl) Fn))))) (Fc 0 1 (Tm 1 0 Tl) (Fc 1 0 (Tm 0 0 (Tt (Fc 0 1 (Tm 2 0 (Tt (Fc 2 1 Tl Fn))) (Fc 2 0 (Tm 2 1 (Tt (Fc 0 1 Tl Fn))) (Fc 2 1 (Tm 2 0 (Tt (Fc 0 1 Tl Fn))) Fn))))) (Fc 2 0 (Tm 1 0 Tl) (Fc 2 1 (Tm 1 0 Tl) Fn))))))) (Fc 1 0 (Tm 0 0 (Tt (Fc 0 1 (Tm 0 2 (Tt (Fc 1 2 (Tm 2 0 Tl) (Fc 2 0 (Tm 2 1 (Tt (Fc 1 2 Tl Fn))) (Fc 2 1 (Tm 2 0 Tl) Fn))))) (Fc 0 2 (Tm 1 2 (Tt (Fc 0 1 (Tm 2 0 (Tt (Fc 2 1 Tl Fn))) (Fc 2 0 (Tm 2 1 (Tt (Fc 0 1 Tl Fn))) (Fc 2 1 (Tm 2 0 (Tt (Fc 0 1 Tl Fn))) Fn))))) (Fc 1 2 (Tm 0 2 (Tt (Fc 0 1 (Tm 2 0 Tl) (Fc 2 0 (Tm 0 1 Tl) (Fc 2 1 (Tm 0 1 Tl) Fn))))) (Fc 2 0 (Tm 2 1 (Tt (Fc 0 1 (Tm 0 2 (Tt (Fc 1 2 Tl Fn))) (Fc 0 2 (Tm 0 1 Tl) (Fc 1 2 (Tm 0 1 Tl) Fn))))) (Fc 2 1 (Tm 2 0 (Tt (Fc 0 1 (Tm 0 2 Tl) (Fc 0 2 (Tm 1 2 (Tt (Fc 0 1 Tl Fn))) (Fc 1 2 (Tm 0 2 Tl) Fn))))) Fn))))))) (Fc 1 2 (Tm 0 2 (Tt (Fc 0 0 (Tm 0 1 (Tt (Fc 1 0 (Tm 2 0 Tl) (Fc 2 0 (Tm 2 1 Tl) (Fc 2 1 (Tm 2 0 Tl) Fn))))) (Fc 0 1 (Tm 2 0 Tl) (Fc 1 0 (Tm 0 0 (Tt (Fc 0 1 (Tm 2 0 Tl) (Fc 2 0 (Tm 0 1 Tl) (Fc 2 1 (Tm 0 1 Tl) Fn))))) (Fc 2 0 (Tm 2 1 (Tt (Fc 0 0 (Tm 0 1 Tl) (Fc 0 1 (Tm 0 0 (Tt (Fc 1 0 Tl Fn))) (Fc 1 0 (Tm 0 1 Tl) Fn))))) (Fc 2 1 (Tm 2 0 Tl) Fn))))))) (Fc 2 0 (Tm 2 1 (Tt (Fc 0 0 (Tm 0 1 Tl) (Fc 0 1 (Tm 0 0 (Tt (Fc 0 2 (Tm 1 2 (Tt (Fc 1 0 Tl Fn))) (Fc 1 0 (Tm 0 2 (Tt (Fc 1 2 Tl Fn))) (Fc 1 2 (Tm 0 2 (Tt (Fc 1 0 Tl Fn))) Fn))))) (Fc 0 2 (Tm 0 1 Tl) (Fc 1 0 (Tm 0 1 Tl) (Fc 1 2 (Tm 0 1 Tl) Fn))))))) (Fc 2 1 (Tm 2 0 (Tt (Fc 0 0 (Tm 0 2 Tl) (Fc 0 1 (Tm 0 0 (Tt (Fc 0 2 (Tm 1 0 Tl) (Fc 1 0 (Tm 0 2 Tl) (Fc 1 2 (Tm 0 2 Tl) Fn))))) (Fc 0 2 (Tm 1 2 (Tt (Fc 0 0 (Tm 1 0 Tl) (Fc 0 1 (Tm 1 0 Tl) (Fc 1 0 (Tm 0 0 (Tt (Fc 0 1 Tl Fn))) Fn))))) (Fc 1 0 (Tm 0 2 Tl) (Fc 1 2 (Tm 0 2 Tl) Fn))))))) Fn)))))))))

/-- Certificate: with O to move on the empty board, X (replying with `minimax`) still guarantees at least a draw (score at least 0 for every O opening). -/
def certB : GTree :=
  Tt (Fc 0 0 certB_0 (Fc 0 1 certB_1 (Fc 0 2 certB_2 (Fc 1 0 certB_3 (Fc 1 1 certB_4 (Fc 1 2 certB_5 (Fc 2 0 certB_6 (Fc 2 1 certB_7 (Fc 2 2 certB_8 Fn)))))))))

/-- Certificate: with O to move on the empty board, following `minimax` guarantees O at least a draw (score at most 0). -/
def certC : GTree :=
  (Tm 0 0 (Tt (Fc 0 1 (Tm 1 0 (Tt (Fc 0 2 (Tm 1 1 (Tt (Fc 1 2 (Tm 2 0 Tl) (Fc 2 0 (Tm 1 2 Tl) (Fc 2 1 (Tm 1 2 Tl) (Fc 2 2 (Tm 1 2 Tl) Fn)))))) (Fc 1 1 (Tm 2 0 Tl) (Fc 1 2 (Tm 1 1 (Tt (Fc 0 2 (Tm 2 0 Tl) (Fc 2 0 (Tm 2 2 Tl) (Fc 2 1 (Tm 0 2 (Tt (Fc 2 0 (Tm 2 2 Tl) (Fc 2 2 (Tm 2 0 Tl) Fn)))) (Fc 2 2 (Tm 2 0 Tl) Fn)))))) (Fc 2 0 (Tm 1 1 (Tt (Fc 0 2 (Tm 1 2 Tl) (Fc 1 2 (Tm 2 2 Tl) (Fc 2 1 (Tm 1 2 Tl) (Fc 2 2 (Tm 1 2 Tl) Fn)))))) (Fc 2 1 (Tm 1 1 (Tt (Fc 0 2 (Tm 1 2 Tl) (Fc 1 2 (Tm 0 2 (Tt (Fc 2 0 (Tm 2 2 Tl) (Fc 2 2 (Tm 2 0 Tl) Fn)))) (Fc 2 0 (Tm 1 2 Tl) (Fc 2 2 (Tm 1 2 Tl) Fn)))))) (Fc 2 2 (Tm 1 1 (Tt (Fc 0 2 (Tm 1 2 Tl) (Fc 1 2 (Tm 2 0 Tl) (Fc 2 0 (Tm 1 2 Tl) (Fc 2 1 (Tm 1 2 Tl) Fn)))))) Fn)))))))) (Fc 0 2 (Tm 1 0 (Tt (Fc 0 1 (Tm 1 1 (Tt (Fc 1 2 (Tm 2 0 Tl) (Fc 2 0 (Tm 1 2 Tl) (Fc 2 1 (Tm 1 2 Tl) (Fc 2 2 (Tm 1 2 Tl) Fn)))))) (Fc 1 1 (Tm 2 0 Tl) (Fc 1 2 (Tm 2 0 Tl) (Fc 2 0 (Tm 1 1 (Tt (Fc 0 1 (Tm 1 2 Tl) (Fc 1 2 (Tm 2 2 Tl) (Fc 2 1 (Tm 1 2 Tl) (Fc 2 2 (Tm 1 2 Tl) Fn)))))) (Fc 2 1 (Tm 1 1 (Tt (Fc 0 1 (Tm 1 2 Tl) (Fc 1 2 (Tm 2 0 Tl) (Fc 2 0 (Tm 1 2 Tl) (Fc 2 2 (Tm 1 2 Tl) Fn)))))) (Fc 2 2 (Tm 1 2 (Tt (Fc 0 1 (Tm 1 1 Tl) (Fc 1 1 (Tm 2 0 Tl) (Fc 2 0 (Tm 1 1 Tl) (Fc 2 1 (Tm 1 1 Tl) Fn)))))) Fn)))))))) (Fc 1 0 (Tm 0 1 (Tt (Fc 0 2 (Tm 1 1 (Tt (Fc 1 2 (Tm 2 1 Tl) (Fc 2 0 (Tm 1 2 (Tt (Fc 2 1 (Tm 2 2 Tl) (Fc 2 2 (Tm 2 1 Tl) Fn)))) (Fc 2 1 (Tm 2 2 Tl) (Fc 2 2 (Tm 2 1 Tl) Fn)))))) (Fc 1 1 (Tm 0 2 Tl) (Fc 1 2 (Tm 0 2 Tl) (Fc 2 0 (Tm 0 2 Tl) (Fc 2 1 (Tm 0 2 Tl) (Fc 2 2 (Tm 0 2 Tl) Fn)))))))) (Fc 1 1 (Tm 0 1 (Tt (Fc 0 2 (Tm 2 0 (Tt (Fc 1 0 (Tm 1 2 (Tt (Fc 2 1 (Tm 2 2 Tl) (Fc 2 2 (Tm 2 1 Tl) Fn)))) (Fc 1 2 (Tm 1 0 Tl) (Fc 2 1 (Tm 1 0 Tl) (Fc 2 2 (Tm 1 0 Tl) Fn)))))) (Fc 1 0 (Tm 0 2 Tl) (Fc 1 2 (Tm 0 2 Tl) (Fc 2 0 (Tm 0 2 Tl) (Fc 2 1 (Tm 0 2 Tl) (Fc 2 2 (Tm 0 2 Tl) Fn)))))))) (Fc 1 2 (Tm 0 2 (Tt (Fc 0 1 (Tm 1 1 (Tt (Fc 1 0 (Tm 2 0 Tl) (Fc 2 0 (Tm 2 2 Tl) (Fc 2 1 (Tm 1 0 (Tt (Fc 2 0 (Tm 2 2 Tl) (Fc 2 2 (Tm 2 0 Tl) Fn)))) (Fc 2 2 (Tm 2 0 Tl) Fn)))))) (Fc 1 0 (Tm 0 1 Tl) (Fc 1 1 (Tm 0 1 Tl) (Fc 2 0 (Tm 0 1 Tl) (Fc 2 1 (Tm 0 1 Tl) (Fc 2 2 (Tm 0 1 Tl) Fn)))))))) (Fc 2 0 (Tm 0 1 (Tt (Fc 0 2 (Tm 1 1 (Tt (Fc 1 0 (Tm 1 2 (Tt (Fc 2 1 (Tm 2 2 Tl) (Fc 2 2 (Tm 2 1 Tl) Fn)))) (Fc 1 2 (Tm 2 1 Tl) (Fc 2 1 (Tm 2 2 Tl) (Fc 2 2 (Tm 2 1 Tl) Fn)))))) (Fc 1 0 (Tm 0 2 Tl) (Fc 1 1 (Tm 0 2 Tl) (Fc 1 2 (Tm 0 2 Tl) (Fc 2 1 (Tm 0 2 Tl) (Fc 2 2 (Tm 0 2 Tl) Fn)))))))) (Fc 2 1 (Tm 0 2 (Tt (Fc 0 1 (Tm 1 1 (Tt (Fc 1 0 (Tm 1 2 (Tt (Fc 2 0 (Tm 2 2 Tl) (Fc 2 2 (Tm 2 0 Tl) Fn)))) (Fc 1 2 (Tm 1 0 (Tt (Fc 2 0 (Tm 2 2 Tl) (Fc 2 2 (Tm 2 0 Tl) Fn)))) (Fc 2 0 (Tm 2 2 Tl) (Fc 2 2 (Tm 2 0 Tl) Fn)))))) (Fc 1 0 (Tm 0 1 Tl) (Fc 1 1 (Tm 0 1 Tl) (Fc 1 2 (Tm 0 1 Tl) (Fc 2 0 (Tm 0 1 Tl) (Fc 2 2 (Tm 0 1 Tl) Fn)))))))) (Fc 2 2 (Tm 0 2 (Tt (Fc 0 1 (Tm 2 0 (Tt (Fc 1 0 (Tm 1 1 Tl) (Fc 1 1 (Tm 1 0 Tl) (Fc 1 2 (Tm 1 0 Tl) (Fc 2 1 (Tm 1 0 Tl) Fn)))))) (Fc 1 0 (Tm 0 1 Tl) (Fc 1 1 (Tm 0 1 Tl) (Fc 1 2 (Tm 0 1 Tl) (Fc 2 0 (Tm 0 1 Tl) (Fc 2 1 (Tm 0 1 Tl) Fn)))))))) Fn))))))))))

def certD_0 : GTree :=
  (Tm 1 1 (Tt (Fc 0 1 (Tm 0 2 (Tt (Fc 1 0 (Tm 2 0 Tl) (Fc 1 2 (Tm 2 0 Tl) (Fc 2 0 (Tm 1 0 (Tt (Fc 1 2 (Tm 2 1 (Tt (Fc 2 2 Tl Fn))) (Fc 2 1 (Tm 1 2 Tl) (Fc 2 2 (Tm 1 2 Tl) Fn))))) (Fc 2 1 (Tm 1 0 (Tt (Fc 1 2 (Tm 2 0 Tl) (Fc 2 0 (Tm 1 2 Tl) (Fc 2 2 (Tm 1 2 Tl) Fn))))) (Fc 2 2 (Tm 1 0 (Tt (Fc 1 2 (Tm 2 0 Tl) (Fc 2 0 (Tm 1 2 Tl) (Fc 2 1 (Tm 1 2 Tl) Fn))))) Fn))))))) (Fc 0 2 (Tm 0 1 (Tt (Fc 1 0 (Tm 2 1 Tl) (Fc 1 2 (Tm 2 1 Tl) (Fc 2 0 (Tm 1 0 (Tt (Fc 1 2 (Tm 2 1 Tl) (Fc 2 1 (Tm 1 2 Tl) (Fc 2 2 (Tm 1 2 Tl) Fn))))) (Fc 2 1 (Tm 1 0 (Tt (Fc 1 2 (Tm 2 2 (Tt (Fc 2 0 Tl Fn))) (Fc 2 0 (Tm 1 2 Tl) (Fc 2 2 (Tm 1 2 Tl) Fn))))) (Fc 2 2 (Tm 1 2 (Tt (Fc 1 0 (Tm 2 1 Tl) (Fc 2 0 (Tm 1 0 Tl) (Fc 2 1 (Tm 1 0 Tl) Fn))))) Fn))))))) (Fc 1 0 (Tm 2 0 (Tt (Fc 0 1 (Tm 0 2 Tl) (Fc 0 2 (Tm 0 1 (Tt (Fc 1 2 (Tm 2 1 Tl) (Fc 2 1 (Tm 1 2 (Tt (Fc 2 2 Tl Fn))) (Fc 2 2 (Tm 2 1 Tl) Fn))))) (Fc 1 2 (Tm 0 1 (Tt (Fc 0 2 (Tm 2 1 Tl) (Fc 2 1 (Tm 0 2 Tl) (Fc 2 2 (Tm 0 2 Tl) Fn))))) (Fc 2 1 (Tm 0 2 Tl) (Fc 2 2 (Tm 0 1 (Tt (Fc 0 2 (Tm 2 1 Tl) (Fc 1 2 (Tm 0 2 Tl) (Fc 2 1 (Tm 0 2 Tl) Fn))))) Fn))))))) (Fc 1 2 (Tm 0 1 (Tt (Fc 0 2 (Tm 2 1 Tl) (Fc 1 0 (Tm 2 0 (Tt (Fc 0 2 (Tm 2 1 Tl) (Fc 2 1 (Tm 0 2 Tl) (Fc 2 2 (Tm 0 2 Tl) Fn))))) (Fc 2 0 (Tm 2 1 Tl) (Fc 2 1 (Tm 2 0 (Tt (Fc 0 2 (Tm 2 2 (Tt (Fc 1 0 Tl Fn))) (Fc 1 0 (Tm 0 2 Tl) (Fc 2 2 (Tm 0 2 Tl) Fn))))) (Fc 2 2 (Tm 0 2 (Tt (Fc 1 0 (Tm 2 0 Tl) (Fc 2 0 (Tm 2 1 Tl) (Fc 2 1 (Tm 2 0 Tl) Fn))))) Fn))))))) (Fc 2 0 (Tm 1 0 (Tt (Fc 0 1 (Tm 1 2 Tl) (Fc 0 2 (Tm 0 1 (Tt (Fc 1 2 (Tm 2 1 Tl) (Fc 2 1 (Tm 1 2 Tl) (Fc 2 2 (Tm 1 2 Tl) Fn))))) (Fc 1 2 (Tm 0 1 (Tt (Fc 0 2 (Tm 2 1 Tl) (Fc 2 1 (Tm 2 2 (Tt (Fc 0 2 Tl Fn))) (Fc 2 2 (Tm 2 1 Tl) Fn))))) (Fc 2 1 (Tm 1 2 Tl) (Fc 2 2 (Tm 1 2 Tl) Fn))))))) (Fc 2 1 (Tm 1 0 (Tt (Fc 0 1 (Tm 0 2 (Tt (Fc 1 2 (Tm 2 0 Tl) (Fc 2 0 (Tm 1 2 Tl) (Fc 2 2 (Tm 1 2 Tl) Fn))))) (Fc 0 2 (Tm 1 2 Tl) (Fc 1 2 (Tm 0 2 (Tt (Fc 0 1 (Tm 2 0 Tl) (Fc 2 0 (Tm 2 2 (Tt (Fc 0 1 Tl Fn))) (Fc 2 2 (Tm 2 0 Tl) Fn))))) (Fc 2 0 (Tm 1 2 Tl) (Fc 2 2 (Tm 1 2 Tl) Fn))))))) (Fc 2 2 (Tm 0 1 (Tt (Fc 0 2 (Tm 1 2 (Tt (Fc 1 0 (Tm 2 1 Tl) (Fc 2 0 (Tm 1 0 Tl) (Fc 2 1 (Tm 1 0 Tl) Fn))))) (Fc 1 0 (Tm 2 0 (Tt (Fc 0 2 (Tm 2 1 Tl) (Fc 1 2 (Tm 0 2 Tl) (Fc 2 1 (Tm 0 2 Tl) Fn))))) (Fc 1 2 (Tm 0 2 (Tt (Fc 1 0 (Tm 2 0 Tl) (Fc 2 0 (Tm 2 1 Tl) (Fc 2 1 (Tm 2 0 Tl) Fn))))) (Fc 2 0 (Tm 2 1 Tl) (Fc 2 1 (Tm 2 0 (Tt (Fc 0 2 (Tm 1 2 (Tt (Fc 1 0 Tl Fn))) (Fc 1 0 (Tm 0 2 Tl) (Fc 1 2 (Tm 0 2 Tl) Fn))))) Fn))))))) Fn)))))))))

def certD_1 : GTree :=
  (Tm 0 0 (Tt (Fc 0 2 (Tm 1 0 (Tt (Fc 1 1 (Tm 2 0 Tl) (Fc 1 2 (Tm 2 0 Tl) (Fc 2 0 (Tm 1 1 (Tt (Fc 1 2 (Tm 2 2 Tl) (Fc 2 1 (Tm 1 2 Tl) (Fc 2 2 (Tm 1 2 Tl) Fn))))) (Fc 2 1 (Tm 1 1 (Tt (Fc 1 2 (Tm 2 0 Tl) (Fc 2 0 (Tm 1 2 Tl) (Fc 2 2 (Tm 1 2 Tl) Fn))))) (Fc 2 2 (Tm 1 2 (Tt (Fc 1 1 (Tm 2 0 Tl) (Fc 2 0 (Tm 1 1 Tl) (Fc 2 1 (Tm 1 1 Tl) Fn))))) Fn))))))) (Fc 1 0 (Tm 1 1 (Tt (Fc 0 2 (Tm 2 2 Tl) (Fc 1 2 (Tm 0 2 (Tt (Fc 2 0 (Tm 2 2 Tl) (Fc 2 1 (Tm 2 0 Tl) (Fc 2 2 (Tm 2 0 Tl) Fn))))) (Fc 2 0 (Tm 2 2 Tl) (Fc 2 1 (Tm 0 2 (Tt (Fc 1 2 (Tm 2 0 Tl) (Fc 2 0 (Tm 2 2 Tl) (Fc 2 2 (Tm 2 0 Tl) Fn))))) (Fc 2 2 (Tm 0 2 (Tt (Fc 1 2 (Tm 2 0 Tl) (Fc 2 0 (Tm 2 1 (Tt (Fc 1 2 Tl Fn))) (Fc 2 1 (Tm 2 0 Tl) Fn))))) Fn))))))) (Fc 1 1 (Tm 2 1 (Tt (Fc 0 2 (Tm 2 0 (Tt (Fc 1 0 (Tm 2 2 Tl) (Fc 1 2 (Tm 1 0 Tl) (Fc 2 2 (Tm 1 0 Tl) Fn))))) (Fc 1 0 (Tm 1 2 (Tt (Fc 0 2 (Tm 2 0 (Tt (Fc 2 2 Tl Fn))) (Fc 2 0 (Tm 0 2 (Tt (Fc 2 2 Tl Fn))) (Fc 2 2 (Tm 0 2 (Tt (Fc 2 0 Tl Fn))) Fn))))) (Fc 1 2 (Tm 1 0 (Tt (Fc 0 2 (Tm 2 0 Tl) (Fc 2 0 (Tm 0 2 (Tt (Fc 2 2 Tl Fn))) (Fc 2 2 (Tm 2 0 Tl) Fn))))) (Fc 2 0 (Tm 0 2 (Tt (Fc 1 0 (Tm 1 2 (Tt (Fc 2 2 Tl Fn))) (Fc 1 2 (Tm 1 0 (Tt (Fc 2 2 Tl Fn))) (Fc 2 2 (Tm 1 0 (Tt (Fc 1 2 Tl Fn))) Fn))))) (Fc 2 2 (Tm 0 2 (Tt (Fc 1 0 (Tm 1 2 (Tt (Fc 2 0 Tl Fn))) (Fc 1 2 (Tm 1 0 (Tt (Fc 2 0 Tl Fn))) (Fc 2 0 (Tm 1 0 (Tt (Fc 1 2 Tl Fn))) Fn))))) Fn))))))) (Fc 1 2 (Tm 2 0 (Tt (Fc 0 2 (Tm 1 0 Tl) (Fc 1 0 (Tm 1 1 (Tt (Fc 0 2 (Tm 2 2 Tl) (Fc 2 1 (Tm 0 2 Tl) (Fc 2 2 (Tm 0 2 Tl) Fn))))) (Fc 1 1 (Tm 1 0 Tl) (Fc 2 1 (Tm 1 0 Tl) (Fc 2 2 (Tm 0 2 (Tt (Fc 1 0 (Tm 1 1 Tl) (Fc 1 1 (Tm 1 0 Tl) (Fc 2 1 (Tm 1 0 Tl) Fn))))) Fn))))))) (Fc 2 0 (Tm 1 1 (Tt (Fc 0 2 (Tm 1 0 (Tt (Fc 1 2 (Tm 2 2 Tl) (Fc 2 1 (Tm 1 2 Tl) (Fc 2 2 (Tm 1 2 Tl) Fn))))) (Fc 1 0 (Tm 2 2 Tl) (Fc 1 2 (Tm 2 2 Tl) (Fc 2 1 (Tm 2 2 Tl) (Fc 2 2 (Tm 2 1 (Tt (Fc 0 2 (Tm 1 2 (Tt (Fc 1 0 Tl Fn))) (Fc 1 0 (Tm 0 2 (Tt (Fc 1 2 Tl Fn))) (Fc 1 2 (Tm 0 2 (Tt (Fc 1 0 Tl Fn))) Fn))))) Fn))))))) (Fc 2 1 (Tm 1 1 (Tt (Fc 0 2 (Tm 1 0 (Tt (Fc 1 2 (Tm 2 0 Tl) (Fc 2 0 (Tm 1 2 Tl) (Fc 2 2 (Tm 1 2 Tl) Fn))))) (Fc 1 0 (Tm 0 2 (Tt (Fc 1 2 (Tm 2 0 Tl) (Fc 2 0 (Tm 2 2 Tl) (Fc 2 2 (Tm 2 0 Tl) Fn))))) (Fc 1 2 (Tm 0 2 (Tt (Fc 1 0 (Tm 2 0 Tl) (Fc 2 0 (Tm 2 2 Tl) (Fc 2 2 (Tm 2 0 Tl) Fn))))) (Fc 2 0 (Tm 2 2 Tl) (Fc 2 2 (Tm 2 0 (Tt (Fc 0 2 (Tm 1 0 Tl) (Fc 1 0 (Tm 0 2 Tl) (Fc 1 2 (Tm 0 2 Tl) Fn))))) Fn))))))) (Fc 2 2 (Tm 1 1 (Tt (Fc 0 2 (Tm 1 2 (Tt (Fc 1 0 (Tm 2 0 (Tt (Fc 2 1 Tl Fn))) (Fc 2 0 (Tm 1 0 Tl) (Fc 2 1 (Tm 1 0 Tl) Fn))))) (Fc 1 0 (Tm 0 2 (Tt (Fc 1 2 (Tm 2 0 Tl) (Fc 2 0 (Tm 2 1 (Tt (Fc 1 2 Tl Fn))) (Fc 2 1 (Tm 2 0 Tl) Fn))))) (Fc 1 2 (Tm 0 2 (Tt (Fc 1 0 (Tm 2 0 Tl) (Fc 2 0 (Tm 2 1 (Tt (Fc 1 0 Tl Fn))) (Fc 2 1 (Tm 2 0 Tl) Fn))))) (Fc 2 0 (Tm 2 1 (Tt (Fc 0 2 (Tm 1 2 (Tt (Fc 1 0 Tl Fn))) (Fc 1 0 (Tm 0 2 (Tt (Fc 1 2 Tl Fn))) (Fc 1 2 (Tm 0 2 (Tt (Fc 1 0 Tl Fn))) Fn))))) (Fc 2 1 (Tm 2 0 (Tt (Fc 0 2 (Tm 1 0 Tl) (Fc 1 0 (Tm 0 2 Tl) (Fc 1 2 (Tm 0 2 Tl) Fn))))) Fn))))))) Fn)))))))))

def certD_2 : GTree :=
  (Tm 1 1 (Tt (Fc 0 0 (Tm 0 1 (Tt (Fc 1 0 (Tm 2 1 Tl) (Fc 1 2 (Tm 2 1 Tl) (Fc 2 0 (Tm 1 0 (Tt (Fc 1 2 (Tm 2 1 Tl) (Fc 2 1 (Tm 1 2 Tl) (Fc 2 2 (Tm 1 2 Tl) Fn))))) (Fc 2 1 (Tm 1 0 (Tt (Fc 1 2 (Tm 2 2 (Tt (Fc 2 0 Tl Fn))) (Fc 2 0 (Tm 1 2 Tl) (Fc 2 2 (Tm 1 2 Tl) Fn))))) (Fc 2 2 (Tm 1 2 (Tt (Fc 1 0 (Tm 2 1 Tl) (Fc 2 0 (Tm 1 0 Tl) (Fc 2 1 (Tm 1 0 Tl) Fn))))) Fn))))))) (Fc 0 1 (Tm 0 0 (Tt (Fc 1 0 (Tm 2 2 Tl) (Fc 1 2 (Tm 2 2 Tl) (Fc 2 0 (Tm 1 0 (Tt (Fc 1 2 (Tm 2 2 Tl) (Fc 2 1 (Tm 1 2 Tl) (Fc 2 2 (Tm 1 2 Tl) Fn))))) (Fc 2 1 (Tm 1 0 (Tt (Fc 1 2 (Tm 2 0 Tl) (Fc 2 0 (Tm 1 2 Tl) (Fc 2 2 (Tm 1 2 Tl) Fn))))) (Fc 2 2 (Tm 1 2 (Tt (Fc 1 0 (Tm 2 0 (Tt (Fc 2 1 Tl Fn))) (Fc 2 0 (Tm 1 0 Tl) (Fc 2 1 (Tm 1 0 Tl) Fn))))) Fn))))))) (Fc 1 0 (Tm 0 0 (Tt (Fc 0 1 (Tm 2 2 Tl) (Fc 1 2 (Tm 2 2 Tl) (Fc 2 0 (Tm 0 1 (Tt (Fc 1 2 (Tm 2 1 Tl) (Fc 2 1 (Tm 2 2 Tl) (Fc 2 2 (Tm 2 1 Tl) Fn))))) (Fc 2 1 (Tm 2 2 Tl) (Fc 2 2 (Tm 1 2 (Tt (Fc 0 1 (Tm 2 0 (Tt (Fc 2 1 Tl Fn))) (Fc 2 0 (Tm 2 1 (Tt (Fc 0 1 Tl Fn))) (Fc 2 1 (Tm 2 0 (Tt (Fc 0 1 Tl Fn))) Fn))))) Fn))))))) (Fc 1 2 (Tm 2 2 (Tt (Fc 0 0 (Tm 0 1 (Tt (Fc 1 0 (Tm 2 1 Tl) (Fc 2 0 (Tm 2 1 Tl) (Fc 2 1 (Tm 1 0 (Tt (Fc 2 0 Tl Fn))) Fn))))) (Fc 0 1 (Tm 0 0 Tl) (Fc 1 0 (Tm 0 0 Tl) (Fc 2 0 (Tm 0 0 Tl) (Fc 2 1 (Tm 0 0 Tl) Fn))))))) (Fc 2 0 (Tm 0 1 (Tt (Fc 0 0 (Tm 1 0 (Tt (Fc 1 2 (Tm 2 1 Tl) (Fc 2 1 (Tm 1 2 Tl) (Fc 2 2 (Tm 1 2 Tl) Fn))))) (Fc 1 0 (Tm 0 0 (Tt (Fc 1 2 (Tm 2 1 Tl) (Fc 2 1 (Tm 2 2 Tl) (Fc 2 2 (Tm 2 1 Tl) Fn))))) (Fc 1 2 (Tm 2 1 Tl) (Fc 2 1 (Tm 2 2 (Tt (Fc 0 0 (Tm 1 0 (Tt (Fc 1 2 Tl Fn))) (Fc 1 0 (Tm 0 0 Tl) (Fc 1 2 (Tm 0 0 Tl) Fn))))) (Fc 2 2 (Tm 2 1 Tl) Fn))))))) (Fc 2 1 (Tm 1 0 (Tt (Fc 0 0 (Tm 1 2 Tl) (Fc 0 1 (Tm 0 0 (Tt (Fc 1 2 (Tm 2 0 Tl) (Fc 2 0 (Tm 1 2 Tl) (Fc 2 2 (Tm 1 2 Tl) Fn))))) (Fc 1 2 (Tm 2 2 (Tt (Fc 0 0 (Tm 0 1 (Tt (Fc 2 0 Tl Fn))) (Fc 0 1 (Tm 0 0 Tl) (Fc 2 0 (Tm 0 0 Tl) Fn))))) (Fc 2 0 (Tm 1 2 Tl) (Fc 2 2 (Tm 1 2 Tl) Fn))))))) (Fc 2 2 (Tm 1 2 (Tt (Fc 0 0 (Tm 0 1 (Tt (Fc 1 0 (Tm 2 1 Tl) (Fc 2 0 (Tm 1 0 Tl) (Fc 2 1 (Tm 1 0 Tl) Fn))))) (Fc 0 1 (Tm 1 0 Tl) (Fc 1 0 (Tm 0 0 (Tt (Fc 0 1 (Tm 2 0 (Tt (Fc 2 1 Tl Fn))) (Fc 2 0 (Tm 2 1 (Tt (Fc 0 1 Tl Fn))) (Fc 2 1 (Tm 2 0 (Tt (Fc 0 1 Tl Fn))) Fn))))) (Fc 2 0 (Tm 1 0 Tl) (Fc 2 1 (Tm 1 0 Tl) Fn))))))) Fn)))))))))

def certD_3 : GTree :=
  (Tm 0 0 (Tt (Fc 0 1 (Tm 1 1 (Tt (Fc 0 2 (Tm 2 2 Tl) (Fc 1 2 (Tm 0 2 (Tt (Fc 2 0 (Tm 2 2 Tl) (Fc 2 1 (Tm 2 0 Tl) (Fc 2 2 (Tm 2 0 Tl) Fn))))) (Fc 2 0 (Tm 2 2 Tl) (Fc 2 1 (Tm 0 2 (Tt (Fc 1 2 (Tm 2 0 Tl) (Fc 2 0 (Tm 2 2 Tl) (Fc 2 2 (Tm 2 0 Tl) Fn))))) (Fc 2 2 (Tm 0 2 (Tt (Fc 1 2 (Tm 2 0 Tl) (Fc 2 0 (Tm 2 1 (Tt (Fc 1 2 Tl Fn))) (Fc 2 1 (Tm 2 0 Tl) Fn))))) Fn))))))) (Fc 0 2 (Tm 1 1 (Tt (Fc 0 1 (Tm 2 2 Tl) (Fc 1 2 (Tm 2 2 Tl) (Fc 2 0 (Tm 0 1 (Tt (Fc 1 2 (Tm 2 1 Tl) (Fc 2 1 (Tm 2 2 Tl) (Fc 2 2 (Tm 2 1 Tl) Fn))))) (Fc 2 1 (Tm 2 2 Tl) (Fc 2 2 (Tm 1 2 (Tt (Fc 0 1 (Tm 2 0 (Tt (Fc 2 1 Tl Fn))) (Fc 2 0 (Tm 2 1 (Tt (Fc 0 1 Tl Fn))) (Fc 2 1 (Tm 2 0 (Tt (Fc 0 1 Tl Fn))) Fn))))) Fn))))))) (Fc 1 1 (Tm 1 2 (Tt (Fc 0 1 (Tm 2 1 (Tt (Fc 0 2 (Tm 2 0 (Tt (Fc 2 2 Tl Fn))) (Fc 2 0 (Tm 0 2 (Tt (Fc 2 2 Tl Fn))) (Fc 2 2 (Tm 0 2 (Tt (Fc 2 0 Tl Fn))) Fn))))) (Fc 0 2 (Tm 2 0 (Tt (Fc 0 1 (Tm 2 1 (Tt (Fc 2 2 Tl Fn))) (Fc 2 1 (Tm 0 1 (Tt (Fc 2 2 Tl Fn))) (Fc 2 2 (Tm 0 1 (Tt (Fc 2 1 Tl Fn))) Fn))))) (Fc 2 0 (Tm 0 2 (Tt (Fc 0 1 (Tm 2 2 Tl) (Fc 2 1 (Tm 0 1 Tl) (Fc 2 2 (Tm 0 1 Tl) Fn))))) (Fc 2 1 (Tm 0 1 (Tt (Fc 0 2 (Tm 2 0 (Tt (Fc 2 2 Tl Fn))) (Fc 2 0 (Tm 0 2 Tl) (Fc 2 2 (Tm 0 2 Tl) Fn))))) (Fc 2 2 (Tm 0 1 (Tt (Fc 0 2 (Tm 2 0 (Tt (Fc 2 1 Tl Fn))) (Fc 2 0 (Tm 0 2 Tl) (Fc 2 1 (Tm 0 2 Tl) Fn))))) Fn))))))) (Fc 1 2 (Tm 1 1 (Tt (Fc 0 1 (Tm 0 2 (Tt (Fc 2 0 (Tm 2 2 Tl) (Fc 2 1 (Tm 2 0 Tl) (Fc 2 2 (Tm 2 0 Tl) Fn))))) (Fc 0 2 (Tm 2 2 Tl) (Fc 2 0 (Tm 0 1 (Tt (Fc 0 2 (Tm 2 1 Tl) (Fc 2 1 (Tm 0 2 Tl) (Fc 2 2 (Tm 0 2 Tl) Fn))))) (Fc 2 1 (Tm 0 1 (Tt (Fc 0 2 (Tm 2 2 Tl) (Fc 2 0 (Tm 0 2 Tl) (Fc 2 2 (Tm 0 2 Tl) Fn))))) (Fc 2 2 (Tm 0 2 (Tt (Fc 0 1 (Tm 2 0 Tl) (Fc 2 0 (Tm 0 1 Tl) (Fc 2 1 (Tm 0 1 Tl) Fn))))) Fn))))))) (Fc 2 0 (Tm 0 1 (Tt (Fc 0 2 (Tm 1 1 (Tt (Fc 1 2 (Tm 2 1 Tl) (Fc 2 1 (Tm 2 2 Tl) (Fc 2 2 (Tm 2 1 Tl) Fn))))) (Fc 1 1 (Tm 0 2 Tl) (Fc 1 2 (Tm 0 2 Tl) (Fc 2 1 (Tm 0 2 Tl) (Fc 2 2 (Tm 0 2 Tl) Fn))))))) (Fc 2 1 (Tm 0 2 (Tt (Fc 0 1 (Tm 1 1 (Tt (Fc 1 2 (Tm 2 0 Tl) (Fc 2 0 (Tm 2 2 Tl) (Fc 2 2 (Tm 2 0 Tl) Fn))))) (Fc 1 1 (Tm 0 1 Tl) (Fc 1 2 (Tm 0 1 Tl) (Fc 2 0 (Tm 0 1 Tl) (Fc 2 2 (Tm 0 1 Tl) Fn))))))) (Fc 2 2 (Tm 0 2 (Tt (Fc 0 1 (Tm 1 1 (Tt (Fc 1 2 (Tm 2 0 Tl) (Fc 2 0 (Tm 2 1 (Tt (Fc 1 2 Tl Fn))) (Fc 2 1 (Tm 2 0 Tl) Fn))))) (Fc 1 1 (Tm 0 1 Tl) (Fc 1 2 (Tm 0 1 Tl) (Fc 2 0 (Tm 0 1 Tl) (Fc 2 1 (Tm 0 1 Tl) Fn))))))) Fn)))))))))

def certD_4 : GTree :=
  (Tm 0 0 (Tt (Fc 0 1 (Tm 2 1 (Tt (Fc 0 2 (Tm 2 0 (Tt (Fc 1 0 (Tm 2 2 Tl) (Fc 1 2 (Tm 1 0 Tl) (Fc 2 2 (Tm 1 0 Tl) Fn))))) (Fc 1 0 (Tm 1 2 (Tt (Fc 0 2 (Tm 2 0 (Tt (Fc 2 2 Tl Fn))) (Fc 2 0 (Tm 0 2 (Tt (Fc 2 2 Tl Fn))) (Fc 2 2 (Tm 0 2 (Tt (Fc 2 0 Tl Fn))) Fn))))) (Fc 1 2 (Tm 1 0 (Tt (Fc 0 2 (Tm 2 0 Tl) (Fc 2 0 (Tm 0 2 (Tt (Fc 2 2 Tl Fn))) (Fc 2 2 (Tm 2 0 Tl) Fn))))) (Fc 2 0 (Tm 0 2 (Tt (Fc 1 0 (Tm 1 2 (Tt (Fc 2 2 Tl Fn))) (Fc 1 2 (Tm 1 0 (Tt (Fc 2 2 Tl Fn))) (Fc 2 2 (Tm 1 0 (Tt (Fc 1 2 Tl Fn))) Fn))))) (Fc 2 2 (Tm 0 2 (Tt (Fc 1 0 (Tm 1 2 (Tt (Fc 2 0 Tl Fn))) (Fc 1 2 (Tm 1 0 (Tt (Fc 2 0 Tl Fn))) (Fc 2 0 (Tm 1 0 (Tt (Fc 1 2 Tl Fn))) Fn))))) Fn))))))) (Fc 0 2 (Tm 2 0 (Tt (Fc 0 1 (Tm 1 0 Tl) (Fc 1 0 (Tm 1 2 (Tt (Fc 0 1 (Tm 2 1 (Tt (Fc 2 2 Tl Fn))) (Fc 2 1 (Tm 0 1 (Tt (Fc 2 2 Tl Fn))) (Fc 2 2 (Tm 0 1 (Tt (Fc 2 1 Tl Fn))) Fn))))) (Fc 1 2 (Tm 1 0 Tl) (Fc 2 1 (Tm 1 0 Tl) (Fc 2 2 (Tm 1 0 Tl) Fn))))))) (Fc 1 0 (Tm 1 2 (Tt (Fc 0 1 (Tm 2 1 (Tt (Fc 0 2 (Tm 2 0 (Tt (Fc 2 2 Tl Fn))) (Fc 2 0 (Tm 0 2 (Tt (Fc 2 2 Tl Fn))) (Fc 2 2 (Tm 0 2 (Tt (Fc 2 0 Tl Fn))) Fn))))) (Fc 0 2 (Tm 2 0 (Tt (Fc 0 1 (Tm 2 1 (Tt (Fc 2 2 Tl Fn))) (Fc 2 1 (Tm 0 1 (Tt (Fc 2 2 Tl Fn))) (Fc 2 2 (Tm 0 1 (Tt (Fc 2 1 Tl Fn))) Fn))))) (Fc 2 0 (Tm 0 2 (Tt (Fc 0 1 (Tm 2 2 Tl) (Fc 2 1 (Tm 0 1 Tl) (Fc 2 2 (Tm 0 1 Tl) Fn))))) (Fc 2 1 (Tm 0 1 (Tt (Fc 0 2 (Tm 2 0 (Tt (Fc 2 2 Tl Fn))) (Fc 2 0 (Tm 0 2 Tl) (Fc 2 2 (Tm 0 2 Tl) Fn))))) (Fc 2 2 (Tm 0 1 (Tt (Fc 0 2 (Tm 2 0 (Tt (Fc 2 1 Tl Fn))) (Fc 2 0 (Tm 0 2 Tl) (Fc 2 1 (Tm 0 2 Tl) Fn))))) Fn))))))) (Fc 1 2 (Tm 1 0 (Tt (Fc 0 1 (Tm 2 0 Tl) (Fc 0 2 (Tm 2 0 Tl) (Fc 2 0 (Tm 0 2 (Tt (Fc 0 1 (Tm 2 1 (Tt (Fc 2 2 Tl Fn))) (Fc 2 1 (Tm 0 1 Tl) (Fc 2 2 (Tm 0 1 Tl) Fn))))) (Fc 2 1 (Tm 0 1 (Tt (Fc 0 2 (Tm 2 0 Tl) (Fc 2 0 (Tm 0 2 Tl) (Fc 2 2 (Tm 0 2 Tl) Fn))))) (Fc 2 2 (Tm 0 2 (Tt (Fc 0 1 (Tm 2 0 Tl) (Fc 2 0 (Tm 0 1 Tl) (Fc 2 1 (Tm 0 1 Tl) Fn))))) Fn))))))) (Fc 2 0 (Tm 0 2 (Tt (Fc 0 1 (Tm 2 1 (Tt (Fc 1 0 (Tm 1 2 (Tt (Fc 2 2 Tl Fn))) (Fc 1 2 (Tm 1 0 (Tt (Fc 2 2 Tl Fn))) (Fc 2 2 (Tm 1 0 (Tt (Fc 1 2 Tl Fn))) Fn))))) (Fc 1 0 (Tm 0 1 Tl) (Fc 1 2 (Tm 0 1 Tl) (Fc 2 1 (Tm 0 1 Tl) (Fc 2 2 (Tm 0 1 Tl) Fn))))))) (Fc 2 1 (Tm 0 1 (Tt (Fc 0 2 (Tm 2 0 (Tt (Fc 1 0 (Tm 1 2 (Tt (Fc 2 2 Tl Fn))) (Fc 1 2 (Tm 1 0 Tl) (Fc 2 2 (Tm 1 0 Tl) Fn))))) (Fc 1 0 (Tm 0 2 Tl) (Fc 1 2 (Tm 0 2 Tl) (Fc 2 0 (Tm 0 2 Tl) (Fc 2 2 (Tm 0 2 Tl) Fn))))))) (Fc 2 2 (Tm 0 2 (Tt (Fc 0 1 (Tm 2 1 (Tt (Fc 1 0 (Tm 1 2 (Tt (Fc 2 0 Tl Fn))) (Fc 1 2 (Tm 1 0 (Tt (Fc 2 0 Tl Fn))) (Fc 2 0 (Tm 1 0 (Tt (Fc 1 2 Tl Fn))) Fn))))) (Fc 1 0 (Tm 0 1 Tl) (Fc 1 2 (Tm 0 1 Tl) (Fc 2 0 (Tm 0 1 Tl) (Fc 2 1 (Tm 0 1 Tl) Fn))))))) Fn)))))))))

def certD_5 : GTree :=
  (Tm 0 2 (Tt (Fc 0 0 (Tm 1 0 (Tt (Fc 0 1 (Tm 1 1 (Tt (Fc 2 0 (Tm 2 1 (Tt (Fc 2 2 Tl Fn))) (Fc 2 1 (Tm 2 0 Tl) (Fc 2 2 (Tm 2 0 Tl) Fn))))) (Fc 1 1 (Tm 2 2 (Tt (Fc 0 1 (Tm 2 1 (Tt (Fc 2 0 Tl Fn))) (Fc 2 0 (Tm 0 1 (Tt (Fc 2 1 Tl Fn))) (Fc 2 1 (Tm 0 1 (Tt (Fc 2 0 Tl Fn))) Fn))))) (Fc 2 0 (Tm 1 1 (Tt (Fc 0 1 (Tm 2 1 (Tt (Fc 2 2 Tl Fn))) (Fc 2 1 (Tm 2 2 (Tt (Fc 0 1 Tl Fn))) (Fc 2 2 (Tm 2 1 (Tt (Fc 0 1 Tl Fn))) Fn))))) (Fc 2 1 (Tm 1 1 (Tt (Fc 0 1 (Tm 2 0 Tl) (Fc 2 0 (Tm 2 2 (Tt (Fc 0 1 Tl Fn))) (Fc 2 2 (Tm 2 0 Tl) Fn))))) (Fc 2 2 (Tm 1 1 (Tt (Fc 0 1 (Tm 2 0 Tl) (Fc 2 0 (Tm 2 1 (Tt (Fc 0 1 Tl Fn))) (Fc 2 1 (Tm 2 0 Tl) Fn))))) Fn))))))) (Fc 0 1 (Tm 1 0 (Tt (Fc 0 0 (Tm 1 1 (Tt (Fc 2 0 (Tm 2 1 (Tt (Fc 2 2 Tl Fn))) (Fc 2 1 (Tm 2 0 Tl) (Fc 2 2 (Tm 2 0 Tl) Fn))))) (Fc 1 1 (Tm 2 1 (Tt (Fc 0 0 (Tm 2 2 (Tt (Fc 2 0 Tl Fn))) (Fc 2 0 (Tm 0 0 (Tt (Fc 2 2 Tl Fn))) (Fc 2 2 (Tm 0 0 (Tt (Fc 2 0 Tl Fn))) Fn))))) (Fc 2 0 (Tm 1 1 (Tt (Fc 0 0 (Tm 2 1 (Tt (Fc 2 2 Tl Fn))) (Fc 2 1 (Tm 2 2 (Tt (Fc 0 0 Tl Fn))) (Fc 2 2 (Tm 2 1 (Tt (Fc 0 0 Tl Fn))) Fn))))) (Fc 2 1 (Tm 1 1 (Tt (Fc 0 0 (Tm 2 0 Tl) (Fc 2 0 (Tm 2 2 (Tt (Fc 0 0 Tl Fn))) (Fc 2 2 (Tm 2 0 Tl) Fn))))) (Fc 2 2 (Tm 2 0 (Tt (Fc 0 0 (Tm 1 1 Tl) (Fc 1 1 (Tm 0 0 Tl) (Fc 2 1 (Tm 0 0 Tl) Fn))))) Fn))))))) (Fc 1 0 (Tm 1 1 (Tt (Fc 0 0 (Tm 2 0 Tl) (Fc 0 1 (Tm 0 0 (Tt (Fc 2 0 (Tm 2 2 Tl) (Fc 2 1 (Tm 2 0 Tl) (Fc 2 2 (Tm 2 0 Tl) Fn))))) (Fc 2 0 (Tm 0 0 (Tt (Fc 0 1 (Tm 2 2 Tl) (Fc 2 1 (Tm 0 1 Tl) (Fc 2 2 (Tm 0 1 Tl) Fn))))) (Fc 2 1 (Tm 0 0 (Tt (Fc 0 1 (Tm 2 0 Tl) (Fc 2 0 (Tm 0 1 Tl) (Fc 2 2 (Tm 0 1 Tl) Fn))))) (Fc 2 2 (Tm 0 0 (Tt (Fc 0 1 (Tm 2 0 Tl) (Fc 2 0 (Tm 0 1 Tl) (Fc 2 1 (Tm 0 1 Tl) Fn))))) Fn))))))) (Fc 1 1 (Tm 1 0 (Tt (Fc 0 0 (Tm 2 2 (Tt (Fc 0 1 (Tm 2 1 (Tt (Fc 2 0 Tl Fn))) (Fc 2 0 (Tm 0 1 (Tt (Fc 2 1 Tl Fn))) (Fc 2 1 (Tm 0 1 (Tt (Fc 2 0 Tl Fn))) Fn))))) (Fc 0 1 (Tm 2 1 (Tt (Fc 0 0 (Tm 2 2 (Tt (Fc 2 0 Tl Fn))) (Fc 2 0 (Tm 0 0 (Tt (Fc 2 2 Tl Fn))) (Fc 2 2 (Tm 0 0 (Tt (Fc 2 0 Tl Fn))) Fn))))) (Fc 2 0 (Tm 0 0 (Tt (Fc 0 1 (Tm 2 1 (Tt (Fc 2 2 Tl Fn))) (Fc 2 1 (Tm 0 1 Tl) (Fc 2 2 (Tm 0 1 Tl) Fn))))) (Fc 2 1 (Tm 0 1 (Tt (Fc 0 0 (Tm 2 2 (Tt (Fc 2 0 Tl Fn))) (Fc 2 0 (Tm 0 0 Tl) (Fc 2 2 (Tm 0 0 Tl) Fn))))) (Fc 2 2 (Tm 0 0 (Tt (Fc 0 1 (Tm 2 0 Tl) (Fc 2 0 (Tm 0 1 Tl) (Fc 2 1 (Tm 0 1 Tl) Fn))))) Fn))))))) (Fc 2 0 (Tm 0 0 (Tt (Fc 0 1 (Tm 1 1 (Tt (Fc 1 0 (Tm 2 2 Tl) (Fc 2 1 (Tm 2 2 Tl) (Fc 2 2 (Tm 2 1 (Tt (Fc 1 0 Tl Fn))) Fn))))) (Fc 1 0 (Tm 0 1 Tl) (Fc 1 1 (Tm 0 1 Tl) (Fc 2 1 (Tm 0 1 Tl) (Fc 2 2 (Tm 0 1 Tl) Fn))))))) (Fc 2 1 (Tm 0 0 (Tt (Fc 0 1 (Tm 1 1 (Tt (Fc 1 0 (Tm 2 0 Tl) (Fc 2 0 (Tm 2 2 Tl) (Fc 2 2 (Tm 2 0 Tl) Fn))))) (Fc 1 0 (Tm 0 1 Tl) (Fc 1 1 (Tm 0 1 Tl) (Fc 2 0 (Tm 0 1 Tl) (Fc 2 2 (Tm 0 1 Tl) Fn))))))) (Fc 2 2 (Tm 0 0 (Tt (Fc 0 1 (Tm 2 0 (Tt (Fc 1 0 (Tm 1 1 Tl) (Fc 1 1 (Tm 1 0 Tl) (Fc 2 1 (Tm 1 0 Tl) Fn))))) (Fc 1 0 (Tm 0 1 Tl) (Fc 1 1 (Tm 0 1 Tl) (Fc 2 0 (Tm 0 1 Tl) (Fc 2 1 (Tm 0 1 Tl) Fn))))))) Fn)))))))))

def certD_6 : GTree :=
  (Tm 1 1 (Tt (Fc 0 0 (Tm 1 0 (Tt (Fc 0 1 (Tm 1 2 Tl) (Fc 0 2 (Tm 0 1 (Tt (Fc 1 2 (Tm 2 1 Tl) (Fc 2 1 (Tm 1 2 Tl) (Fc 2 2 (Tm 1 2 Tl) Fn))))) (Fc 1 2 (Tm 0 1 (Tt (Fc 0 2 (Tm 2 1 Tl) (Fc 2 1 (Tm 2 2 (Tt (Fc 0 2 Tl Fn))) (Fc 2 2 (Tm 2 1 Tl) Fn))))) (Fc 2 1 (Tm 1 2 Tl) (Fc 2 2 (Tm 1 2 Tl) Fn))))))) (Fc 0 1 (Tm 0 0 (Tt (Fc 0 2 (Tm 1 0 (Tt (Fc 1 2 (Tm 2 2 Tl) (Fc 2 1 (Tm 1 2 Tl) (Fc 2 2 (Tm 1 2 Tl) Fn))))) (Fc 1 0 (Tm 2 2 Tl) (Fc 1 2 (Tm 2 2 Tl) (Fc 2 1 (Tm 2 2 Tl) (Fc 2 2 (Tm 2 1 (Tt (Fc 0 2 (Tm 1 2 (Tt (Fc 1 0 Tl Fn))) (Fc 1 0 (Tm 0 2 (Tt (Fc 1 2 Tl Fn))) (Fc 1 2 (Tm 0 2 (Tt (Fc 1 0 Tl Fn))) Fn))))) Fn))))))) (Fc 0 2 (Tm 0 1 (Tt (Fc 0 0 (Tm 1 0 (Tt (Fc 1 2 (Tm 2 1 Tl) (Fc 2 1 (Tm 1 2 Tl) (Fc 2 2 (Tm 1 2 Tl) Fn))))) (Fc 1 0 (Tm 0 0 (Tt (Fc 1 2 (Tm 2 1 Tl) (Fc 2 1 (Tm 2 2 Tl) (Fc 2 2 (Tm 2 1 Tl) Fn))))) (Fc 1 2 (Tm 2 1 Tl) (Fc 2 1 (Tm 2 2 (Tt (Fc 0 0 (Tm 1 0 (Tt (Fc 1 2 Tl Fn))) (Fc 1 0 (Tm 0 0 Tl) (Fc 1 2 (Tm 0 0 Tl) Fn))))) (Fc 2 2 (Tm 2 1 Tl) Fn))))))) (Fc 1 0 (Tm 0 0 (Tt (Fc 0 1 (Tm 2 2 Tl) (Fc 0 2 (Tm 0 1 (Tt (Fc 1 2 (Tm 2 1 Tl) (Fc 2 1 (Tm 2 2 Tl) (Fc 2 2 (Tm 2 1 Tl) Fn))))) (Fc 1 2 (Tm 0 1 (Tt (Fc 0 2 (Tm 2 1 Tl) (Fc 2 1 (Tm 0 2 Tl) (Fc 2 2 (Tm 0 2 Tl) Fn))))) (Fc 2 1 (Tm 2 2 Tl) (Fc 2 2 (Tm 2 1 (Tt (Fc 0 1 (Tm 0 2 (Tt (Fc 1 2 Tl Fn))) (Fc 0 2 (Tm 0 1 Tl) (Fc 1 2 (Tm 0 1 Tl) Fn))))) Fn))))))) (Fc 1 2 (Tm 0 1 (Tt (Fc 0 0 (Tm 2 1 Tl) (Fc 0 2 (Tm 2 1 Tl) (Fc 1 0 (Tm 0 0 (Tt (Fc 0 2 (Tm 2 1 Tl) (Fc 2 1 (Tm 0 2 Tl) (Fc 2 2 (Tm 0 2 Tl) Fn))))) (Fc 2 1 (Tm 2 2 (Tt (Fc 0 0 (Tm 1 0 (Tt (Fc 0 2 Tl Fn))) (Fc 0 2 (Tm 0 0 Tl) (Fc 1 0 (Tm 0 0 Tl) Fn))))) (Fc 2 2 (Tm 2 1 Tl) Fn))))))) (Fc 2 1 (Tm 2 2 (Tt (Fc 0 0 (Tm 1 0 (Tt (Fc 0 1 (Tm 1 2 Tl) (Fc 0 2 (Tm 1 2 Tl) (Fc 1 2 (Tm 0 1 (Tt (Fc 0 2 Tl Fn))) Fn))))) (Fc 0 1 (Tm 0 0 Tl) (Fc 0 2 (Tm 0 0 Tl) (Fc 1 0 (Tm 0 0 Tl) (Fc 1 2 (Tm 0 0 Tl) Fn))))))) (Fc 2 2 (Tm 2 1 (Tt (Fc 0 0 (Tm 0 1 Tl) (Fc 0 1 (Tm 0 0 (Tt (Fc 0 2 (Tm 1 2 (Tt (Fc 1 0 Tl Fn))) (Fc 1 0 (Tm 0 2 (Tt (Fc 1 2 Tl Fn))) (Fc 1 2 (Tm 0 2 (Tt (Fc 1 0 Tl Fn))) Fn))))) (Fc 0 2 (Tm 0 1 Tl) (Fc 1 0 (Tm 0 1 Tl) (Fc 1 2 (Tm 0 1 Tl) Fn))))))) Fn)))))))))

def certD_7 : GTree :=
  (Tm 0 1 (Tt (Fc 0 0 (Tm 2 0 (Tt (Fc 0 2 (Tm 1 1 (Tt (Fc 1 0 (Tm 1 2 (Tt (Fc 2 2 Tl Fn))) (Fc 1 2 (Tm 2 2 (Tt (Fc 1 0 Tl Fn))) (Fc 2 2 (Tm 1 2 (Tt (Fc 1 0 Tl Fn))) Fn))))) (Fc 1 0 (Tm 1 1 (Tt (Fc 0 2 (Tm 1 2 (Tt (Fc 2 2 Tl Fn))) (Fc 1 2 (Tm 0 2 Tl) (Fc 2 2 (Tm 0 2 Tl) Fn))))) (Fc 1 1 (Tm 2 2 (Tt (Fc 0 2 (Tm 1 0 (Tt (Fc 1 2 Tl Fn))) (Fc 1 0 (Tm 1 2 (Tt (Fc 0 2 Tl Fn))) (Fc 1 2 (Tm 1 0 (Tt (Fc 0 2 Tl Fn))) Fn))))) (Fc 1 2 (Tm 1 1 (Tt (Fc 0 2 (Tm 2 2 (Tt (Fc 1 0 Tl Fn))) (Fc 1 0 (Tm 0 2 Tl) (Fc 2 2 (Tm 0 2 Tl) Fn))))) (Fc 2 2 (Tm 1 1 (Tt (Fc 0 2 (Tm 1 2 (Tt (Fc 1 0 Tl Fn))) (Fc 1 0 (Tm 0 2 Tl) (Fc 1 2 (Tm 0 2 Tl) Fn))))) Fn))))))) (Fc 0 2 (Tm 2 0 (Tt (Fc 0 0 (Tm 1 1 (Tt (Fc 1 0 (Tm 1 2 (Tt (Fc 2 2 Tl Fn))) (Fc 1 2 (Tm 2 2 (Tt (Fc 1 0 Tl Fn))) (Fc 2 2 (Tm 1 2 (Tt (Fc 1 0 Tl Fn))) Fn))))) (Fc 1 0 (Tm 1 1 (Tt (Fc 0 0 (Tm 1 2 (Tt (Fc 2 2 Tl Fn))) (Fc 1 2 (Tm 2 2 (Tt (Fc 0 0 Tl Fn))) (Fc 2 2 (Tm 1 2 (Tt (Fc 0 0 Tl Fn))) Fn))))) (Fc 1 1 (Tm 0 0 (Tt (Fc 1 0 (Tm 1 2 (Tt (Fc 2 2 Tl Fn))) (Fc 1 2 (Tm 1 0 Tl) (Fc 2 2 (Tm 1 0 Tl) Fn))))) (Fc 1 2 (Tm 2 2 (Tt (Fc 0 0 (Tm 1 0 (Tt (Fc 1 1 Tl Fn))) (Fc 1 0 (Tm 1 1 (Tt (Fc 0 0 Tl Fn))) (Fc 1 1 (Tm 1 0 (Tt (Fc 0 0 Tl Fn))) Fn))))) (Fc 2 2 (Tm 1 2 (Tt (Fc 0 0 (Tm 1 1 (Tt (Fc 1 0 Tl Fn))) (Fc 1 0 (Tm 0 0 (Tt (Fc 1 1 Tl Fn))) (Fc 1 1 (Tm 0 0 (Tt (Fc 1 0 Tl Fn))) Fn))))) Fn))))))) (Fc 1 0 (Tm 2 0 (Tt (Fc 0 0 (Tm 1 1 (Tt (Fc 0 2 (Tm 1 2 (Tt (Fc 2 2 Tl Fn))) (Fc 1 2 (Tm 0 2 Tl) (Fc 2 2 (Tm 0 2 Tl) Fn))))) (Fc 0 2 (Tm 1 1 (Tt (Fc 0 0 (Tm 1 2 (Tt (Fc 2 2 Tl Fn))) (Fc 1 2 (Tm 2 2 (Tt (Fc 0 0 Tl Fn))) (Fc 2 2 (Tm 1 2 (Tt (Fc 0 0 Tl Fn))) Fn))))) (Fc 1 1 (Tm 1 2 (Tt (Fc 0 0 (Tm 2 2 (Tt (Fc 0 2 Tl Fn))) (Fc 0 2 (Tm 0 0 (Tt (Fc 2 2 Tl Fn))) (Fc 2 2 (Tm 0 0 (Tt (Fc 0 2 Tl Fn))) Fn))))) (Fc 1 2 (Tm 1 1 (Tt (Fc 0 0 (Tm 0 2 Tl) (Fc 0 2 (Tm 2 2 (Tt (Fc 0 0 Tl Fn))) (Fc 2 2 (Tm 0 2 Tl) Fn))))) (Fc 2 2 (Tm 0 2 (Tt (Fc 0 0 (Tm 1 1 Tl) (Fc 1 1 (Tm 0 0 Tl) (Fc 1 2 (Tm 0 0 Tl) Fn))))) Fn))))))) (Fc 1 1 (Tm 0 0 (Tt (Fc 0 2 (Tm 2 0 (Tt (Fc 1 0 (Tm 1 2 (Tt (Fc 2 2 Tl Fn))) (Fc 1 2 (Tm 1 0 Tl) (Fc 2 2 (Tm 1 0 Tl) Fn))))) (Fc 1 0 (Tm 0 2 Tl) (Fc 1 2 (Tm 0 2 Tl) (Fc 2 0 (Tm 0 2 Tl) (Fc 2 2 (Tm 0 2 Tl) Fn))))))) (Fc 1 2 (Tm 2 0 (Tt (Fc 0 0 (Tm 1 1 (Tt (Fc 0 2 (Tm 2 2 (Tt (Fc 1 0 Tl Fn))) (Fc 1 0 (Tm 0 2 Tl) (Fc 2 2 (Tm 0 2 Tl) Fn))))) (Fc 0 2 (Tm 2 2 (Tt (Fc 0 0 (Tm 1 0 (Tt (Fc 1 1 Tl Fn))) (Fc 1 0 (Tm 1 1 (Tt (Fc 0 0 Tl Fn))) (Fc 1 1 (Tm 1 0 (Tt (Fc 0 0 Tl Fn))) Fn))))) (Fc 1 0 (Tm 1 1 (Tt (Fc 0 0 (Tm 0 2 Tl) (Fc 0 2 (Tm 2 2 (Tt (Fc 0 0 Tl Fn))) (Fc 2 2 (Tm 0 2 Tl) Fn))))) (Fc 1 1 (Tm 1 0 (Tt (Fc 0 0 (Tm 2 2 (Tt (Fc 0 2 Tl Fn))) (Fc 0 2 (Tm 0 0 Tl) (Fc 2 2 (Tm 0 0 Tl) Fn))))) (Fc 2 2 (Tm 0 2 (Tt (Fc 0 0 (Tm 1 1 Tl) (Fc 1 0 (Tm 0 0 Tl) (Fc 1 1 (Tm 0 0 Tl) Fn))))) Fn))))))) (Fc 2 0 (Tm 2 2 (Tt (Fc 0 0 (Tm 1 0 (Tt (Fc 0 2 (Tm 1 1 (Tt (Fc 1 2 Tl Fn))) (Fc 1 1 (Tm 0 2 (Tt (Fc 1 2 Tl Fn))) (Fc 1 2 (Tm 0 2 (Tt (Fc 1 1 Tl Fn))) Fn))))) (Fc 0 2 (Tm 1 1 (Tt (Fc 0 0 (Tm 1 0 (Tt (Fc 1 2 Tl Fn))) (Fc 1 0 (Tm 0 0 Tl) (Fc 1 2 (Tm 0 0 Tl) Fn))))) (Fc 1 0 (Tm 0 0 (Tt (Fc 0 2 (Tm 1 1 Tl) (Fc 1 1 (Tm 0 2 Tl) (Fc 1 2 (Tm 0 2 Tl) Fn))))) (Fc 1 1 (Tm 0 2 (Tt (Fc 0 0 (Tm 1 2 Tl) (Fc 1 0 (Tm 0 0 Tl) (Fc 1 2 (Tm 0 0 Tl) Fn))))) (Fc 1 2 (Tm 0 0 (Tt (Fc 0 2 (Tm 1 1 Tl) (Fc 1 0 (Tm 0 2 Tl) (Fc 1 1 (Tm 0 2 Tl) Fn))))) Fn))))))) (Fc 2 2 (Tm 2 0 (Tt (Fc 0 0 (Tm 1 1 (Tt (Fc 0 2 (Tm 1 2 (Tt (Fc 1 0 Tl Fn))) (Fc 1 0 (Tm 0 2 Tl) (Fc 1 2 (Tm 0 2 Tl) Fn))))) (Fc 0 2 (Tm 1 2 (Tt (Fc 0 0 (Tm 1 1 (Tt (Fc 1 0 Tl Fn))) (Fc 1 0 (Tm 0 0 (Tt (Fc 1 1 Tl Fn))) (Fc 1 1 (Tm 0 0 (Tt (Fc 1 0 Tl Fn))) Fn))))) (Fc 1 0 (Tm 0 2 (Tt (Fc 0 0 (Tm 1 1 Tl) (Fc 1 1 (Tm 0 0 Tl) (Fc 1 2 (Tm 0 0 Tl) Fn))))) (Fc 1 1 (Tm 0 0 (Tt (Fc 0 2 (Tm 1 0 Tl) (Fc 1 0 (Tm 0 2 Tl) (Fc 1 2 (Tm 0 2 Tl) Fn))))) (Fc 1 2 (Tm 0 2 (Tt (Fc 0 0 (Tm 1 1 Tl) (Fc 1 0 (Tm 0 0 Tl) (Fc 1 1 (Tm 0 0 Tl) Fn))))) Fn))))))) Fn)))))))))

def certD_8 : GTree :=
  (Tm 1 1 (Tt (Fc 0 0 (Tm 0 1 (Tt (Fc 0 2 (Tm 1 2 (Tt (Fc 1 0 (Tm 2 1 Tl) (Fc 2 0 (Tm 1 0 Tl) (Fc 2 1 (Tm 1 0 Tl) Fn))))) (Fc 1 0 (Tm 2 0 (Tt (Fc 0 2 (Tm 2 1 Tl) (Fc 1 2 (Tm 0 2 Tl) (Fc 2 1 (Tm 0 2 Tl) Fn))))) (Fc 1 2 (Tm 0 2 (Tt (Fc 1 0 (Tm 2 0 Tl) (Fc 2 0 (Tm 2 1 Tl) (Fc 2 1 (Tm 2 0 Tl) Fn))))) (Fc 2 0 (Tm 2 1 Tl) (Fc 2 1 (Tm 2 0 (Tt (Fc 0 2 (Tm 1 2 (Tt (Fc 1 0 Tl Fn))) (Fc 1 0 (Tm 0 2 Tl) (Fc 1 2 (Tm 0 2 Tl) Fn))))) Fn))))))) (Fc 0 1 (Tm 0 0 (Tt (Fc 0 2 (Tm 1 2 (Tt (Fc 1 0 (Tm 2 0 (Tt (Fc 2 1 Tl Fn))) (Fc 2 0 (Tm 1 0 Tl) (Fc 2 1 (Tm 1 0 Tl) Fn))))) (Fc 1 0 (Tm 0 2 (Tt (Fc 1 2 (Tm 2 0 Tl) (Fc 2 0 (Tm 2 1 (Tt (Fc 1 2 Tl Fn))) (Fc 2 1 (Tm 2 0 Tl) Fn))))) (Fc 1 2 (Tm 0 2 (Tt (Fc 1 0 (Tm 2 0 Tl) (Fc 2 0 (Tm 2 1 (Tt (Fc 1 0 Tl Fn))) (Fc 2 1 (Tm 2 0 Tl) Fn))))) (Fc 2 0 (Tm 2 1 (Tt (Fc 0 2 (Tm 1 2 (Tt (Fc 1 0 Tl Fn))) (Fc 1 0 (Tm 0 2 (Tt (Fc 1 2 Tl Fn))) (Fc 1 2 (Tm 0 2 (Tt (Fc 1 0 Tl Fn))) Fn))))) (Fc 2 1 (Tm 2 0 (Tt (Fc 0 2 (Tm 1 0 Tl) (Fc 1 0 (Tm 0 2 Tl) (Fc 1 2 (Tm 0 2 Tl) Fn))))) Fn))))))) (Fc 0 2 (Tm 1 2 (Tt (Fc 0 0 (Tm 0 1 (Tt (Fc 1 0 (Tm 2 1 Tl) (Fc 2 0 (Tm 1 0 Tl) (Fc 2 1 (Tm 1 0 Tl) Fn))))) (Fc 0 1 (Tm 1 0 Tl) (Fc 1 0 (Tm 0 0 (Tt (Fc 0 1 (Tm 2 0 (Tt (Fc 2 1 Tl Fn))) (Fc 2 0 (Tm 2 1 (Tt (Fc 0 1 Tl Fn))) (Fc 2 1 (Tm 2 0 (Tt (Fc 0 1 Tl Fn))) Fn))))) (Fc 2 0 (Tm 1 0 Tl) (Fc 2 1 (Tm 1 0 Tl) Fn))))))) (Fc 1 0 (Tm 0 0 (Tt (Fc 0 1 (Tm 0 2 (Tt (Fc 1 2 (Tm 2 0 Tl) (Fc 2 0 (Tm 2 1 (Tt (Fc 1 2 Tl Fn))) (Fc 2 1 (Tm 2 0 Tl) Fn))))) (Fc 0 2 (Tm 1 2 (Tt (Fc 0 1 (Tm 2 0 (Tt (Fc 2 1 Tl Fn))) (Fc 2 0 (Tm 2 1 (Tt (Fc 0 1 Tl Fn))) (Fc 2 1 (Tm 2 0 (Tt (Fc 0 1 Tl Fn))) Fn))))) (Fc 1 2 (Tm 0 2 (Tt (Fc 0 1 (Tm 2 0 Tl) (Fc 2 0 (Tm 0 1 Tl) (Fc 2 1 (Tm 0 1 Tl) Fn))))) (Fc 2 0 (Tm 2 1 (Tt (Fc 0 1 (Tm 0 2 (Tt (Fc 1 2 Tl Fn))) (Fc 0 2 (Tm 0 1 Tl) (Fc 1 2 (Tm 0 1 Tl) Fn))))) (Fc 2 1 (Tm 2 0 (Tt (Fc 0 1 (Tm 0 2 Tl) (Fc 0 2 (Tm 1 2 (Tt (Fc 0 1 Tl Fn))) (Fc 1 2 (Tm 0 2 Tl) Fn))))) Fn))))))) (Fc 1 2 (Tm 0 2 (Tt (Fc 0 0 (Tm 0 1 (Tt (Fc 1 0 (Tm 2 0 Tl) (Fc 2 0 (Tm 2 1 Tl) (Fc 2 1 (Tm 2 0 Tl) Fn))))) (Fc 0 1 (Tm 2 0 Tl) (Fc 1 0 (Tm 0 0 (Tt (Fc 0 1 (Tm 2 0 Tl) (Fc 2 0 (Tm 0 1 Tl) (Fc 2 1 (Tm 0 1 Tl) Fn))))) (Fc 2 0 (Tm 2 1 (Tt (Fc 0 0 (Tm 0 1 Tl) (Fc 0 1 (Tm 0 0 (Tt (Fc 1 0 Tl Fn))) (Fc 1 0 (Tm 0 1 Tl) Fn))))) (Fc 2 1 (Tm 2 0 Tl) Fn))))))) (Fc 2 0 (Tm 2 1 (Tt (Fc 0 0 (Tm 0 1 Tl) (Fc 0 1 (Tm 0 0 (Tt (Fc 0 2 (Tm 1 2 (Tt (Fc 1 0 Tl Fn))) (Fc 1 0 (Tm 0 2 (Tt (Fc 1 2 Tl Fn))) (Fc 1 2 (Tm 0 2 (Tt (Fc 1 0 Tl Fn))) Fn))))) (Fc 0 2 (Tm 0 1 Tl) (Fc 1 0 (Tm 0 1 Tl) (Fc 1 2 (Tm 0 1 Tl) Fn))))))) (Fc 2 1 (Tm 2 0 (Tt (Fc 0 0 (Tm 0 2 Tl) (Fc 0 1 (Tm 0 0 (Tt (Fc 0 2 (Tm 1 0 Tl) (Fc 1 0 (Tm 0 2 Tl) (Fc 1 2 (Tm 0 2 Tl) Fn))))) (Fc 0 2 (Tm 1 2 (Tt (Fc 0 0 (Tm 1 0 Tl) (Fc 0 1 (Tm 1 0 Tl) (Fc 1 0 (Tm 0 0 (Tt (Fc 0 1 Tl Fn))) Fn))))) (Fc 1 0 (Tm 0 2 Tl) (Fc 1 2 (Tm 0 2 Tl) Fn))))))) Fn)))))))))

/-- Certificate: with X to move on the empty board, O (replying with `minimax`) still holds X to at most a draw (score at most 0 for every X opening). -/
def certD : GTree :=
  Tt (Fc 0 0 certD_0 (Fc 0 1 certD_1 (Fc 0 2 certD_2 (Fc 1 0 certD_3 (Fc 1 1 certD_4 (Fc 1 2 certD_5 (Fc 2 0 certD_6 (Fc 2 1 certD_7 (Fc 2 2 certD_8 Fn)))))))))

theorem certA_check : checkT Role.X Board.new Role.X certA = true := by decide

theorem certC_check : checkT Role.O Board.new Role.O certC = true := by decide

theorem certB_check : checkT Role.X Board.new Role.O certB = true := by decide

theorem certD_check : checkT Role.O Board.new Role.X certD = true := by decide

/-- The game value of the empty board is a draw, whichever side moves first:
both bounds follow from the four validated strategy certificates. -/
theorem minimax_new_score :
    (minimax Board.new Role.X).score = 0 ∧ (minimax Board.new Role.O).score = 0 := by
  have hA : Good Role.X (minimax Board.new Role.X).score :=
    checkT_sound Role.X certA Board.new Role.X Reachable.new certA_check
  have hB : Good Role.X (minimax Board.new Role.O).score :=
    checkT_sound Role.X certB Board.new Role.O Reachable.new certB_check
  have hC : Good Role.O (minimax Board.new Role.O).score :=
    checkT_sound Role.O certC Board.new Role.O Reachable.new certC_check
  have hD : Good Role.O (minimax Board.new Role.X).score :=
    checkT_sound Role.O certD Board.new Role.X Reachable.new certD_check
  have hA' : (0 : Int) ≤ (minimax Board.new Role.X).score := hA
  have hB' : (0 : Int) ≤ (minimax Board.new Role.O).score := hB
  have hC' : (minimax Board.new Role.O).score ≤ 0 := hC
  have hD' : (minimax Board.new Role.X).score ≤ 0 := hD
  omega

/-- Claim C2: in every complete game from the empty board in which the sides
marked by `isMM` play `minimax`'s move at each of their turns (the others any
available spot — the random controller included), the outcome is never a win
for the role opposing an `isMM` side; and when both sides play `minimax`
(self-play), the outcome is a draw. -/
theorem claim_C2 (isMM : Role → Bool) (p0 : Role) (out : GameResult)
    (hgame : Game isMM Board.new p0 out) :
    (∀ r sol, isMM r = true → out ≠ GameResult.Winner r.other sol) ∧
    ((isMM Role.O = true ∧ isMM Role.X = true) → out = GameResult.Draw) := by
  have hv := minimax_new_score
  refine game_never_loses hgame ⟨Reachable.new, by decide, by decide, by decide⟩ ?_ ?_
  · intro _
    cases p0 with
    | X =>
      have := hv.1
      omega
    | O =>
      have := hv.2
      omega
  · intro _
    cases p0 with
    | X =>
      have := hv.1
      omega
    | O =>
      have := hv.2
      omega

theorem movOk_false {b : Board} {p : Role} {s : PlayingPosition}
    (h : s ∈ b.get_available_spots) : movOk (fun _ => false) b p s := by
  unfold movOk
  rw [if_neg (by simp)]
  exact h

/-- Witness for `claim_C2`: a concrete complete game (no side using the
search) in which O fills the top row; the conclusions hold vacuously. -/
theorem claim_C2_witness :
    ∃ out, Game (fun _ => false) Board.new Role.O out ∧
      ((∀ r sol, (fun _ => false : Role → Bool) r = true →
          out ≠ GameResult.Winner r.other sol) ∧
        (((fun _ => false : Role → Bool) Role.O = true ∧
            (fun _ => false : Role → Bool) Role.X = true) →
          out = GameResult.Draw)) := by
  have g : Game (fun _ => false) Board.new Role.O
      (((((Board.new.set 0 0 Role.O).1.set 0 1 Role.X).1.set 1 0
        Role.O).1.set 1 1 Role.X).1.set 2 0 Role.O).2 :=
    Game.step (s := (0, 0)) (movOk_false (by decide)) (by decide)
      (Game.step (s := (0, 1)) (movOk_false (by decide)) (by decide)
        (Game.step (s := (1, 0)) (movOk_false (by decide)) (by decide)
          (Game.step (s := (1, 1)) (movOk_false (by decide)) (by decide)
            (Game.last (s := (2, 0)) (movOk_false (by decide)) (by decide)))))
  exact ⟨_, g, claim_C2 _ _ _ g⟩
